import Mathlib

/-! BLE Mesh Time model: codec, time state, local setters and message handlers

A shallow embedding of `time_model_messages.h`, `time_model_common.h` and
`time_model_setup_server.c`.  C machine integers are `Nat`/`Int` values; every
conversion that can truncate in the source (casts in the codec, assignments to a
bit-field, `uint8_t`/`uint64_t` arithmetic) is written with an explicit modulus.
-/

namespace TimeModel

/-! ## Machine integer conversions -/

/-- Conversion of a C `int` value to `uint8_t`. -/
def to_uint8 (x : Int) : Nat := (x % 256).toNat

/-- Conversion of a C `int` value to `uint16_t`. -/
def to_uint16 (x : Int) : Nat := (x % 65536).toNat

/-- Conversion of a C `int` value to `int16_t` (two's complement wrap). -/
def to_int16 (x : Int) : Int := (x + 32768) % 65536 - 32768

/-- Conversion of a C integer value to `int32_t` (two's complement wrap). -/
def to_int32 (x : Int) : Int := (x + 2147483648) % 4294967296 - 2147483648

/-- Width of the `uint64_t x : 40` bit-fields that hold TAI instants. -/
def BITS40 : Nat := 2 ^ 40

/-- Range of `uint64_t`. -/
def BITS64 : Nat := 2 ^ 64

/-! ## time_model_common.h -/

def TAI_TIME_UNKNOWN : Nat := 0
def TAI_TIME_MAX_VAL : Nat := 1099511627775
def TIME_ZONE_CHANGE_UNKNOWN : Nat := 0
def TIME_ZONE_STATE_OFFSET_FACTOR : Int := 0x40
def TIME_ZONE_CHANGE_MIN_VAL : Int := -64
def TIME_ZONE_CHANGE_MAX_VAL : Int := 192
def TAI_DELTA_CHANGE_UNKNOWN : Nat := 0
def TAI_DELTA_STATE_OFFSET_FACTOR : Int := 0x00FF
def TAI_DELTA_CHANGE_MIN_VAL : Int := -255
def TAI_DELTA_CHANGE_MAX_VAL : Int := 32512

/-- Values of the enum `time_role_t`; the state keeps the raw enum value. -/
def TIME_ROLE_NONE : Nat := 0x00
def TIME_ROLE_AUTHORITY : Nat := 0x01
def TIME_ROLE_RELAY : Nat := 0x02
def TIME_ROLE_CLIENT : Nat := 0x03

/-- Parameters for the Time Set message (`time_set_params_t`). -/
structure time_set_params_t where
  /-- A `uint64_t`. -/
  tai_seconds : Nat
  /-- A `uint8_t`. -/
  subsecond : Nat
  /-- A `uint8_t`. -/
  uncertainty : Nat
  time_authority : Bool
  /-- An `int32_t`. -/
  tai_utc_delta : Int
  /-- A `uint8_t` in the source, so the record cannot carry a negative offset. -/
  time_zone_offset : Nat
deriving DecidableEq, Repr

/-- Parameters for the Time Zone Set message (`time_zone_set_params_t`). -/
structure time_zone_set_params_t where
  /-- An `int16_t`. -/
  time_zone_offset_new : Int
  /-- A `uint64_t`. -/
  time_zone_change : Nat
deriving DecidableEq, Repr

/-- Parameters for the TAI Delta Set message (`tai_utc_delta_set_params_t`). -/
structure tai_utc_delta_set_params_t where
  /-- An `int32_t`. -/
  tai_utc_delta_new : Int
  /-- A `uint64_t`. -/
  tai_utc_delta_change : Nat
deriving DecidableEq, Repr

/-- Parameters for the Time Status message (`time_status_params_t`). -/
structure time_status_params_t where
  /-- A `uint64_t`. -/
  tai_seconds : Nat
  /-- A `uint8_t`. -/
  subsecond : Nat
  /-- A `uint8_t`. -/
  uncertainty : Nat
  time_authority : Bool
  /-- An `int32_t`. -/
  tai_utc_delta : Int
  /-- A `uint8_t` in the source. -/
  time_zone_offset : Nat
deriving DecidableEq, Repr

/-- Parameters for the Time Role Set message (`time_role_set_params_t`). -/
structure time_role_set_params_t where
  /-- A `time_role_t`, kept as the raw enum value. -/
  time_role : Nat
deriving DecidableEq, Repr

/-- The C function `validate_tai_time_arg(uint64_t arg)`. -/
def validate_tai_time_arg (arg : Nat) : Bool :=
  decide (arg ≤ TAI_TIME_MAX_VAL)

/-- The C function `validate_time_zone_offset_arg(int16_t arg)`. -/
def validate_time_zone_offset_arg (arg : Int) : Bool :=
  decide (arg ≥ TIME_ZONE_CHANGE_MIN_VAL) && decide (arg ≤ TIME_ZONE_CHANGE_MAX_VAL)

/-- The C function `validate_tai_utc_delta_arg(int32_t arg)`. -/
def validate_tai_utc_delta_arg (arg : Int) : Bool :=
  decide (arg ≥ TAI_DELTA_CHANGE_MIN_VAL) && decide (arg ≤ TAI_DELTA_CHANGE_MAX_VAL)

/-! ## time_model_messages.h -/

def TIME_STATUS_MINLEN : Nat := 5
def TIME_STATUS_MAXLEN : Nat := 10
def TIME_ZONE_STATUS_LEN : Nat := 7
def TAI_UTC_DELTA_STATUS_LEN : Nat := 9
def TIME_ROLE_STATUS_LEN : Nat := 1

def TIME_OPCODE_GET : Nat := 0x8237
def TIME_OPCODE_SET : Nat := 0x5C
def TIME_OPCODE_STATUS : Nat := 0x5D
def TIME_OPCODE_ROLE_STATUS : Nat := 0x823A
def TIME_OPCODE_ZONE_STATUS : Nat := 0x823D
def TIME_OPCODE_TAI_UTC_DELTA_STATUS : Nat := 0x8240

/-- The C function `time_zone_offset_encode(int16_t arg)`: the sum is formed in
`int` and cast to `uint8_t`. -/
def time_zone_offset_encode (arg : Int) : Nat :=
  to_uint8 (arg + TIME_ZONE_STATE_OFFSET_FACTOR)

/-- The C function `time_zone_offset_decode(uint8_t msg_param)`. -/
def time_zone_offset_decode (msg_param : Nat) : Int :=
  to_int16 ((msg_param : Int) - TIME_ZONE_STATE_OFFSET_FACTOR)

/-- The C function `tai_utc_delta_encode(int32_t arg)`. -/
def tai_utc_delta_encode (arg : Int) : Nat :=
  to_uint16 (arg + TAI_DELTA_STATE_OFFSET_FACTOR)

/-- The C function `tai_utc_delta_decode(uint16_t msg_param)`. -/
def tai_utc_delta_decode (msg_param : Nat) : Int :=
  to_int32 ((msg_param : Int) - TAI_DELTA_STATE_OFFSET_FACTOR)

/-- Message packet for the Time Status message (`time_status_msg_pkt_t`). -/
structure time_status_msg_pkt_t where
  /-- A 40-bit field. -/
  tai_seconds : Nat
  subsecond : Nat
  uncertainty : Nat
  /-- A 1-bit field. -/
  time_authority : Nat
  /-- A 15-bit field. -/
  tai_utc_delta : Nat
  time_zone_offset : Nat
deriving DecidableEq, Repr

/-- Message packet for the Time Set message (`time_set_msg_pkt_t`). -/
structure time_set_msg_pkt_t where
  /-- A 40-bit field. -/
  tai_seconds : Nat
  subsecond : Nat
  uncertainty : Nat
  /-- A 1-bit field. -/
  time_authority : Nat
  /-- A 15-bit field. -/
  tai_utc_delta : Nat
  time_zone_offset : Nat
deriving DecidableEq, Repr

/-- Message packet for the Time Zone Set message (`time_zone_set_msg_pkt_t`). -/
structure time_zone_set_msg_pkt_t where
  time_zone_offset_new : Nat
  /-- A 40-bit field. -/
  time_zone_change : Nat
deriving DecidableEq, Repr

/-- Message packet for the TAI Delta Set message (`tai_utc_delta_set_msg_pkt_t`). -/
structure tai_utc_delta_set_msg_pkt_t where
  /-- A 15-bit field. -/
  tai_utc_delta_new : Nat
  padding : Nat
  /-- A 40-bit field. -/
  tai_utc_delta_change : Nat
deriving DecidableEq, Repr

/-- Message packet for the Time Role Set message (`time_role_set_msg_pkt_t`). -/
structure time_role_set_msg_pkt_t where
  /-- A `uint8_t`. -/
  time_role : Nat
deriving DecidableEq, Repr

/-- Message packet for the Time Zone Status message (`time_zone_status_msg_pkt_t`). -/
structure time_zone_status_msg_pkt_t where
  time_zone_offset_current : Nat
  time_zone_offset_new : Nat
  /-- A 40-bit field. -/
  time_zone_change : Nat
deriving DecidableEq, Repr

/-- Message packet for the TAI Delta Status message
(`tai_utc_delta_status_msg_pkt_t`). -/
structure tai_utc_delta_status_msg_pkt_t where
  /-- A 15-bit field. -/
  tai_utc_delta_current : Nat
  padding1 : Nat
  /-- A 15-bit field. -/
  tai_utc_delta_new : Nat
  padding2 : Nat
  /-- A 40-bit field. -/
  tai_utc_delta_change : Nat
deriving DecidableEq, Repr

/-! ## The access layer (nRF Mesh SDK), a collaborator outside the sources -/

/-- The SDK status code `NRF_SUCCESS` (`nrf_error.h`). -/
def NRF_SUCCESS : Nat := 0
/-- The SDK status code `NRF_ERROR_INVALID_PARAM`. -/
def NRF_ERROR_INVALID_PARAM : Nat := 7
/-- The SDK status code `NRF_ERROR_INVALID_STATE`. -/
def NRF_ERROR_INVALID_STATE : Nat := 8
/-- The SDK status code `NRF_ERROR_NULL`. -/
def NRF_ERROR_NULL : Nat := 14
/-- The SDK status code `NRF_ERROR_FORBIDDEN`. -/
def NRF_ERROR_FORBIDDEN : Nat := 15
/-- The SDK status code `NRF_ERROR_BUSY`. -/
def NRF_ERROR_BUSY : Nat := 17

/-- The SDK constant `ACCESS_COMPANY_ID_NONE`. -/
def ACCESS_COMPANY_ID_NONE : Nat := 0xFFFF

/-- An `access_opcode_t`. -/
structure access_opcode_t where
  opcode : Nat
  company_id : Nat
deriving DecidableEq, Repr

/-- The SDK initialiser `ACCESS_OPCODE_SIG(opcode)`. -/
def ACCESS_OPCODE_SIG (opcode : Nat) : access_opcode_t :=
  { opcode := opcode, company_id := ACCESS_COMPANY_ID_NONE }

/-- What `p_buffer` of an outgoing message points at: one of the packet records,
or nothing (`NULL`). -/
inductive msg_pkt_t where
  | time_status (pkt : time_status_msg_pkt_t)
  | time_zone_status (pkt : time_zone_status_msg_pkt_t)
  | tai_utc_delta_status (pkt : tai_utc_delta_status_msg_pkt_t)
  | time_role_status (time_role : Nat)
  | null
deriving DecidableEq, Repr

/-- An outgoing message handed to the access layer (`access_message_tx_t`).  The
servers build it with a designated initialiser that leaves `access_token` zero. -/
structure access_message_tx_t where
  opcode : access_opcode_t
  p_buffer : msg_pkt_t
  length : Nat
  force_segmented : Bool
  transmic_size : Nat
  access_token : Nat := 0
deriving DecidableEq, Repr

/-- The context of an acknowledged message (`access_reliable_t`).  `status_cb` tells
whether the callback pointer is set (to the client's `transaction_status`). -/
structure access_reliable_t where
  model_handle : Nat
  message : access_message_tx_t
  reply_opcode : access_opcode_t
  /-- A `uint32_t`, in microseconds. -/
  timeout : Nat
  status_cb : Bool
deriving DecidableEq, Repr

/-- An incoming message (`access_message_rx_t`): its opcode, the source address
`meta_data.src.value` and its length.  The payload `p_data` is handed to a
handler as the packet record the handler casts it to. -/
structure access_message_rx_t where
  opcode : access_opcode_t
  src : Nat
  length : Nat
deriving DecidableEq, Repr

/-- A call that has an effect outside the model: into the access layer, or into
an application callback that receives the model through a `const` pointer
together with the decoded `in_data`. -/
inductive access_call where
  | publish_ttl_set (ttl : Nat)
  | publish (msg : access_message_tx_t)
  | reply (p_message : access_message_rx_t) (msg : access_message_tx_t)
  | time_status_cb (in_data : time_status_params_t)
  | time_set_cb (in_data : time_set_params_t)
  | time_zone_set_cb (in_data : time_zone_set_params_t)
  | tai_utc_delta_set_cb (in_data : tai_utc_delta_set_params_t)
  | time_role_set_cb (in_data : time_role_set_params_t)
  | reliable_publish (p_reliable : access_reliable_t)
  | model_add (model_id : Nat) (element_index : Nat)
  | subscription_list_alloc (handle : Nat)
  | client_time_status_cb (p_meta_src : Nat) (in_data : time_status_params_t)
deriving DecidableEq, Repr

/-- What the access layer and the device state manager answer during one call of
the model: the publish TTL read by `access_model_publish_ttl_get`, the status
codes of `access_model_publish_ttl_set`, `access_model_publish` and
`access_model_reply`, and `address_start` of the local unicast addresses. -/
structure access_layer_t where
  publish_ttl : Nat
  publish_ttl_set_status : Nat
  publish_status : Nat
  reply_status : Nat
  local_unicast_address : Nat
deriving DecidableEq, Repr

/-- The messages passed to `access_model_publish` in a list of calls. -/
def published : List access_call → List access_message_tx_t
  | [] => []
  | access_call.publish msg :: rest => msg :: published rest
  | _ :: rest => published rest

/-- The replies passed to `access_model_reply` in a list of calls, each with the
message it answers. -/
def replied : List access_call → List (access_message_rx_t × access_message_tx_t)
  | [] => []
  | access_call.reply p_message msg :: rest => (p_message, msg) :: replied rest
  | _ :: rest => replied rest

/-- The contexts passed to `access_model_reliable_publish` in a list of calls. -/
def reliably_published : List access_call → List access_reliable_t
  | [] => []
  | access_call.reliable_publish p_reliable :: rest => p_reliable :: reliably_published rest
  | _ :: rest => reliably_published rest

/-! ## time_model_setup_server.h -/

/-- The default `TIME_STATUS_MSG_TTL`. -/
def TIME_STATUS_MSG_TTL : Nat := 0

/-- State definition (`time_server_state_t`). -/
structure time_server_state_t where
  /-- A `uint64_t : 40` bit-field. -/
  tai_seconds : Nat
  /-- A `uint8_t`. -/
  subsecond : Nat
  /-- A `uint8_t`. -/
  uncertainty : Nat
  time_authority : Bool
  /-- An `int16_t`. -/
  time_zone_offset_current : Int
  /-- An `int16_t`. -/
  time_zone_offset_new : Int
  /-- A `uint64_t : 40` bit-field. -/
  time_zone_change : Nat
  /-- An `int32_t`. -/
  tai_utc_delta_current : Int
  /-- An `int32_t`. -/
  tai_utc_delta_new : Int
  /-- A `uint64_t : 40` bit-field. -/
  tai_utc_delta_change : Nat
  /-- A `time_role_t`, kept as the raw enum value. -/
  time_role : Nat
deriving DecidableEq, Repr

/-- Settings of a time server instance (`time_server_settings_t`). -/
structure time_server_settings_t where
  force_segmented : Bool
  transmic_size : Nat
  publish_upon_state_change : Bool
deriving DecidableEq, Repr

/-- Model struct (`struct __time_server_t`). -/
structure time_server_t where
  model_handle : Nat
  settings : time_server_settings_t
  server_state : time_server_state_t
  flash_state_handle : Nat
deriving DecidableEq, Repr

/-! ## time_model_setup_server.c

The build option `TIME_MODEL_USE_APP_TIMER` has its default 0, so the app timer
calls are compiled out.  A pointer argument that the source tests against `NULL`
is an `Option`. -/

/-- The C function `current_time_check_time_changes`. -/
def current_time_check_time_changes (p_server : time_server_t) : time_server_t :=
  let p_server :=
    if p_server.server_state.tai_seconds == p_server.server_state.time_zone_change &&
        p_server.server_state.time_zone_change != TIME_ZONE_CHANGE_UNKNOWN then
      { p_server with server_state := { p_server.server_state with
          time_zone_offset_current := p_server.server_state.time_zone_offset_new } }
    else p_server
  if p_server.server_state.tai_seconds == p_server.server_state.tai_utc_delta_change &&
      p_server.server_state.tai_utc_delta_change != TAI_DELTA_CHANGE_UNKNOWN then
    { p_server with server_state := { p_server.server_state with
        tai_utc_delta_current := p_server.server_state.tai_utc_delta_new } }
  else p_server

/-- The C function `time_state_update_time`. -/
def time_state_update_time (p_server : Option time_server_t) (tai_seconds : Nat)
    (subsecond : Nat) : Option time_server_t :=
  match p_server with
  | none => none
  | some srv =>
    if !validate_tai_time_arg tai_seconds then some srv
    else
      let srv := { srv with server_state := { srv.server_state with
        tai_seconds := tai_seconds % BITS40 } }
      let srv := { srv with server_state := { srv.server_state with
        subsecond := subsecond } }
      some (current_time_check_time_changes srv)

/-- The C function `time_state_update_time_delta`.  The sum that is validated is
formed in `uint64_t`; the compound assignments store it into the 40-bit field and
the `uint8_t` field. -/
def time_state_update_time_delta (p_server : Option time_server_t)
    (delta_tai_seconds : Nat) (delta_subsecond : Nat) : Option time_server_t :=
  match p_server with
  | none => none
  | some srv =>
    if !validate_tai_time_arg
        ((srv.server_state.tai_seconds + delta_tai_seconds) % BITS64) then some srv
    else
      let srv := { srv with server_state := { srv.server_state with
        tai_seconds :=
          ((srv.server_state.tai_seconds + delta_tai_seconds) % BITS64) % BITS40 } }
      let srv := { srv with server_state := { srv.server_state with
        subsecond := (srv.server_state.subsecond + delta_subsecond) % 256 } }
      some (current_time_check_time_changes srv)

/-- The C function `time_state_update_uncertainty`. -/
def time_state_update_uncertainty (p_server : Option time_server_t)
    (uncertainty : Nat) : Option time_server_t :=
  match p_server with
  | none => none
  | some srv =>
    some { srv with server_state := { srv.server_state with uncertainty := uncertainty } }

/-- The C function `time_status_send`: the status code and the calls made. -/
def time_status_send (access : access_layer_t) (p_server : time_server_t)
    (p_message : Option access_message_rx_t) : Nat × List access_call :=
  let msg_pkt : time_status_msg_pkt_t :=
    { tai_seconds := p_server.server_state.tai_seconds, subsecond := 0, uncertainty := 0,
      time_authority := 0, tai_utc_delta := 0, time_zone_offset := 0 }
  let packed : time_status_msg_pkt_t × Nat :=
    if p_server.server_state.tai_seconds == TAI_TIME_UNKNOWN then
      (msg_pkt, TIME_STATUS_MINLEN)
    else
      ({ msg_pkt with
          subsecond := p_server.server_state.subsecond
          uncertainty := p_server.server_state.uncertainty
          time_authority := if p_server.server_state.time_authority then 1 else 0
          time_zone_offset :=
            time_zone_offset_encode p_server.server_state.time_zone_offset_current
          tai_utc_delta :=
            tai_utc_delta_encode p_server.server_state.tai_utc_delta_current % 2 ^ 15 },
        TIME_STATUS_MAXLEN)
  let reply : access_message_tx_t :=
    { opcode := ACCESS_OPCODE_SIG TIME_OPCODE_STATUS
      p_buffer := msg_pkt_t.time_status packed.1
      length := packed.2
      force_segmented := p_server.settings.force_segmented
      transmic_size := p_server.settings.transmic_size }
  match p_message with
  | none =>
    if p_server.server_state.tai_seconds == TAI_TIME_UNKNOWN then
      (NRF_ERROR_INVALID_STATE, [])
    else
      let previous_ttl := access.publish_ttl
      let status := access.publish_ttl_set_status
      if status == NRF_SUCCESS then
        (access.publish_status,
          [access_call.publish_ttl_set TIME_STATUS_MSG_TTL, access_call.publish reply,
            access_call.publish_ttl_set previous_ttl])
      else
        (status,
          [access_call.publish_ttl_set TIME_STATUS_MSG_TTL,
            access_call.publish_ttl_set previous_ttl])
  | some p_rx => (access.reply_status, [access_call.reply p_rx reply])

/-- The C function `time_zone_status_send`. -/
def time_zone_status_send (access : access_layer_t) (p_server : time_server_t)
    (p_message : Option access_message_rx_t) : Nat × List access_call :=
  let msg_pkt : time_zone_status_msg_pkt_t :=
    { time_zone_offset_current :=
        time_zone_offset_encode p_server.server_state.time_zone_offset_current
      time_zone_offset_new :=
        time_zone_offset_encode p_server.server_state.time_zone_offset_new
      time_zone_change := p_server.server_state.time_zone_change }
  let reply : access_message_tx_t :=
    { opcode := ACCESS_OPCODE_SIG TIME_OPCODE_ZONE_STATUS
      p_buffer := msg_pkt_t.time_zone_status msg_pkt
      length := TIME_ZONE_STATUS_LEN
      force_segmented := p_server.settings.force_segmented
      transmic_size := p_server.settings.transmic_size }
  match p_message with
  | none => (access.publish_status, [access_call.publish reply])
  | some p_rx => (access.reply_status, [access_call.reply p_rx reply])

/-- The C function `tai_utc_delta_status_send`. -/
def tai_utc_delta_status_send (access : access_layer_t) (p_server : time_server_t)
    (p_message : Option access_message_rx_t) : Nat × List access_call :=
  let msg_pkt : tai_utc_delta_status_msg_pkt_t :=
    { tai_utc_delta_current :=
        tai_utc_delta_encode p_server.server_state.tai_utc_delta_current % 2 ^ 15
      tai_utc_delta_new :=
        tai_utc_delta_encode p_server.server_state.tai_utc_delta_new % 2 ^ 15
      tai_utc_delta_change := p_server.server_state.tai_utc_delta_change
      padding1 := 0
      padding2 := 0 }
  let reply : access_message_tx_t :=
    { opcode := ACCESS_OPCODE_SIG TIME_OPCODE_TAI_UTC_DELTA_STATUS
      p_buffer := msg_pkt_t.tai_utc_delta_status msg_pkt
      length := TAI_UTC_DELTA_STATUS_LEN
      force_segmented := p_server.settings.force_segmented
      transmic_size := p_server.settings.transmic_size }
  match p_message with
  | none => (access.publish_status, [access_call.publish reply])
  | some p_rx => (access.reply_status, [access_call.reply p_rx reply])

/-- The C function `time_server_time_status_publish`. -/
def time_server_time_status_publish (access : access_layer_t)
    (p_server : time_server_t) : Nat × List access_call :=
  if p_server.server_state.time_role == TIME_ROLE_CLIENT then (NRF_ERROR_FORBIDDEN, [])
  else time_status_send access p_server none

/-- The C function `time_server_time_zone_status_publish`. -/
def time_server_time_zone_status_publish (access : access_layer_t)
    (p_server : time_server_t) : Nat × List access_call :=
  if p_server.server_state.time_role == TIME_ROLE_CLIENT then (NRF_ERROR_FORBIDDEN, [])
  else time_zone_status_send access p_server none

/-- The C function `time_server_tai_utc_delta_status_publish`. -/
def time_server_tai_utc_delta_status_publish (access : access_layer_t)
    (p_server : time_server_t) : Nat × List access_call :=
  if p_server.server_state.time_role == TIME_ROLE_CLIENT then (NRF_ERROR_FORBIDDEN, [])
  else tai_utc_delta_status_send access p_server none

/-- Result of a local setter: the returned status code, the server behind the
pointer after the call, and the calls made into the access layer. -/
structure setter_result where
  status : Nat
  server : Option time_server_t
  calls : List access_call
deriving DecidableEq, Repr

/-- The C function `time_server_state_set_time`.  The `uint8_t` field
`time_zone_offset` is converted to `int16_t` for the validation and for the store
into the state. -/
def time_server_state_set_time (access : access_layer_t) (p_server : Option time_server_t)
    (time_params : time_set_params_t) : setter_result :=
  match p_server with
  | none => { status := NRF_ERROR_NULL, server := none, calls := [] }
  | some srv =>
    let validate_args :=
      validate_tai_time_arg time_params.tai_seconds &&
      validate_tai_utc_delta_arg time_params.tai_utc_delta &&
      validate_time_zone_offset_arg (to_int16 (time_params.time_zone_offset : Int))
    if !validate_args then
      { status := NRF_ERROR_INVALID_PARAM, server := some srv, calls := [] }
    else
      let srv := { srv with server_state := { srv.server_state with
        tai_seconds := time_params.tai_seconds % BITS40
        subsecond := time_params.subsecond
        uncertainty := time_params.uncertainty
        time_authority := time_params.time_authority
        time_zone_offset_current := to_int16 (time_params.time_zone_offset : Int)
        tai_utc_delta_current := time_params.tai_utc_delta } }
      if srv.settings.publish_upon_state_change then
        let sent := time_server_time_status_publish access srv
        { status := sent.1, server := some srv, calls := sent.2 }
      else
        { status := NRF_SUCCESS, server := some srv, calls := [] }

/-- The C function `time_server_state_set_time_zone_offset`. -/
def time_server_state_set_time_zone_offset (access : access_layer_t)
    (p_server : Option time_server_t) (time_zone_params : time_zone_set_params_t) :
    setter_result :=
  match p_server with
  | none => { status := NRF_ERROR_NULL, server := none, calls := [] }
  | some srv =>
    let validate_args :=
      validate_tai_time_arg time_zone_params.time_zone_change &&
      validate_time_zone_offset_arg time_zone_params.time_zone_offset_new
    if !validate_args then
      { status := NRF_ERROR_INVALID_PARAM, server := some srv, calls := [] }
    else
      let srv := { srv with server_state := { srv.server_state with
        time_zone_offset_new := time_zone_params.time_zone_offset_new
        time_zone_change := time_zone_params.time_zone_change % BITS40 } }
      if srv.settings.publish_upon_state_change then
        let sent := time_server_time_zone_status_publish access srv
        { status := sent.1, server := some srv, calls := sent.2 }
      else
        { status := NRF_SUCCESS, server := some srv, calls := [] }

/-- The C function `time_server_state_set_tai_utc_delta`. -/
def time_server_state_set_tai_utc_delta (access : access_layer_t)
    (p_server : Option time_server_t) (tai_utc_delta_params : tai_utc_delta_set_params_t) :
    setter_result :=
  match p_server with
  | none => { status := NRF_ERROR_NULL, server := none, calls := [] }
  | some srv =>
    let validate_args :=
      validate_tai_time_arg tai_utc_delta_params.tai_utc_delta_change &&
      validate_tai_utc_delta_arg tai_utc_delta_params.tai_utc_delta_new
    if !validate_args then
      { status := NRF_ERROR_INVALID_PARAM, server := some srv, calls := [] }
    else
      let srv := { srv with server_state := { srv.server_state with
        tai_utc_delta_new := tai_utc_delta_params.tai_utc_delta_new
        tai_utc_delta_change := tai_utc_delta_params.tai_utc_delta_change % BITS40 } }
      if srv.settings.publish_upon_state_change then
        let sent := time_server_tai_utc_delta_status_publish access srv
        { status := sent.1, server := some srv, calls := sent.2 }
      else
        { status := NRF_SUCCESS, server := some srv, calls := [] }

/-- Settings of a time setup server instance (`time_setup_server_settings_t`). -/
structure time_setup_server_settings_t where
  element_index : Nat
  force_segmented : Bool
  transmic_size : Nat
  publish_upon_state_change : Bool
deriving DecidableEq, Repr

/-- Model struct (`struct __time_setup_server_t`). -/
structure time_setup_server_t where
  model_handle : Nat
  time_server : time_server_t
  settings : time_setup_server_settings_t
deriving DecidableEq, Repr

/-- The callback table `time_serv_callbacks` (`time_server_callbacks_t`).  A `NULL`
entry is `none` or `false`.  The get callbacks receive the server through a
non-`const` pointer, so a registered one is the update it performs on the server;
`time_status_cb` receives a `const` pointer. -/
structure time_server_callbacks_t where
  time_get_cb : Option (time_server_t → time_server_t)
  time_status_cb : Bool
  time_zone_get_cb : Option (time_server_t → time_server_t)
  tai_utc_delta_get_cb : Option (time_server_t → time_server_t)

/-- The callback table `time_setup_serv_callbacks`
(`time_setup_server_callbacks_t`).  The set callbacks receive a `const` pointer;
`time_role_get_cb` receives a non-`const` one. -/
structure time_setup_server_callbacks_t where
  time_set_cb : Bool
  time_zone_set_cb : Bool
  tai_utc_delta_set_cb : Bool
  time_role_get_cb : Option (time_setup_server_t → time_setup_server_t)
  time_role_set_cb : Bool

/-- Result of a local setter of the setup server: the returned status code, the
setup server behind the pointer after the call, and the calls made. -/
structure setup_setter_result where
  status : Nat
  server : Option time_setup_server_t
  calls : List access_call
deriving DecidableEq, Repr

/-- The C function `time_role_status_send`.  The packet field is a `uint8_t`. -/
def time_role_status_send (access : access_layer_t) (p_s_server : time_setup_server_t)
    (p_message : Option access_message_rx_t) : Nat × List access_call :=
  let msg_pkt : Nat := p_s_server.time_server.server_state.time_role % 256
  let reply : access_message_tx_t :=
    { opcode := ACCESS_OPCODE_SIG TIME_OPCODE_ROLE_STATUS
      p_buffer := msg_pkt_t.time_role_status msg_pkt
      length := TIME_ROLE_STATUS_LEN
      force_segmented := p_s_server.settings.force_segmented
      transmic_size := p_s_server.settings.transmic_size }
  match p_message with
  | none => (access.publish_status, [access_call.publish reply])
  | some p_rx => (access.reply_status, [access_call.reply p_rx reply])

/-- The C function `time_setup_server_time_role_status_publish`. -/
def time_setup_server_time_role_status_publish (access : access_layer_t)
    (p_s_server : time_setup_server_t) : Nat × List access_call :=
  time_role_status_send access p_s_server none

/-- The C function `time_setup_server_state_set_time_role`. -/
def time_setup_server_state_set_time_role (access : access_layer_t)
    (p_s_server : Option time_setup_server_t) (time_role_params : time_role_set_params_t) :
    setup_setter_result :=
  match p_s_server with
  | none => { status := NRF_ERROR_NULL, server := none, calls := [] }
  | some srv =>
    let srv := { srv with time_server := { srv.time_server with
      server_state := { srv.time_server.server_state with
        time_role := time_role_params.time_role } } }
    let srv :=
      if time_role_params.time_role == TIME_ROLE_AUTHORITY then
        { srv with time_server := { srv.time_server with
          server_state := { srv.time_server.server_state with time_authority := true } } }
      else if time_role_params.time_role == TIME_ROLE_CLIENT ||
          time_role_params.time_role == TIME_ROLE_RELAY then
        { srv with time_server := { srv.time_server with
          server_state := { srv.time_server.server_state with time_authority := false } } }
      else srv
    if srv.settings.publish_upon_state_change then
      let sent := time_setup_server_time_role_status_publish access srv
      { status := sent.1, server := some srv, calls := sent.2 }
    else
      { status := NRF_SUCCESS, server := some srv, calls := [] }

/-- The C function `handle_time_status` of the time server.  `p_msg_in` is the
payload `p_rx_msg->p_data` seen through the cast to `time_status_msg_pkt_t`, and
`in_data_time_authority` is the indeterminate content of the field
`in_data.time_authority`, which the handler never assigns.  The result is the
server behind `p_args` after the call and the calls made. -/
def handle_time_status (access : access_layer_t) (callbacks : time_server_callbacks_t)
    (in_data_time_authority : Bool) (p_rx_msg : access_message_rx_t)
    (p_msg_in : time_status_msg_pkt_t) (p_args : time_server_t) :
    time_server_t × List access_call :=
  let p_server := p_args
  if p_server.server_state.time_role == TIME_ROLE_NONE ||
      p_server.server_state.time_role == TIME_ROLE_AUTHORITY then
    (p_server, [])
  else if access.local_unicast_address == p_rx_msg.src then
    (p_server, [])
  else
    let p_server := { p_server with server_state := { p_server.server_state with
      tai_seconds := p_msg_in.tai_seconds
      subsecond := p_msg_in.subsecond
      uncertainty := p_msg_in.uncertainty
      time_zone_offset_current := time_zone_offset_decode p_msg_in.time_zone_offset
      tai_utc_delta_current := tai_utc_delta_decode p_msg_in.tai_utc_delta } }
    let p_server := current_time_check_time_changes p_server
    let cb_calls : List access_call :=
      if callbacks.time_status_cb then
        [access_call.time_status_cb
          { tai_seconds := p_msg_in.tai_seconds
            subsecond := p_msg_in.subsecond
            uncertainty := p_msg_in.uncertainty
            time_authority := in_data_time_authority
            time_zone_offset :=
              to_uint8 (time_zone_offset_decode p_msg_in.time_zone_offset)
            tai_utc_delta := tai_utc_delta_decode p_msg_in.tai_utc_delta }]
      else []
    if p_server.server_state.time_role == TIME_ROLE_RELAY then
      if p_msg_in.time_authority != 0 then
        let p_server := { p_server with server_state := { p_server.server_state with
          time_authority := false } }
        (p_server, cb_calls ++ (time_status_send access p_server none).2)
      else (p_server, cb_calls)
    else (p_server, cb_calls)

/-- The C function `handle_time_set`; `p_msg_in` and `in_data_time_authority` are
as in `handle_time_status`. -/
def handle_time_set (access : access_layer_t) (callbacks : time_setup_server_callbacks_t)
    (in_data_time_authority : Bool) (p_rx_msg : access_message_rx_t)
    (p_msg_in : time_set_msg_pkt_t) (p_args : time_setup_server_t) :
    time_setup_server_t × List access_call :=
  let p_s_server := p_args
  let p_s_server := { p_s_server with time_server := { p_s_server.time_server with
    server_state := { p_s_server.time_server.server_state with
      tai_seconds := p_msg_in.tai_seconds
      subsecond := p_msg_in.subsecond
      uncertainty := p_msg_in.uncertainty
      time_zone_offset_current := time_zone_offset_decode p_msg_in.time_zone_offset
      tai_utc_delta_current := tai_utc_delta_decode p_msg_in.tai_utc_delta } } }
  let cb_calls : List access_call :=
    if callbacks.time_set_cb then
      [access_call.time_set_cb
        { tai_seconds := p_msg_in.tai_seconds
          subsecond := p_msg_in.subsecond
          uncertainty := p_msg_in.uncertainty
          time_authority := in_data_time_authority
          time_zone_offset := to_uint8 (time_zone_offset_decode p_msg_in.time_zone_offset)
          tai_utc_delta := tai_utc_delta_decode p_msg_in.tai_utc_delta }]
    else []
  (p_s_server, cb_calls ++ (time_status_send access p_s_server.time_server (some p_rx_msg)).2)

/-- The C function `handle_time_zone_set`. -/
def handle_time_zone_set (access : access_layer_t)
    (callbacks : time_setup_server_callbacks_t) (p_rx_msg : access_message_rx_t)
    (p_msg_in : time_zone_set_msg_pkt_t) (p_args : time_setup_server_t) :
    time_setup_server_t × List access_call :=
  let p_s_server := p_args
  let p_s_server := { p_s_server with time_server := { p_s_server.time_server with
    server_state := { p_s_server.time_server.server_state with
      time_zone_offset_new := time_zone_offset_decode p_msg_in.time_zone_offset_new
      time_zone_change := p_msg_in.time_zone_change } } }
  let cb_calls : List access_call :=
    if callbacks.time_zone_set_cb then
      [access_call.time_zone_set_cb
        { time_zone_offset_new := time_zone_offset_decode p_msg_in.time_zone_offset_new
          time_zone_change := p_msg_in.time_zone_change }]
    else []
  (p_s_server,
    cb_calls ++ (time_zone_status_send access p_s_server.time_server (some p_rx_msg)).2)

/-- The C function `handle_tai_utc_delta_set`. -/
def handle_tai_utc_delta_set (access : access_layer_t)
    (callbacks : time_setup_server_callbacks_t) (p_rx_msg : access_message_rx_t)
    (p_msg_in : tai_utc_delta_set_msg_pkt_t) (p_args : time_setup_server_t) :
    time_setup_server_t × List access_call :=
  let p_s_server := p_args
  let p_s_server := { p_s_server with time_server := { p_s_server.time_server with
    server_state := { p_s_server.time_server.server_state with
      tai_utc_delta_new := tai_utc_delta_decode p_msg_in.tai_utc_delta_new
      tai_utc_delta_change := p_msg_in.tai_utc_delta_change } } }
  let cb_calls : List access_call :=
    if callbacks.tai_utc_delta_set_cb then
      [access_call.tai_utc_delta_set_cb
        { tai_utc_delta_new := tai_utc_delta_decode p_msg_in.tai_utc_delta_new
          tai_utc_delta_change := p_msg_in.tai_utc_delta_change }]
    else []
  (p_s_server,
    cb_calls ++ (tai_utc_delta_status_send access p_s_server.time_server (some p_rx_msg)).2)

/-- The C function `handle_time_role_set`. -/
def handle_time_role_set (access : access_layer_t)
    (callbacks : time_setup_server_callbacks_t) (p_rx_msg : access_message_rx_t)
    (p_msg_in : time_role_set_msg_pkt_t) (p_args : time_setup_server_t) :
    time_setup_server_t × List access_call :=
  let p_s_server := p_args
  let p_s_server := { p_s_server with time_server := { p_s_server.time_server with
    server_state := { p_s_server.time_server.server_state with
      time_role := p_msg_in.time_role } } }
  let p_s_server :=
    if p_msg_in.time_role == TIME_ROLE_AUTHORITY then
      { p_s_server with time_server := { p_s_server.time_server with
        server_state := { p_s_server.time_server.server_state with
          time_authority := true } } }
    else if p_msg_in.time_role == TIME_ROLE_CLIENT ||
        p_msg_in.time_role == TIME_ROLE_RELAY then
      { p_s_server with time_server := { p_s_server.time_server with
        server_state := { p_s_server.time_server.server_state with
          time_authority := false } } }
    else p_s_server
  let cb_calls : List access_call :=
    if callbacks.time_role_set_cb then
      [access_call.time_role_set_cb { time_role := p_msg_in.time_role }]
    else []
  (p_s_server, cb_calls ++ (time_role_status_send access p_s_server (some p_rx_msg)).2)

/-- The server after the accepting part of `handle_time_status`: the five stores
from the message followed by `current_time_check_time_changes`. -/
def time_status_accept (p_msg_in : time_status_msg_pkt_t) (p_server : time_server_t) :
    time_server_t :=
  current_time_check_time_changes
    { p_server with server_state := { p_server.server_state with
      tai_seconds := p_msg_in.tai_seconds
      subsecond := p_msg_in.subsecond
      uncertainty := p_msg_in.uncertainty
      time_zone_offset_current := time_zone_offset_decode p_msg_in.time_zone_offset
      tai_utc_delta_current := tai_utc_delta_decode p_msg_in.tai_utc_delta } }

/-- The callback invocation of `handle_time_status`: none when `time_status_cb` is
`NULL`, else one call with the decoded `in_data`. -/
def time_status_cb_calls (callbacks : time_server_callbacks_t)
    (in_data_time_authority : Bool) (p_msg_in : time_status_msg_pkt_t) : List access_call :=
  if callbacks.time_status_cb then
    [access_call.time_status_cb
      { tai_seconds := p_msg_in.tai_seconds
        subsecond := p_msg_in.subsecond
        uncertainty := p_msg_in.uncertainty
        time_authority := in_data_time_authority
        time_zone_offset := to_uint8 (time_zone_offset_decode p_msg_in.time_zone_offset)
        tai_utc_delta := tai_utc_delta_decode p_msg_in.tai_utc_delta }]
  else []

/-- The message `reply` that `time_status_send` builds from the server: the short
form on the unknown time, the long form otherwise. -/
def time_status_message (p_server : time_server_t) : access_message_tx_t :=
  let msg_pkt : time_status_msg_pkt_t :=
    { tai_seconds := p_server.server_state.tai_seconds, subsecond := 0, uncertainty := 0,
      time_authority := 0, tai_utc_delta := 0, time_zone_offset := 0 }
  let packed : time_status_msg_pkt_t × Nat :=
    if p_server.server_state.tai_seconds == TAI_TIME_UNKNOWN then
      (msg_pkt, TIME_STATUS_MINLEN)
    else
      ({ msg_pkt with
          subsecond := p_server.server_state.subsecond
          uncertainty := p_server.server_state.uncertainty
          time_authority := if p_server.server_state.time_authority then 1 else 0
          time_zone_offset :=
            time_zone_offset_encode p_server.server_state.time_zone_offset_current
          tai_utc_delta :=
            tai_utc_delta_encode p_server.server_state.tai_utc_delta_current % 2 ^ 15 },
        TIME_STATUS_MAXLEN)
  { opcode := ACCESS_OPCODE_SIG TIME_OPCODE_STATUS
    p_buffer := msg_pkt_t.time_status packed.1
    length := packed.2
    force_segmented := p_server.settings.force_segmented
    transmic_size := p_server.settings.transmic_size }

/-- The C function `handle_time_get`.  A registered `time_get_cb` receives the
server through a non-`const` pointer before the reply is built. -/
def handle_time_get (access : access_layer_t) (callbacks : time_server_callbacks_t)
    (p_rx_msg : access_message_rx_t) (p_args : time_server_t) :
    time_server_t × List access_call :=
  let p_server := p_args
  let p_server :=
    match callbacks.time_get_cb with
    | some time_get_cb => time_get_cb p_server
    | none => p_server
  (p_server, (time_status_send access p_server (some p_rx_msg)).2)

/-- The C function `periodic_publish_serv_cb`. -/
def periodic_publish_serv_cb (access : access_layer_t)
    (callbacks : time_server_callbacks_t) (p_args : time_server_t) :
    time_server_t × List access_call :=
  let p_server := p_args
  let p_server :=
    match callbacks.time_get_cb with
    | some time_get_cb => time_get_cb p_server
    | none => p_server
  (p_server, (time_status_send access p_server none).2)

/-- The Time Set message that encodes a parameter record: the fields of the record
packed by the codec, the way `time_status_send` packs the Time Status message.
The sources contain no sender of Time Set; this is the message meant by "the
model received a Time Set message" in the documentation of
`time_server_state_set_time`. -/
def time_set_msg_of_params (time_params : time_set_params_t) : time_set_msg_pkt_t :=
  { tai_seconds := time_params.tai_seconds % BITS40
    subsecond := time_params.subsecond
    uncertainty := time_params.uncertainty
    time_authority := if time_params.time_authority then 1 else 0
    tai_utc_delta := tai_utc_delta_encode time_params.tai_utc_delta % 2 ^ 15
    time_zone_offset :=
      time_zone_offset_encode (to_int16 (time_params.time_zone_offset : Int)) }

/-! ## time_model_client.h and time_model_client.c -/

/-- The model identifier `TIME_CLIENT_MODEL_ID`. -/
def TIME_CLIENT_MODEL_ID : Nat := 0x1202

/-- The SDK constant `MODEL_ACKNOWLEDGED_TRANSACTION_TIMEOUT` (`model_common.h`),
30 seconds in microseconds. -/
def MODEL_ACKNOWLEDGED_TRANSACTION_TIMEOUT : Nat := 30000000

/-- Settings of a time client instance (`time_client_settings_t`). -/
structure time_client_settings_t where
  /-- A `uint32_t`, in microseconds. -/
  timeout : Nat
  force_segmented : Bool
  transmic_size : Nat
deriving DecidableEq, Repr

/-- Model struct (`struct __time_client_t`). -/
structure time_client_t where
  model_handle : Nat
  access_message : access_reliable_t
  settings : time_client_settings_t
deriving DecidableEq, Repr

/-- What the access layer answers to the client during one call: whether
`access_reliable_model_is_free` holds, the status of
`access_model_reliable_publish`, the token of `nrf_mesh_unique_token_get`, the
status of `access_model_add` with the handle it leaves behind `p_model_handle`,
and the status of `access_model_subscription_list_alloc`. -/
structure client_access_t where
  reliable_model_is_free : Bool
  reliable_publish_status : Nat
  unique_token : Nat
  model_add_status : Nat
  model_add_handle : Nat
  subscription_list_alloc_status : Nat
deriving DecidableEq, Repr

/-- Result of a client interface function: the returned status code, the client
behind the pointer after the call, and the calls made. -/
structure client_result where
  status : Nat
  client : Option time_client_t
  calls : List access_call
deriving DecidableEq, Repr

/-- The C function `message_create`: every field of `*p_message` is written. -/
def message_create (access : client_access_t) (p_client : time_client_t) (tx_opcode : Nat)
    (p_buffer : msg_pkt_t) (length : Nat) : access_message_tx_t :=
  { opcode := { opcode := tx_opcode, company_id := ACCESS_COMPANY_ID_NONE }
    p_buffer := p_buffer
    length := length
    force_segmented := p_client.settings.force_segmented
    transmic_size := p_client.settings.transmic_size
    access_token := access.unique_token }

/-- The C function `reliable_context_create`: `p_reliable->message` is left as it
is. -/
def reliable_context_create (p_client : time_client_t) (reply_opcode : Nat)
    (p_reliable : access_reliable_t) : access_reliable_t :=
  { p_reliable with
    model_handle := p_client.model_handle
    reply_opcode := { opcode := reply_opcode, company_id := ACCESS_COMPANY_ID_NONE }
    timeout := p_client.settings.timeout
    status_cb := true }

/-- The C function `time_client_init`. -/
def time_client_init (access : client_access_t) (p_client : Option time_client_t)
    (element_index : Nat) : client_result :=
  match p_client with
  | none => { status := NRF_ERROR_NULL, client := none, calls := [] }
  | some c =>
    let c :=
      if c.settings.timeout == 0 then
        { c with settings := { c.settings with
          timeout := MODEL_ACKNOWLEDGED_TRANSACTION_TIMEOUT } }
      else c
    let status := access.model_add_status
    let c := { c with model_handle := access.model_add_handle }
    if status == NRF_SUCCESS then
      { status := access.subscription_list_alloc_status, client := some c,
        calls := [access_call.model_add TIME_CLIENT_MODEL_ID element_index,
          access_call.subscription_list_alloc c.model_handle] }
    else
      { status := status, client := some c,
        calls := [access_call.model_add TIME_CLIENT_MODEL_ID element_index] }

/-- The C function `time_client_time_get`. -/
def time_client_time_get (access : client_access_t) (p_client : Option time_client_t) :
    client_result :=
  match p_client with
  | none => { status := NRF_ERROR_NULL, client := none, calls := [] }
  | some c =>
    if access.reliable_model_is_free then
      let c := { c with access_message := { c.access_message with
        message := message_create access c TIME_OPCODE_GET msg_pkt_t.null 0 } }
      let c := { c with access_message :=
        reliable_context_create c TIME_OPCODE_STATUS c.access_message }
      { status := access.reliable_publish_status, client := some c,
        calls := [access_call.reliable_publish c.access_message] }
    else
      { status := NRF_ERROR_BUSY, client := some c, calls := [] }

/-- The callback table `time_client_callbacks` (`time_client_callbacks_t`): which
entries are registered.  `time_status_cb` receives the client through a `const`
pointer. -/
structure time_client_callbacks_t where
  time_status_cb : Bool
  ack_transaction_status_cb : Bool
  periodic_publish_cb : Bool
deriving DecidableEq, Repr

/-- The C function `handle_time_status` of `time_model_client.c` (the server has
a static function of the same name).  `p_msg_in` is the payload seen through the
cast to `time_status_msg_pkt_t`; `in_data_time_authority` is the indeterminate
content of `in_data.time_authority`, which the handler never assigns; the decoded
zone offset is stored into the `uint8_t` field `in_data.time_zone_offset`. -/
def client_handle_time_status (callbacks : time_client_callbacks_t)
    (in_data_time_authority : Bool) (p_rx_msg : access_message_rx_t)
    (p_msg_in : time_status_msg_pkt_t) (p_args : time_client_t) :
    time_client_t × List access_call :=
  let p_client := p_args
  if callbacks.time_status_cb then
    (p_client,
      [access_call.client_time_status_cb p_rx_msg.src
        { tai_seconds := p_msg_in.tai_seconds
          subsecond := p_msg_in.subsecond
          uncertainty := p_msg_in.uncertainty
          time_authority := in_data_time_authority
          time_zone_offset := to_uint8 (time_zone_offset_decode p_msg_in.time_zone_offset)
          tai_utc_delta := tai_utc_delta_decode p_msg_in.tai_utc_delta }])
  else (p_client, [])

/-- The `in_data` records handed to the client's `time_status_cb` in a list of
calls. -/
def status_delivered : List access_call → List time_status_params_t
  | [] => []
  | access_call.client_time_status_cb _ in_data :: rest => in_data :: status_delivered rest
  | _ :: rest => status_delivered rest

/-- The server after the six stores of `time_server_state_set_time`. -/
def set_time_stored (srv : time_server_t) (time_params : time_set_params_t) :
    time_server_t :=
  { srv with server_state := { srv.server_state with
    tai_seconds := time_params.tai_seconds % BITS40
    subsecond := time_params.subsecond
    uncertainty := time_params.uncertainty
    time_authority := time_params.time_authority
    time_zone_offset_current := to_int16 (time_params.time_zone_offset : Int)
    tai_utc_delta_current := time_params.tai_utc_delta } }

/-- The server after the two stores of `time_server_state_set_time_zone_offset`. -/
def set_time_zone_offset_stored (srv : time_server_t)
    (time_zone_params : time_zone_set_params_t) : time_server_t :=
  { srv with server_state := { srv.server_state with
    time_zone_offset_new := time_zone_params.time_zone_offset_new
    time_zone_change := time_zone_params.time_zone_change % BITS40 } }

/-- The server after the two stores of `time_server_state_set_tai_utc_delta`. -/
def set_tai_utc_delta_stored (srv : time_server_t)
    (tai_utc_delta_params : tai_utc_delta_set_params_t) : time_server_t :=
  { srv with server_state := { srv.server_state with
    tai_utc_delta_new := tai_utc_delta_params.tai_utc_delta_new
    tai_utc_delta_change := tai_utc_delta_params.tai_utc_delta_change % BITS40 } }

/-- The setup server after the stores of `time_setup_server_state_set_time_role`:
the role, and the authority flag the role forces. -/
def set_time_role_stored (srv : time_setup_server_t)
    (time_role_params : time_role_set_params_t) : time_setup_server_t :=
  { srv with time_server := { srv.time_server with
    server_state := { srv.time_server.server_state with
      time_role := time_role_params.time_role
      time_authority :=
        if time_role_params.time_role = TIME_ROLE_AUTHORITY then true
        else if time_role_params.time_role = TIME_ROLE_CLIENT ∨
            time_role_params.time_role = TIME_ROLE_RELAY then false
        else srv.time_server.server_state.time_authority } } }

/-- The predicate of the role invariant: an Authority has `time_authority` set, a
Client or a Relay has it cleared. -/
def role_authority_inv (s : time_server_state_t) : Prop :=
  (s.time_role = TIME_ROLE_AUTHORITY → s.time_authority = true) ∧
  (s.time_role = TIME_ROLE_CLIENT ∨ s.time_role = TIME_ROLE_RELAY →
    s.time_authority = false)

instance role_authority_inv_decidable (s : time_server_state_t) :
    Decidable (role_authority_inv s) :=
  inferInstanceAs (Decidable
    ((s.time_role = TIME_ROLE_AUTHORITY → s.time_authority = true) ∧
    (s.time_role = TIME_ROLE_CLIENT ∨ s.time_role = TIME_ROLE_RELAY →
      s.time_authority = false)))

/-! ## Concrete inputs used by the evaluations below -/

/-- An access layer on which every call succeeds; the node has address 1. -/
def access_ok : access_layer_t :=
  { publish_ttl := 4, publish_ttl_set_status := NRF_SUCCESS, publish_status := NRF_SUCCESS,
    reply_status := NRF_SUCCESS, local_unicast_address := 1 }

/-- Settings with `publish_upon_state_change` switched off. -/
def settings_quiet : time_server_settings_t :=
  { force_segmented := false, transmic_size := 0, publish_upon_state_change := false }

/-- A synchronised state at TAI 99 with a zone change (to offset 8) and a delta
change (to 37) both scheduled for TAI 100. -/
def state_armed : time_server_state_t :=
  { tai_seconds := 99, subsecond := 200, uncertainty := 3, time_authority := false,
    time_zone_offset_current := 4, time_zone_offset_new := 8, time_zone_change := 100,
    tai_utc_delta_current := 36, tai_utc_delta_new := 37, tai_utc_delta_change := 100,
    time_role := TIME_ROLE_NONE }

/-- A server holding `state_armed`. -/
def server_armed : time_server_t :=
  { model_handle := 0, settings := settings_quiet, server_state := state_armed,
    flash_state_handle := 0 }

/-- Time Set parameters inside every documented range, with `tai_seconds` at the
instant for which `state_armed` has both changes scheduled. -/
def params_at_change : time_set_params_t :=
  { tai_seconds := 100, subsecond := 7, uncertainty := 2, time_authority := true,
    tai_utc_delta := 36, time_zone_offset := 4 }

/-- Time Set parameters whose `time_zone_offset` is 192, one above the documented
maximum 191. -/
def params_zone_192 : time_set_params_t :=
  { tai_seconds := 50, subsecond := 7, uncertainty := 2, time_authority := true,
    tai_utc_delta := 36, time_zone_offset := 192 }

/-- Time Zone Set parameters inside the documented ranges. -/
def zone_params_valid : time_zone_set_params_t :=
  { time_zone_offset_new := -12, time_zone_change := 500 }

/-- Time Zone Set parameters whose offset is 192, one above the documented
maximum 191. -/
def zone_params_192 : time_zone_set_params_t :=
  { time_zone_offset_new := 192, time_zone_change := 500 }

/-- Settings with `publish_upon_state_change` switched on. -/
def settings_publishing : time_server_settings_t :=
  { force_segmented := false, transmic_size := 0, publish_upon_state_change := true }

/-- The server `server_armed` with `publish_upon_state_change` switched on. -/
def server_publishing : time_server_t :=
  { server_armed with settings := settings_publishing }

/-- An access layer whose `access_model_publish` answers
`NRF_ERROR_INVALID_PARAM`, as it does while no publish address is set. -/
def access_unconfigured : access_layer_t :=
  { access_ok with publish_status := NRF_ERROR_INVALID_PARAM }

/-- TAI Delta Set parameters inside the documented ranges that repeat the pending
delta 37 and change instant 100 already held by `state_armed`. -/
def delta_params_same : tai_utc_delta_set_params_t :=
  { tai_utc_delta_new := 37, tai_utc_delta_change := 100 }

/-- The state `state_armed` on a node whose role is Relay. -/
def state_relay : time_server_state_t :=
  { state_armed with time_role := TIME_ROLE_RELAY }

/-- A time server holding `state_relay`, with `publish_upon_state_change` off. -/
def server_relay : time_server_t :=
  { server_armed with server_state := state_relay }

/-- A setup server around `server_relay`. -/
def setup_server_relay : time_setup_server_t :=
  { model_handle := 1
    time_server := server_relay
    settings :=
      { element_index := 0, force_segmented := false, transmic_size := 0,
        publish_upon_state_change := false } }

/-- A time server callback table with no callback registered. -/
def callbacks_none : time_server_callbacks_t :=
  { time_get_cb := none, time_status_cb := false, time_zone_get_cb := none,
    tai_utc_delta_get_cb := none }

/-- A setup server callback table with no callback registered. -/
def setup_callbacks_none : time_setup_server_callbacks_t :=
  { time_set_cb := false, time_zone_set_cb := false, tai_utc_delta_set_cb := false,
    time_role_get_cb := none, time_role_set_cb := false }

/-- Time Set parameters inside every documented range that claim authority. -/
def params_authority : time_set_params_t :=
  { tai_seconds := 50, subsecond := 7, uncertainty := 2, time_authority := true,
    tai_utc_delta := 36, time_zone_offset := 4 }

/-- Time Set parameters inside every documented range that do not claim
authority. -/
def params_no_authority : time_set_params_t :=
  { params_authority with time_authority := false }

/-- An incoming message from address 9. -/
def rx_from_9 : access_message_rx_t :=
  { opcode := ACCESS_OPCODE_SIG TIME_OPCODE_STATUS, src := 9, length := 10 }

/-- A long-form Time Status packet for TAI 500 with the authority bit set. -/
def status_pkt_authority : time_status_msg_pkt_t :=
  { tai_seconds := 500, subsecond := 11, uncertainty := 1, time_authority := 1,
    tai_utc_delta := 292, time_zone_offset := 60 }

/-- The packet `status_pkt_authority` with the authority bit clear. -/
def status_pkt_relayed : time_status_msg_pkt_t :=
  { status_pkt_authority with time_authority := 0 }

/-- A Time Status packet with the authority bit set that carries the unknown
time, tai_seconds 0. -/
def status_pkt_unknown : time_status_msg_pkt_t :=
  { status_pkt_authority with tai_seconds := 0 }

/-- Time Zone Set packet: offset byte 60 (logical -4) at TAI 500. -/
def zone_set_pkt : time_zone_set_msg_pkt_t :=
  { time_zone_offset_new := 60, time_zone_change := 500 }

/-- TAI Delta Set packet: wire delta 292 (logical 37) at TAI 500. -/
def delta_set_pkt : tai_utc_delta_set_msg_pkt_t :=
  { tai_utc_delta_new := 292, padding := 0, tai_utc_delta_change := 500 }

/-- Time Set packet for TAI 500 with the authority bit set. -/
def time_set_pkt : time_set_msg_pkt_t :=
  { tai_seconds := 500, subsecond := 11, uncertainty := 1, time_authority := 1,
    tai_utc_delta := 292, time_zone_offset := 60 }

/-- The state `state_armed` on a node whose role is Client. -/
def state_client : time_server_state_t :=
  { state_armed with time_role := TIME_ROLE_CLIENT }

/-- A time server holding `state_client`. -/
def server_client : time_server_t :=
  { server_armed with server_state := state_client }

/-- A time server holding `state_armed` with the role Authority and its flag set. -/
def server_authority : time_server_t :=
  { server_armed with server_state :=
      { state_armed with time_role := TIME_ROLE_AUTHORITY, time_authority := true } }

/-- An incoming message whose source is address 1, the address of the node under
`access_ok`. -/
def rx_from_1 : access_message_rx_t :=
  { opcode := ACCESS_OPCODE_SIG TIME_OPCODE_STATUS, src := 1, length := 10 }

/-- An access layer on which every call succeeds, for a second node at address 2. -/
def access_ok_2 : access_layer_t :=
  { access_ok with local_unicast_address := 2 }

/-- The Time Status message that the Relay `server_relay` republishes after it
accepts `status_pkt_authority`: the zone byte 60 and the wire delta 292 of the
inbound message, with the authority bit cleared. -/
def relayed_message : access_message_tx_t :=
  { opcode := ACCESS_OPCODE_SIG TIME_OPCODE_STATUS
    p_buffer := msg_pkt_t.time_status status_pkt_relayed
    length := TIME_STATUS_MAXLEN
    force_segmented := false
    transmic_size := 0 }

/-- A callback table whose `time_get_cb` refreshes the clock of the server to TAI
777, the way an application reads its real-time clock before a reply. -/
def callbacks_refresh : time_server_callbacks_t :=
  { callbacks_none with
    time_get_cb := some (fun p_self =>
      { p_self with server_state := { p_self.server_state with tai_seconds := 777 } }) }

/-- The Client `server_client` with `publish_upon_state_change` switched on. -/
def server_client_publishing : time_server_t :=
  { server_client with settings := settings_publishing }

/-- A setup server around `server_publishing` whose own
`publish_upon_state_change` is on as well. -/
def setup_server_publishing : time_setup_server_t :=
  { model_handle := 1
    time_server := server_publishing
    settings :=
      { element_index := 0, force_segmented := false, transmic_size := 0,
        publish_upon_state_change := true } }

/-- Time Set parameters whose `tai_seconds` exceeds the 40-bit maximum. -/
def params_tai_too_large : time_set_params_t :=
  { params_authority with tai_seconds := 2 ^ 40 }

/-- A time client before initialisation, with the default settings (timeout 0). -/
def client_default : time_client_t :=
  { model_handle := 0
    access_message :=
      { model_handle := 0
        message :=
          { opcode := { opcode := 0, company_id := 0 }, p_buffer := msg_pkt_t.null,
            length := 0, force_segmented := false, transmic_size := 0 }
        reply_opcode := { opcode := 0, company_id := 0 }
        timeout := 0
        status_cb := false }
    settings := { timeout := 0, force_segmented := false, transmic_size := 0 } }

/-- A time client with a request outstanding: its context holds the Time Get
request issued with timeout 5000000. -/
def client_waiting : time_client_t :=
  { model_handle := 3
    access_message :=
      { model_handle := 3
        message :=
          { opcode := { opcode := TIME_OPCODE_GET, company_id := ACCESS_COMPANY_ID_NONE },
            p_buffer := msg_pkt_t.null, length := 0, force_segmented := false,
            transmic_size := 0, access_token := 41 }
        reply_opcode := { opcode := TIME_OPCODE_STATUS, company_id := ACCESS_COMPANY_ID_NONE }
        timeout := 5000000
        status_cb := true }
    settings := { timeout := 5000000, force_segmented := false, transmic_size := 0 } }

/-- An access layer for the client with the reliable-request slot free. -/
def client_access_free : client_access_t :=
  { reliable_model_is_free := true, reliable_publish_status := NRF_SUCCESS,
    unique_token := 42, model_add_status := NRF_SUCCESS, model_add_handle := 3,
    subscription_list_alloc_status := NRF_SUCCESS }

/-- An access layer for the client with a reliable request outstanding. -/
def client_access_busy : client_access_t :=
  { client_access_free with reliable_model_is_free := false }

/-- The Time Status message that encodes `state_client` (TAI 99, subsecond 200,
uncertainty 3, not authoritative, delta 36, zone offset 4). -/
def client_status_message : access_message_tx_t :=
  { opcode := ACCESS_OPCODE_SIG TIME_OPCODE_STATUS
    p_buffer := msg_pkt_t.time_status
      { tai_seconds := 99, subsecond := 200, uncertainty := 3, time_authority := 0,
        tai_utc_delta := 291, time_zone_offset := 68 }
    length := 10
    force_segmented := false
    transmic_size := 0 }

/-- A client callback table with only `time_status_cb` registered. -/
def client_callbacks_status : time_client_callbacks_t :=
  { time_status_cb := true, ack_transaction_status_cb := false,
    periodic_publish_cb := false }

/-- A long-form Time Status packet with the authority bit set whose zone byte 0
stands for the logical offset -64. -/
def status_pkt_west : time_status_msg_pkt_t :=
  { status_pkt_authority with time_zone_offset := 0 }

/-- A long-form Time Status packet with the authority bit set for TAI 100, the
instant for which `state_armed` has both changes scheduled. -/
def status_pkt_at_change : time_status_msg_pkt_t :=
  { status_pkt_authority with tai_seconds := 100 }

/-- A time server whose time is unknown (tai_seconds 0). -/
def server_unknown : time_server_t :=
  { server_armed with server_state := { state_armed with tai_seconds := 0 } }

/-- Time Set parameters of a caller who supplies the logical zone offset -5: the
field `time_zone_offset` is a `uint8_t`, so the record holds 251. -/
def params_zone_minus_5 : time_set_params_t :=
  { params_authority with time_zone_offset := to_uint8 (-5) }

/-- Time Set parameters of a caller who supplies the logical zone offset -64, the
documented minimum: the `uint8_t` field holds 192. -/
def params_zone_minus_64 : time_set_params_t :=
  { params_authority with time_zone_offset := to_uint8 (-64) }

/-- C1: for every v in -64..191, `time_zone_offset_encode v` is the byte v + 64
(within 0..255, with the boundary values 0 and 255 at -64 and 191) and decoding it
gives v back. -/
theorem time_zone_offset_roundtrip (v : Int) (hlo : -64 ≤ v) (hhi : v ≤ 191) :
    (time_zone_offset_encode v : Int) = v + 64 ∧
    time_zone_offset_encode v ≤ 255 ∧
    time_zone_offset_encode (-64) = 0 ∧
    time_zone_offset_encode 191 = 255 ∧
    time_zone_offset_decode (time_zone_offset_encode v) = v := by
  have henc : (time_zone_offset_encode v : Int) = v + 64 := by
    simp only [time_zone_offset_encode, to_uint8, TIME_ZONE_STATE_OFFSET_FACTOR]
    omega
  refine ⟨henc, ?_, by decide, by decide, ?_⟩
  · omega
  · simp only [time_zone_offset_decode, to_int16, TIME_ZONE_STATE_OFFSET_FACTOR, henc]
    omega

theorem time_zone_offset_roundtrip_witness :
    ((time_zone_offset_encode (-5) : Int) = -5 + 64 ∧
    time_zone_offset_encode (-5) ≤ 255 ∧
    time_zone_offset_encode (-64) = 0 ∧
    time_zone_offset_encode 191 = 255 ∧
    time_zone_offset_decode (time_zone_offset_encode (-5)) = -5) :=
  time_zone_offset_roundtrip (-5) (by decide) (by decide)

/-- C2: for every v in -255..32512, `tai_utc_delta_encode v` is v + 255, a value
of 0..32767 that the 15-bit wire field holds without truncation (0 and 32767 at
the boundaries), and decoding it gives v back. -/
theorem tai_utc_delta_roundtrip (v : Int) (hlo : -255 ≤ v) (hhi : v ≤ 32512) :
    (tai_utc_delta_encode v : Int) = v + 255 ∧
    tai_utc_delta_encode v ≤ 32767 ∧
    tai_utc_delta_encode v % 2 ^ 15 = tai_utc_delta_encode v ∧
    tai_utc_delta_encode (-255) = 0 ∧
    tai_utc_delta_encode 32512 = 32767 ∧
    tai_utc_delta_decode (tai_utc_delta_encode v) = v := by
  have henc : (tai_utc_delta_encode v : Int) = v + 255 := by
    simp only [tai_utc_delta_encode, to_uint16, TAI_DELTA_STATE_OFFSET_FACTOR]
    omega
  refine ⟨henc, ?_, ?_, by decide, by decide, ?_⟩
  · omega
  · omega
  · simp only [tai_utc_delta_decode, to_int32, TAI_DELTA_STATE_OFFSET_FACTOR, henc]
    omega

theorem tai_utc_delta_roundtrip_witness :
    ((tai_utc_delta_encode 37 : Int) = 37 + 255 ∧
    tai_utc_delta_encode 37 ≤ 32767 ∧
    tai_utc_delta_encode 37 % 2 ^ 15 = tai_utc_delta_encode 37 ∧
    tai_utc_delta_encode (-255) = 0 ∧
    tai_utc_delta_encode 32512 = 32767 ∧
    tai_utc_delta_decode (tai_utc_delta_encode 37) = 37) :=
  tai_utc_delta_roundtrip 37 (by decide) (by decide)

/-! ## Helper lemmas -/

theorem validate_tai_time_arg_iff (arg : Nat) :
    validate_tai_time_arg arg = true ↔ arg ≤ 2 ^ 40 - 1 := by
  simp [validate_tai_time_arg, TAI_TIME_MAX_VAL]

theorem validate_tai_utc_delta_arg_iff (arg : Int) :
    validate_tai_utc_delta_arg arg = true ↔ -255 ≤ arg ∧ arg ≤ 32512 := by
  simp [validate_tai_utc_delta_arg, TAI_DELTA_CHANGE_MIN_VAL, TAI_DELTA_CHANGE_MAX_VAL]

theorem validate_time_zone_offset_arg_iff (arg : Int) :
    validate_time_zone_offset_arg arg = true ↔ -64 ≤ arg ∧ arg ≤ 192 := by
  simp [validate_time_zone_offset_arg, TIME_ZONE_CHANGE_MIN_VAL, TIME_ZONE_CHANGE_MAX_VAL]

theorem to_int16_of_uint8 (n : Nat) (h : n ≤ 255) : to_int16 (n : Int) = (n : Int) := by
  simp only [to_int16]
  omega

theorem mod_BITS40_of_le (n : Nat) (h : n ≤ 2 ^ 40 - 1) : n % BITS40 = n := by
  simp only [BITS40]
  omega

theorem mod_BITS64_of_le (n : Nat) (h : n ≤ 2 ^ 40 - 1) : n % BITS64 = n := by
  simp only [BITS64]
  omega

/-- The server part of the result of an accepted `time_server_state_set_time`. -/
theorem set_time_server_of_valid (access : access_layer_t) (srv : time_server_t)
    (p : time_set_params_t)
    (hv : (validate_tai_time_arg p.tai_seconds &&
      validate_tai_utc_delta_arg p.tai_utc_delta &&
      validate_time_zone_offset_arg (to_int16 (p.time_zone_offset : Int))) = true) :
    (time_server_state_set_time access (some srv) p).server =
      some { srv with server_state := { srv.server_state with
        tai_seconds := p.tai_seconds % BITS40
        subsecond := p.subsecond
        uncertainty := p.uncertainty
        time_authority := p.time_authority
        time_zone_offset_current := to_int16 (p.time_zone_offset : Int)
        tai_utc_delta_current := p.tai_utc_delta } } := by
  simp only [time_server_state_set_time, hv, Bool.not_true, Bool.false_eq_true, if_false]
  split <;> rfl

/-- The server part of the result of an accepted
`time_server_state_set_time_zone_offset`. -/
theorem set_time_zone_offset_server_of_valid (access : access_layer_t) (srv : time_server_t)
    (p : time_zone_set_params_t)
    (hv : (validate_tai_time_arg p.time_zone_change &&
      validate_time_zone_offset_arg p.time_zone_offset_new) = true) :
    (time_server_state_set_time_zone_offset access (some srv) p).server =
      some { srv with server_state := { srv.server_state with
        time_zone_offset_new := p.time_zone_offset_new
        time_zone_change := p.time_zone_change % BITS40 } } := by
  simp only [time_server_state_set_time_zone_offset, hv, Bool.not_true, Bool.false_eq_true,
    if_false]
  split <;> rfl

/-- The result of `time_state_update_time_delta` when the sum stays within 40 bits. -/
theorem update_time_delta_of_le (srv : time_server_t) (d ds : Nat)
    (h : srv.server_state.tai_seconds + d ≤ 2 ^ 40 - 1) :
    time_state_update_time_delta (some srv) d ds =
      some (current_time_check_time_changes
        { srv with server_state := { srv.server_state with
          tai_seconds := srv.server_state.tai_seconds + d
          subsecond := (srv.server_state.subsecond + ds) % 256 } }) := by
  have hv : validate_tai_time_arg ((srv.server_state.tai_seconds + d) % BITS64) = true := by
    rw [mod_BITS64_of_le _ h]
    exact (validate_tai_time_arg_iff _).2 h
  simp only [time_state_update_time_delta, hv, Bool.not_true, Bool.false_eq_true, if_false]
  rw [mod_BITS64_of_le _ h, mod_BITS40_of_le _ h]

/-- Fields that `current_time_check_time_changes` never writes. -/
theorem check_time_changes_frame (srv : time_server_t) :
    (current_time_check_time_changes srv).server_state.tai_seconds =
      srv.server_state.tai_seconds ∧
    (current_time_check_time_changes srv).server_state.subsecond =
      srv.server_state.subsecond ∧
    (current_time_check_time_changes srv).server_state.uncertainty =
      srv.server_state.uncertainty ∧
    (current_time_check_time_changes srv).server_state.time_authority =
      srv.server_state.time_authority ∧
    (current_time_check_time_changes srv).server_state.time_role =
      srv.server_state.time_role ∧
    (current_time_check_time_changes srv).server_state.time_zone_offset_new =
      srv.server_state.time_zone_offset_new ∧
    (current_time_check_time_changes srv).server_state.time_zone_change =
      srv.server_state.time_zone_change ∧
    (current_time_check_time_changes srv).server_state.tai_utc_delta_new =
      srv.server_state.tai_utc_delta_new ∧
    (current_time_check_time_changes srv).server_state.tai_utc_delta_change =
      srv.server_state.tai_utc_delta_change ∧
    (current_time_check_time_changes srv).settings = srv.settings := by
  simp only [current_time_check_time_changes]
  split_ifs <;> simp

/-- A zone change scheduled for the current instant is applied by
`current_time_check_time_changes`. -/
theorem check_time_changes_zone (srv : time_server_t)
    (heq : srv.server_state.tai_seconds = srv.server_state.time_zone_change)
    (hne : srv.server_state.time_zone_change ≠ 0) :
    (current_time_check_time_changes srv).server_state.time_zone_offset_current =
      srv.server_state.time_zone_offset_new := by
  have hc : (srv.server_state.tai_seconds == srv.server_state.time_zone_change &&
      srv.server_state.time_zone_change != TIME_ZONE_CHANGE_UNKNOWN) = true := by
    simp [heq, TIME_ZONE_CHANGE_UNKNOWN, hne]
  simp only [current_time_check_time_changes, hc, if_true]
  split_ifs <;> rfl

/-- A delta change scheduled for the current instant is applied by
`current_time_check_time_changes`. -/
theorem check_time_changes_delta (srv : time_server_t)
    (heq : srv.server_state.tai_seconds = srv.server_state.tai_utc_delta_change)
    (hne : srv.server_state.tai_utc_delta_change ≠ 0) :
    (current_time_check_time_changes srv).server_state.tai_utc_delta_current =
      srv.server_state.tai_utc_delta_new := by
  have hc : (srv.server_state.tai_seconds == srv.server_state.tai_utc_delta_change &&
      srv.server_state.tai_utc_delta_change != TAI_DELTA_CHANGE_UNKNOWN) = true := by
    simp [heq, TAI_DELTA_CHANGE_UNKNOWN, hne]
  simp only [current_time_check_time_changes]
  split_ifs <;> simp_all

/-! ## Theorems: local setters and clock updates -/

/-- C3, evaluated where it fails: `time_zone_offset` 192 lies outside -64..191, yet
`time_server_state_set_time` returns `NRF_SUCCESS` instead of
`NRF_ERROR_INVALID_PARAM` and overwrites the time state, storing 192 as the
current zone offset. -/
theorem set_time_accepts_zone_offset_192 :
    (time_server_state_set_time access_ok (some server_armed) params_zone_192).status =
      NRF_SUCCESS ∧
    (time_server_state_set_time access_ok (some server_armed) params_zone_192).server =
      some { server_armed with server_state := { state_armed with
        tai_seconds := 50, subsecond := 7, uncertainty := 2, time_authority := true,
        time_zone_offset_current := 192, tai_utc_delta_current := 36 } } ∧
    (time_server_state_set_time access_ok (some server_armed) params_zone_192).server ≠
      some server_armed := by
  decide

/-- The frame of an accepted `time_server_state_set_time` on the values that the
argument record can hold (the zone offset field is unsigned, so these are the
offsets 0..191): tai_seconds, subsecond, uncertainty, time_authority,
time_zone_offset_current and tai_utc_delta_current take the values of the record
and every other field, the pending new/change fields and time_role among them, is
unchanged. -/
theorem set_time_frame (access : access_layer_t) (srv : time_server_t)
    (p : time_set_params_t)
    (htai : p.tai_seconds ≤ 2 ^ 40 - 1)
    (hdlo : -255 ≤ p.tai_utc_delta) (hdhi : p.tai_utc_delta ≤ 32512)
    (hzlo : -64 ≤ (p.time_zone_offset : Int)) (hzhi : (p.time_zone_offset : Int) ≤ 191) :
    (time_server_state_set_time access (some srv) p).server =
      some { srv with server_state := { srv.server_state with
        tai_seconds := p.tai_seconds
        subsecond := p.subsecond
        uncertainty := p.uncertainty
        time_authority := p.time_authority
        time_zone_offset_current := (p.time_zone_offset : Int)
        tai_utc_delta_current := p.tai_utc_delta } } := by
  have hz : to_int16 (p.time_zone_offset : Int) = (p.time_zone_offset : Int) :=
    to_int16_of_uint8 _ (by omega)
  have hv : (validate_tai_time_arg p.tai_seconds &&
      validate_tai_utc_delta_arg p.tai_utc_delta &&
      validate_time_zone_offset_arg (to_int16 (p.time_zone_offset : Int))) = true := by
    rw [hz, Bool.and_eq_true, Bool.and_eq_true]
    exact ⟨⟨(validate_tai_time_arg_iff _).2 htai,
      (validate_tai_utc_delta_arg_iff _).2 ⟨hdlo, hdhi⟩⟩,
      (validate_time_zone_offset_arg_iff _).2 ⟨hzlo, by omega⟩⟩
  rw [set_time_server_of_valid access srv p hv, hz, mod_BITS40_of_le _ htai]

/-- The frame of `time_server_state_set_time` at a concrete input:
`params_at_change` applied to `server_armed`. -/
theorem set_time_frame_witness :
    params_at_change.tai_seconds ≤ 2 ^ 40 - 1 ∧
    (time_server_state_set_time access_ok (some server_armed) params_at_change).server =
      some { server_armed with server_state := { server_armed.server_state with
        tai_seconds := params_at_change.tai_seconds
        subsecond := params_at_change.subsecond
        uncertainty := params_at_change.uncertainty
        time_authority := params_at_change.time_authority
        time_zone_offset_current := (params_at_change.time_zone_offset : Int)
        tai_utc_delta_current := params_at_change.tai_utc_delta } } :=
  ⟨by decide, set_time_frame access_ok server_armed params_at_change (by decide) (by decide)
    (by decide) (by decide) (by decide)⟩

/-- C4, evaluated where it fails: the claim's range for the zone offset is
-64..191, but the field `time_zone_offset` of the argument record is a `uint8_t`.
A caller's in-range offset -5 reaches the setter as 251 and is rejected with
`NRF_ERROR_INVALID_PARAM`, the state unchanged; a caller's -64 reaches it as 192,
passes the validation, and is stored as the current offset +192, not -64. -/
theorem set_time_negative_zone_offset :
    params_zone_minus_5.time_zone_offset = 251 ∧
    time_server_state_set_time access_ok (some server_armed) params_zone_minus_5 =
      { status := NRF_ERROR_INVALID_PARAM, server := some server_armed, calls := [] } ∧
    params_zone_minus_64.time_zone_offset = 192 ∧
    (time_server_state_set_time access_ok (some server_armed)
      params_zone_minus_64).status = NRF_SUCCESS ∧
    (time_server_state_set_time access_ok (some server_armed)
      params_zone_minus_64).server =
      some { server_armed with server_state := { state_armed with
        tai_seconds := 50, subsecond := 7, uncertainty := 2, time_authority := true,
        time_zone_offset_current := 192, tai_utc_delta_current := 36 } } := by
  decide

/-- C5, evaluated where it fails: `state_armed` schedules the zone change to 8 and
the delta change to 37 for TAI 100.  A `time_server_state_set_time` to TAI 100 is
accepted but leaves the supplied zone offset 4 and delta 36 in the current fields;
the sibling `time_state_update_time` to the same instant applies both changes. -/
theorem set_time_skips_scheduled_changes :
    (time_server_state_set_time access_ok (some server_armed) params_at_change).status =
      NRF_SUCCESS ∧
    (time_server_state_set_time access_ok (some server_armed) params_at_change).server =
      some { server_armed with server_state := { state_armed with
        tai_seconds := 100, subsecond := 7, uncertainty := 2, time_authority := true,
        time_zone_offset_current := 4, tai_utc_delta_current := 36 } } ∧
    state_armed.time_zone_change = 100 ∧ state_armed.time_zone_offset_new = 8 ∧
    state_armed.tai_utc_delta_change = 100 ∧ state_armed.tai_utc_delta_new = 37 ∧
    time_state_update_time (some server_armed) 100 7 =
      some { server_armed with server_state := { state_armed with
        tai_seconds := 100, subsecond := 7,
        time_zone_offset_current := 8, tai_utc_delta_current := 37 } } := by
  decide

/-- C6: when tai_seconds + delta_seconds is at most 2^40-1,
`time_state_update_time_delta` returns a state whose tai_seconds is that sum; if
the sum equals a non-zero time_zone_change then time_zone_offset_current equals
time_zone_offset_new, and if it equals a non-zero tai_utc_delta_change then
tai_utc_delta_current equals tai_utc_delta_new, in that same call. -/
theorem update_time_delta_applies_changes (srv : time_server_t) (d ds : Nat)
    (h : srv.server_state.tai_seconds + d ≤ 2 ^ 40 - 1) :
    ∃ srv', time_state_update_time_delta (some srv) d ds = some srv' ∧
      srv'.server_state.tai_seconds = srv.server_state.tai_seconds + d ∧
      (srv'.server_state.tai_seconds = srv'.server_state.time_zone_change →
        srv'.server_state.time_zone_change ≠ 0 →
        srv'.server_state.time_zone_offset_current =
          srv'.server_state.time_zone_offset_new) ∧
      (srv'.server_state.tai_seconds = srv'.server_state.tai_utc_delta_change →
        srv'.server_state.tai_utc_delta_change ≠ 0 →
        srv'.server_state.tai_utc_delta_current =
          srv'.server_state.tai_utc_delta_new) := by
  refine ⟨_, update_time_delta_of_le srv d ds h, ?_, ?_, ?_⟩
  · exact (check_time_changes_frame _).1
  · intro heq hne
    obtain ⟨h1, -, -, -, -, h6, h7, -⟩ := check_time_changes_frame
      { srv with server_state := { srv.server_state with
        tai_seconds := srv.server_state.tai_seconds + d
        subsecond := (srv.server_state.subsecond + ds) % 256 } }
    rw [h1, h7] at heq
    rw [h7] at hne
    rw [h6]
    exact check_time_changes_zone _ heq hne
  · intro heq hne
    obtain ⟨h1, -, -, -, -, -, -, h8, h9, -⟩ := check_time_changes_frame
      { srv with server_state := { srv.server_state with
        tai_seconds := srv.server_state.tai_seconds + d
        subsecond := (srv.server_state.subsecond + ds) % 256 } }
    rw [h1, h9] at heq
    rw [h9] at hne
    rw [h8]
    exact check_time_changes_delta _ heq hne

/-- C6 at a concrete input: one tick takes `server_armed` from TAI 99 to TAI 100,
where both of its scheduled changes fire. -/
theorem update_time_delta_applies_changes_witness :
    time_state_update_time_delta (some server_armed) 1 0 =
      some { server_armed with server_state := { state_armed with
        tai_seconds := 100, time_zone_offset_current := 8,
        tai_utc_delta_current := 37 } } ∧
    ∃ srv', time_state_update_time_delta (some server_armed) 1 0 = some srv' ∧
      srv'.server_state.tai_seconds = server_armed.server_state.tai_seconds + 1 ∧
      (srv'.server_state.tai_seconds = srv'.server_state.time_zone_change →
        srv'.server_state.time_zone_change ≠ 0 →
        srv'.server_state.time_zone_offset_current =
          srv'.server_state.time_zone_offset_new) ∧
      (srv'.server_state.tai_seconds = srv'.server_state.tai_utc_delta_change →
        srv'.server_state.tai_utc_delta_change ≠ 0 →
        srv'.server_state.tai_utc_delta_current =
          srv'.server_state.tai_utc_delta_new) :=
  ⟨by decide, update_time_delta_applies_changes server_armed 1 0 (by decide)⟩

/-- C7, evaluated where it fails: with tai_seconds 99 and the 64-bit delta 2^64-1
the mathematical sum exceeds 2^40-1, but the sum formed in `uint64_t` wraps to 98,
passes the validation, and `time_state_update_time_delta` moves the clock back to
98 instead of rejecting the call. -/
theorem update_time_delta_wraps_around :
    2 ^ 64 - 1 < BITS64 ∧
    2 ^ 40 - 1 < server_armed.server_state.tai_seconds + (2 ^ 64 - 1) ∧
    time_state_update_time_delta (some server_armed) (2 ^ 64 - 1) 0 =
      some { server_armed with server_state := { state_armed with tai_seconds := 98 } } ∧
    time_state_update_time_delta (some server_armed) (2 ^ 64 - 1) 0 ≠
      some server_armed := by
  decide

/-- C8: when tai_seconds + delta_seconds is at most 2^40-1, after
`time_state_update_time_delta` tai_seconds is the old value plus delta_seconds,
subsecond is (old subsecond + delta_subsecond) mod 256 with no carry into
tai_seconds, and uncertainty, time_authority, time_role and the four pending
new/change fields are unchanged. -/
theorem update_time_delta_frame (srv : time_server_t) (d ds : Nat)
    (h : srv.server_state.tai_seconds + d ≤ 2 ^ 40 - 1) :
    ∃ srv', time_state_update_time_delta (some srv) d ds = some srv' ∧
      srv'.server_state.tai_seconds = srv.server_state.tai_seconds + d ∧
      srv'.server_state.subsecond = (srv.server_state.subsecond + ds) % 256 ∧
      srv'.server_state.uncertainty = srv.server_state.uncertainty ∧
      srv'.server_state.time_authority = srv.server_state.time_authority ∧
      srv'.server_state.time_role = srv.server_state.time_role ∧
      srv'.server_state.time_zone_offset_new = srv.server_state.time_zone_offset_new ∧
      srv'.server_state.time_zone_change = srv.server_state.time_zone_change ∧
      srv'.server_state.tai_utc_delta_new = srv.server_state.tai_utc_delta_new ∧
      srv'.server_state.tai_utc_delta_change = srv.server_state.tai_utc_delta_change :=
  ⟨_, update_time_delta_of_le srv d ds h,
    (check_time_changes_frame _).1,
    (check_time_changes_frame _).2.1,
    (check_time_changes_frame _).2.2.1,
    (check_time_changes_frame _).2.2.2.1,
    (check_time_changes_frame _).2.2.2.2.1,
    (check_time_changes_frame _).2.2.2.2.2.1,
    (check_time_changes_frame _).2.2.2.2.2.2.1,
    (check_time_changes_frame _).2.2.2.2.2.2.2.1,
    (check_time_changes_frame _).2.2.2.2.2.2.2.2.1⟩

/-- C8 at a concrete input: `server_armed` (TAI 99, subsecond 200) advanced by 5
seconds and 100 subsecond units; the subsecond wraps to 44 and the seconds take no
carry. -/
theorem update_time_delta_frame_witness :
    time_state_update_time_delta (some server_armed) 5 100 =
      some { server_armed with server_state := { state_armed with
        tai_seconds := 104, subsecond := 44 } } ∧
    ∃ srv', time_state_update_time_delta (some server_armed) 5 100 = some srv' ∧
      srv'.server_state.tai_seconds = server_armed.server_state.tai_seconds + 5 ∧
      srv'.server_state.subsecond = (server_armed.server_state.subsecond + 100) % 256 ∧
      srv'.server_state.uncertainty = server_armed.server_state.uncertainty ∧
      srv'.server_state.time_authority = server_armed.server_state.time_authority ∧
      srv'.server_state.time_role = server_armed.server_state.time_role ∧
      srv'.server_state.time_zone_offset_new =
        server_armed.server_state.time_zone_offset_new ∧
      srv'.server_state.time_zone_change = server_armed.server_state.time_zone_change ∧
      srv'.server_state.tai_utc_delta_new = server_armed.server_state.tai_utc_delta_new ∧
      srv'.server_state.tai_utc_delta_change =
        server_armed.server_state.tai_utc_delta_change :=
  ⟨by decide, update_time_delta_frame server_armed 5 100 (by decide)⟩

/-- C9, evaluated where it fails: `time_zone_offset_new` 192 lies outside -64..191,
yet `time_server_state_set_time_zone_offset` returns `NRF_SUCCESS` instead of
`NRF_ERROR_INVALID_PARAM` and stores the pending offset 192 and its change
instant. -/
theorem set_time_zone_offset_accepts_192 :
    (time_server_state_set_time_zone_offset access_ok (some server_armed)
      zone_params_192).status = NRF_SUCCESS ∧
    (time_server_state_set_time_zone_offset access_ok (some server_armed)
      zone_params_192).server =
      some { server_armed with server_state := { state_armed with
        time_zone_offset_new := 192, time_zone_change := 500 } } ∧
    (time_server_state_set_time_zone_offset access_ok (some server_armed)
      zone_params_192).server ≠ some server_armed := by
  decide

/-- C10: for every state and every argument with time_zone_change at most 2^40-1
and time_zone_offset_new in -64..191, after
`time_server_state_set_time_zone_offset` the fields time_zone_offset_new and
time_zone_change equal the arguments and every other field of the state (and of
the server record) is unchanged. -/
theorem set_time_zone_offset_frame (access : access_layer_t) (srv : time_server_t)
    (p : time_zone_set_params_t)
    (hchange : p.time_zone_change ≤ 2 ^ 40 - 1)
    (hlo : -64 ≤ p.time_zone_offset_new) (hhi : p.time_zone_offset_new ≤ 191) :
    (time_server_state_set_time_zone_offset access (some srv) p).server =
      some { srv with server_state := { srv.server_state with
        time_zone_offset_new := p.time_zone_offset_new
        time_zone_change := p.time_zone_change } } := by
  have hv : (validate_tai_time_arg p.time_zone_change &&
      validate_time_zone_offset_arg p.time_zone_offset_new) = true := by
    rw [Bool.and_eq_true]
    exact ⟨(validate_tai_time_arg_iff _).2 hchange,
      (validate_time_zone_offset_arg_iff _).2 ⟨hlo, by omega⟩⟩
  rw [set_time_zone_offset_server_of_valid access srv p hv, mod_BITS40_of_le _ hchange]

/-- C10 at a concrete input: `zone_params_valid` (offset -12 at TAI 500) applied to
`server_armed`. -/
theorem set_time_zone_offset_frame_witness :
    (-64 ≤ zone_params_valid.time_zone_offset_new ∧
      zone_params_valid.time_zone_offset_new ≤ 191) ∧
    (time_server_state_set_time_zone_offset access_ok (some server_armed)
      zone_params_valid).server =
      some { server_armed with server_state := { server_armed.server_state with
        time_zone_offset_new := zone_params_valid.time_zone_offset_new
        time_zone_change := zone_params_valid.time_zone_change } } :=
  ⟨by decide, set_time_zone_offset_frame access_ok server_armed zone_params_valid
    (by decide) (by decide) (by decide)⟩

/-! ## Theorems: delta setter, scheduled changes, role -/

/-- The result of `time_server_state_set_tai_utc_delta` on rejected arguments. -/
theorem set_tai_utc_delta_of_invalid (access : access_layer_t) (srv : time_server_t)
    (p : tai_utc_delta_set_params_t)
    (hv : (validate_tai_time_arg p.tai_utc_delta_change &&
      validate_tai_utc_delta_arg p.tai_utc_delta_new) = false) :
    time_server_state_set_tai_utc_delta access (some srv) p =
      { status := NRF_ERROR_INVALID_PARAM, server := some srv, calls := [] } := by
  simp only [time_server_state_set_tai_utc_delta, hv, Bool.not_false, if_true]

/-- The result of `time_server_state_set_tai_utc_delta` on accepted arguments. -/
theorem set_tai_utc_delta_of_valid (access : access_layer_t) (srv : time_server_t)
    (p : tai_utc_delta_set_params_t)
    (hv : (validate_tai_time_arg p.tai_utc_delta_change &&
      validate_tai_utc_delta_arg p.tai_utc_delta_new) = true) :
    (time_server_state_set_tai_utc_delta access (some srv) p).server =
      some { srv with server_state := { srv.server_state with
        tai_utc_delta_new := p.tai_utc_delta_new
        tai_utc_delta_change := p.tai_utc_delta_change % BITS40 } } ∧
    (srv.settings.publish_upon_state_change = false →
      (time_server_state_set_tai_utc_delta access (some srv) p).status = NRF_SUCCESS ∧
      (time_server_state_set_tai_utc_delta access (some srv) p).calls = []) := by
  simp only [time_server_state_set_tai_utc_delta, hv, Bool.not_true, Bool.false_eq_true,
    if_false]
  constructor
  · split <;> rfl
  · intro hp
    simp [hp]

/-- The validation of `time_server_state_set_tai_utc_delta` in terms of ranges. -/
theorem validate_delta_args_eq_false_iff (p : tai_utc_delta_set_params_t) :
    (validate_tai_time_arg p.tai_utc_delta_change &&
      validate_tai_utc_delta_arg p.tai_utc_delta_new) = false ↔
    (2 ^ 40 - 1 < p.tai_utc_delta_change ∨ p.tai_utc_delta_new < -255 ∨
      32512 < p.tai_utc_delta_new) := by
  rw [← Bool.not_eq_true, Bool.and_eq_true, validate_tai_time_arg_iff,
    validate_tai_utc_delta_arg_iff]
  omega

/-- C11, as stated, fails: with `publish_upon_state_change` on, a publish that
answers `NRF_ERROR_INVALID_PARAM`, and in-range arguments equal to the pending
values already stored, `time_server_state_set_tai_utc_delta` returns
`NRF_ERROR_INVALID_PARAM` with the state unchanged although no argument is out of
range. -/
theorem set_tai_utc_delta_iff_fails :
    ¬ (((time_server_state_set_tai_utc_delta access_unconfigured (some server_publishing)
          delta_params_same).status = NRF_ERROR_INVALID_PARAM ∧
        (time_server_state_set_tai_utc_delta access_unconfigured (some server_publishing)
          delta_params_same).server = some server_publishing) ↔
      (2 ^ 40 - 1 < delta_params_same.tai_utc_delta_change ∨
        delta_params_same.tai_utc_delta_new < -255 ∨
        32512 < delta_params_same.tai_utc_delta_new)) := by
  decide

/-- C11, amended: `time_server_state_set_tai_utc_delta` returns
`NRF_ERROR_INVALID_PARAM` with the state unchanged and no call made whenever
tai_utc_delta_change exceeds 2^40-1 or tai_utc_delta_new is outside -255..32512;
otherwise it stores exactly tai_utc_delta_new and tai_utc_delta_change and changes
no other field.  When `publish_upon_state_change` is off the accepted call returns
`NRF_SUCCESS`, so there the rejection happens if and only if an argument is out of
range; when it is on the status is that of the status publish. -/
theorem set_tai_utc_delta_spec (access : access_layer_t) (srv : time_server_t)
    (p : tai_utc_delta_set_params_t) :
    ((2 ^ 40 - 1 < p.tai_utc_delta_change ∨ p.tai_utc_delta_new < -255 ∨
        32512 < p.tai_utc_delta_new) →
      time_server_state_set_tai_utc_delta access (some srv) p =
        { status := NRF_ERROR_INVALID_PARAM, server := some srv, calls := [] }) ∧
    (¬ (2 ^ 40 - 1 < p.tai_utc_delta_change ∨ p.tai_utc_delta_new < -255 ∨
        32512 < p.tai_utc_delta_new) →
      (time_server_state_set_tai_utc_delta access (some srv) p).server =
        some { srv with server_state := { srv.server_state with
          tai_utc_delta_new := p.tai_utc_delta_new
          tai_utc_delta_change := p.tai_utc_delta_change } } ∧
      (srv.settings.publish_upon_state_change = false →
        (time_server_state_set_tai_utc_delta access (some srv) p).status = NRF_SUCCESS) ∧
      (srv.settings.publish_upon_state_change = true →
        (time_server_state_set_tai_utc_delta access (some srv) p).status =
          (time_server_tai_utc_delta_status_publish access
            { srv with server_state := { srv.server_state with
              tai_utc_delta_new := p.tai_utc_delta_new
              tai_utc_delta_change := p.tai_utc_delta_change } }).1)) ∧
    (srv.settings.publish_upon_state_change = false →
      ((time_server_state_set_tai_utc_delta access (some srv) p).status =
          NRF_ERROR_INVALID_PARAM ∧
        (time_server_state_set_tai_utc_delta access (some srv) p).server = some srv ↔
      (2 ^ 40 - 1 < p.tai_utc_delta_change ∨ p.tai_utc_delta_new < -255 ∨
        32512 < p.tai_utc_delta_new))) := by
  have hinv : (2 ^ 40 - 1 < p.tai_utc_delta_change ∨ p.tai_utc_delta_new < -255 ∨
        32512 < p.tai_utc_delta_new) →
      time_server_state_set_tai_utc_delta access (some srv) p =
        { status := NRF_ERROR_INVALID_PARAM, server := some srv, calls := [] } :=
    fun h => set_tai_utc_delta_of_invalid access srv p
      ((validate_delta_args_eq_false_iff p).2 h)
  refine ⟨hinv, ?_, ?_⟩
  · intro hok
    have hv : (validate_tai_time_arg p.tai_utc_delta_change &&
        validate_tai_utc_delta_arg p.tai_utc_delta_new) = true := by
      rw [← Bool.not_eq_false, validate_delta_args_eq_false_iff]
      exact hok
    have hc : p.tai_utc_delta_change % BITS40 = p.tai_utc_delta_change :=
      mod_BITS40_of_le _ (by omega)
    obtain ⟨h1, h2⟩ := set_tai_utc_delta_of_valid access srv p hv
    rw [hc] at h1
    refine ⟨h1, fun hp => (h2 hp).1, ?_⟩
    intro hp
    simp only [time_server_state_set_tai_utc_delta, hv, Bool.not_true, Bool.false_eq_true,
      if_false, hp, if_true, hc]
  · intro hp
    constructor
    · intro hst
      by_contra hok
      have hv : (validate_tai_time_arg p.tai_utc_delta_change &&
          validate_tai_utc_delta_arg p.tai_utc_delta_new) = true := by
        rw [← Bool.not_eq_false, validate_delta_args_eq_false_iff]
        exact hok
      have h2 := ((set_tai_utc_delta_of_valid access srv p hv).2 hp).1
      rw [h2] at hst
      exact absurd hst.1 (by decide)
    · intro h
      rw [hinv h]
      exact ⟨rfl, rfl⟩

/-- C12: `current_time_check_time_changes` sets time_zone_offset_current to
time_zone_offset_new exactly when time_zone_change is non-zero and equal to
tai_seconds, and leaves it alone otherwise; likewise for the delta pair.  In
particular a change instant of 0 never fires, even at tai_seconds = 0, and
tai_seconds strictly past the change instant does not fire. -/
theorem check_time_changes_exact (srv : time_server_t) :
    (current_time_check_time_changes srv).server_state.time_zone_offset_current =
      (if srv.server_state.time_zone_change ≠ 0 ∧
          srv.server_state.tai_seconds = srv.server_state.time_zone_change
        then srv.server_state.time_zone_offset_new
        else srv.server_state.time_zone_offset_current) ∧
    (current_time_check_time_changes srv).server_state.tai_utc_delta_current =
      (if srv.server_state.tai_utc_delta_change ≠ 0 ∧
          srv.server_state.tai_seconds = srv.server_state.tai_utc_delta_change
        then srv.server_state.tai_utc_delta_new
        else srv.server_state.tai_utc_delta_current) ∧
    (srv.server_state.time_zone_change = 0 →
      (current_time_check_time_changes srv).server_state.time_zone_offset_current =
        srv.server_state.time_zone_offset_current) ∧
    (srv.server_state.tai_utc_delta_change = 0 →
      (current_time_check_time_changes srv).server_state.tai_utc_delta_current =
        srv.server_state.tai_utc_delta_current) ∧
    (srv.server_state.time_zone_change < srv.server_state.tai_seconds →
      (current_time_check_time_changes srv).server_state.time_zone_offset_current =
        srv.server_state.time_zone_offset_current) ∧
    (srv.server_state.tai_utc_delta_change < srv.server_state.tai_seconds →
      (current_time_check_time_changes srv).server_state.tai_utc_delta_current =
        srv.server_state.tai_utc_delta_current) := by
  have hz : (current_time_check_time_changes srv).server_state.time_zone_offset_current =
      (if srv.server_state.time_zone_change ≠ 0 ∧
          srv.server_state.tai_seconds = srv.server_state.time_zone_change
        then srv.server_state.time_zone_offset_new
        else srv.server_state.time_zone_offset_current) := by
    simp only [current_time_check_time_changes, TIME_ZONE_CHANGE_UNKNOWN]
    split_ifs <;> simp_all
  have hd : (current_time_check_time_changes srv).server_state.tai_utc_delta_current =
      (if srv.server_state.tai_utc_delta_change ≠ 0 ∧
          srv.server_state.tai_seconds = srv.server_state.tai_utc_delta_change
        then srv.server_state.tai_utc_delta_new
        else srv.server_state.tai_utc_delta_current) := by
    simp only [current_time_check_time_changes, TAI_DELTA_CHANGE_UNKNOWN]
    split_ifs <;> simp_all
  refine ⟨hz, hd, ?_, ?_, ?_, ?_⟩
  · intro h
    rw [hz, if_neg (fun hc => hc.1 h)]
  · intro h
    rw [hd, if_neg (fun hc => hc.1 h)]
  · intro h
    rw [hz, if_neg (fun hc => by omega)]
  · intro h
    rw [hd, if_neg (fun hc => by omega)]

/-- The setup server after `time_setup_server_state_set_time_role`. -/
theorem set_time_role_server (access : access_layer_t) (srv : time_setup_server_t)
    (p : time_role_set_params_t) :
    (time_setup_server_state_set_time_role access (some srv) p).server =
      some { srv with time_server := { srv.time_server with
        server_state := { srv.time_server.server_state with
          time_role := p.time_role
          time_authority :=
            if p.time_role = TIME_ROLE_AUTHORITY then true
            else if p.time_role = TIME_ROLE_CLIENT ∨ p.time_role = TIME_ROLE_RELAY then false
            else srv.time_server.server_state.time_authority } } } := by
  simp only [time_setup_server_state_set_time_role]
  split_ifs <;> simp_all

/-- The setup server after `handle_time_role_set`. -/
theorem handle_time_role_set_server (access : access_layer_t)
    (callbacks : time_setup_server_callbacks_t) (p_rx_msg : access_message_rx_t)
    (p_msg_in : time_role_set_msg_pkt_t) (srv : time_setup_server_t) :
    (handle_time_role_set access callbacks p_rx_msg p_msg_in srv).1 =
      { srv with time_server := { srv.time_server with
        server_state := { srv.time_server.server_state with
          time_role := p_msg_in.time_role
          time_authority :=
            if p_msg_in.time_role = TIME_ROLE_AUTHORITY then true
            else if p_msg_in.time_role = TIME_ROLE_CLIENT ∨
                p_msg_in.time_role = TIME_ROLE_RELAY then false
            else srv.time_server.server_state.time_authority } } } := by
  simp only [handle_time_role_set]
  split_ifs <;> simp_all

/-- The authority flag that a role change to `r` leaves behind, given the old flag. -/
theorem role_matrix (r : Nat) (old : Bool) :
    (r = TIME_ROLE_AUTHORITY →
      (if r = TIME_ROLE_AUTHORITY then true
        else if r = TIME_ROLE_CLIENT ∨ r = TIME_ROLE_RELAY then false else old) = true) ∧
    (r = TIME_ROLE_CLIENT ∨ r = TIME_ROLE_RELAY →
      (if r = TIME_ROLE_AUTHORITY then true
        else if r = TIME_ROLE_CLIENT ∨ r = TIME_ROLE_RELAY then false else old) = false) ∧
    (r = TIME_ROLE_NONE →
      (if r = TIME_ROLE_AUTHORITY then true
        else if r = TIME_ROLE_CLIENT ∨ r = TIME_ROLE_RELAY then false else old) = old) := by
  refine ⟨fun h => by simp [h], fun h => ?_, fun h => ?_⟩
  · rcases h with h | h <;> simp [h, TIME_ROLE_AUTHORITY, TIME_ROLE_CLIENT, TIME_ROLE_RELAY]
  · simp [h, TIME_ROLE_AUTHORITY, TIME_ROLE_CLIENT, TIME_ROLE_RELAY, TIME_ROLE_NONE]

/-- C13: setting the role, by `time_setup_server_state_set_time_role` or by an
inbound RoleSet message (`handle_time_role_set`), stores the new role and leaves a
time_authority flag that is true when the new role is Authority, false when it is
Client or Relay, and the old flag when it is None; no other field of the state or
of the server changes. -/
theorem set_time_role_matrix (access : access_layer_t)
    (callbacks : time_setup_server_callbacks_t) (srv : time_setup_server_t)
    (p : time_role_set_params_t) (p_rx_msg : access_message_rx_t)
    (p_msg_in : time_role_set_msg_pkt_t) :
    (∃ a : Bool,
      (time_setup_server_state_set_time_role access (some srv) p).server =
        some { srv with time_server := { srv.time_server with
          server_state := { srv.time_server.server_state with
            time_role := p.time_role, time_authority := a } } } ∧
      (p.time_role = TIME_ROLE_AUTHORITY → a = true) ∧
      (p.time_role = TIME_ROLE_CLIENT ∨ p.time_role = TIME_ROLE_RELAY → a = false) ∧
      (p.time_role = TIME_ROLE_NONE → a = srv.time_server.server_state.time_authority)) ∧
    (∃ a : Bool,
      (handle_time_role_set access callbacks p_rx_msg p_msg_in srv).1 =
        { srv with time_server := { srv.time_server with
          server_state := { srv.time_server.server_state with
            time_role := p_msg_in.time_role, time_authority := a } } } ∧
      (p_msg_in.time_role = TIME_ROLE_AUTHORITY → a = true) ∧
      (p_msg_in.time_role = TIME_ROLE_CLIENT ∨ p_msg_in.time_role = TIME_ROLE_RELAY →
        a = false) ∧
      (p_msg_in.time_role = TIME_ROLE_NONE →
        a = srv.time_server.server_state.time_authority)) :=
  ⟨⟨_, set_time_role_server access srv p,
      role_matrix p.time_role srv.time_server.server_state.time_authority⟩,
    ⟨_, handle_time_role_set_server access callbacks p_rx_msg p_msg_in srv,
      role_matrix p_msg_in.time_role srv.time_server.server_state.time_authority⟩⟩

/-- The role invariant only reads `time_role` and `time_authority`. -/
theorem role_authority_inv_congr (s t : time_server_state_t)
    (hr : t.time_role = s.time_role) (ha : t.time_authority = s.time_authority)
    (h : role_authority_inv s) : role_authority_inv t := by
  unfold role_authority_inv at *
  rw [hr, ha]
  exact h

/-- The scheduled-change check preserves the role invariant. -/
theorem check_time_changes_inv (srv : time_server_t)
    (h : role_authority_inv srv.server_state) :
    role_authority_inv (current_time_check_time_changes srv).server_state :=
  role_authority_inv_congr _ _ (check_time_changes_frame srv).2.2.2.2.1
    (check_time_changes_frame srv).2.2.2.1 h

/-- The body of `handle_time_status` in terms of `time_status_accept`. -/
theorem handle_time_status_eq (access : access_layer_t)
    (callbacks : time_server_callbacks_t) (u : Bool) (p_rx_msg : access_message_rx_t)
    (p_msg_in : time_status_msg_pkt_t) (srv : time_server_t) :
    handle_time_status access callbacks u p_rx_msg p_msg_in srv =
      if srv.server_state.time_role == TIME_ROLE_NONE ||
          srv.server_state.time_role == TIME_ROLE_AUTHORITY then (srv, [])
      else if access.local_unicast_address == p_rx_msg.src then (srv, [])
      else if (time_status_accept p_msg_in srv).server_state.time_role == TIME_ROLE_RELAY then
        if p_msg_in.time_authority != 0 then
          ({ time_status_accept p_msg_in srv with server_state :=
              { (time_status_accept p_msg_in srv).server_state with
                time_authority := false } },
            time_status_cb_calls callbacks u p_msg_in ++
              (time_status_send access
                { time_status_accept p_msg_in srv with server_state :=
                  { (time_status_accept p_msg_in srv).server_state with
                    time_authority := false } } none).2)
        else (time_status_accept p_msg_in srv, time_status_cb_calls callbacks u p_msg_in)
      else (time_status_accept p_msg_in srv, time_status_cb_calls callbacks u p_msg_in) :=
  rfl

/-- Fields of the server after `time_status_accept`. -/
theorem time_status_accept_fields (m : time_status_msg_pkt_t) (srv : time_server_t) :
    (time_status_accept m srv).server_state.tai_seconds = m.tai_seconds ∧
    (time_status_accept m srv).server_state.subsecond = m.subsecond ∧
    (time_status_accept m srv).server_state.uncertainty = m.uncertainty ∧
    (time_status_accept m srv).server_state.time_authority =
      srv.server_state.time_authority ∧
    (time_status_accept m srv).server_state.time_role = srv.server_state.time_role ∧
    (time_status_accept m srv).server_state.time_zone_offset_new =
      srv.server_state.time_zone_offset_new ∧
    (time_status_accept m srv).server_state.time_zone_change =
      srv.server_state.time_zone_change ∧
    (time_status_accept m srv).server_state.tai_utc_delta_new =
      srv.server_state.tai_utc_delta_new ∧
    (time_status_accept m srv).server_state.tai_utc_delta_change =
      srv.server_state.tai_utc_delta_change ∧
    (time_status_accept m srv).settings = srv.settings :=
  check_time_changes_frame _

/-- The Time Status handler preserves the role invariant. -/
theorem handle_time_status_inv (access : access_layer_t)
    (callbacks : time_server_callbacks_t) (u : Bool) (p_rx_msg : access_message_rx_t)
    (p_msg_in : time_status_msg_pkt_t) (srv : time_server_t)
    (h : role_authority_inv srv.server_state) :
    role_authority_inv
      (handle_time_status access callbacks u p_rx_msg p_msg_in srv).1.server_state := by
  have hacc : role_authority_inv (time_status_accept p_msg_in srv).server_state :=
    role_authority_inv_congr _ _ (time_status_accept_fields p_msg_in srv).2.2.2.2.1
      (time_status_accept_fields p_msg_in srv).2.2.2.1 h
  rw [handle_time_status_eq]
  split_ifs with h1 h2 h3 h4
  · exact h
  · exact h
  · simp only [beq_iff_eq] at h3
    simp only [role_authority_inv, h3]
    decide
  · exact hacc
  · exact hacc

/-- The time setter preserves the role invariant when the supplied flag agrees with
the role. -/
theorem set_time_inv (access : access_layer_t) (srv : time_server_t) (p : time_set_params_t)
    (h : role_authority_inv srv.server_state)
    (hp : role_authority_inv { srv.server_state with time_authority := p.time_authority })
    (t : time_server_t)
    (ht : (time_server_state_set_time access (some srv) p).server = some t) :
    role_authority_inv t.server_state := by
  simp only [time_server_state_set_time] at ht
  split_ifs at ht <;> simp only [Option.some.injEq] at ht <;> subst ht
  · exact h
  · exact role_authority_inv_congr _ _ rfl rfl hp
  · exact role_authority_inv_congr _ _ rfl rfl hp


/-- The zone setter preserves the role invariant. -/
theorem set_time_zone_offset_inv (access : access_layer_t) (srv : time_server_t)
    (p : time_zone_set_params_t) (h : role_authority_inv srv.server_state)
    (t : time_server_t)
    (ht : (time_server_state_set_time_zone_offset access (some srv) p).server = some t) :
    role_authority_inv t.server_state := by
  simp only [time_server_state_set_time_zone_offset] at ht
  split_ifs at ht <;> simp only [Option.some.injEq] at ht <;> subst ht
  · exact h
  · exact role_authority_inv_congr _ _ rfl rfl h
  · exact role_authority_inv_congr _ _ rfl rfl h

/-- The delta setter preserves the role invariant. -/
theorem set_tai_utc_delta_inv (access : access_layer_t) (srv : time_server_t)
    (p : tai_utc_delta_set_params_t) (h : role_authority_inv srv.server_state)
    (t : time_server_t)
    (ht : (time_server_state_set_tai_utc_delta access (some srv) p).server = some t) :
    role_authority_inv t.server_state := by
  simp only [time_server_state_set_tai_utc_delta] at ht
  split_ifs at ht <;> simp only [Option.some.injEq] at ht <;> subst ht
  · exact h
  · exact role_authority_inv_congr _ _ rfl rfl h
  · exact role_authority_inv_congr _ _ rfl rfl h

/-- A state whose flag is the one a role change leaves behind satisfies the role
invariant. -/
theorem role_authority_inv_of_matrix (s : time_server_state_t) (r : Nat) (old : Bool) :
    role_authority_inv { s with
      time_role := r
      time_authority :=
        if r = TIME_ROLE_AUTHORITY then true
        else if r = TIME_ROLE_CLIENT ∨ r = TIME_ROLE_RELAY then false
        else old } :=
  ⟨(role_matrix r old).1, (role_matrix r old).2.1⟩

/-- The role setter establishes the role invariant. -/
theorem set_time_role_inv (access : access_layer_t) (srv : time_setup_server_t)
    (p : time_role_set_params_t) (t : time_setup_server_t)
    (ht : (time_setup_server_state_set_time_role access (some srv) p).server = some t) :
    role_authority_inv t.time_server.server_state := by
  rw [set_time_role_server, Option.some.injEq] at ht
  subst ht
  exact role_authority_inv_of_matrix _ _ _

/-- The clock updates preserve the role invariant. -/
theorem update_time_inv (srv : time_server_t) (h : role_authority_inv srv.server_state)
    (tai_seconds subsecond delta_tai_seconds delta_subsecond uncertainty : Nat) :
    (∀ t, time_state_update_time (some srv) tai_seconds subsecond = some t →
      role_authority_inv t.server_state) ∧
    (∀ t, time_state_update_time_delta (some srv) delta_tai_seconds delta_subsecond =
      some t → role_authority_inv t.server_state) ∧
    (∀ t, time_state_update_uncertainty (some srv) uncertainty = some t →
      role_authority_inv t.server_state) := by
  refine ⟨fun t ht => ?_, fun t ht => ?_, fun t ht => ?_⟩
  · simp only [time_state_update_time] at ht
    split_ifs at ht <;> simp only [Option.some.injEq] at ht <;> subst ht
    · exact h
    · exact check_time_changes_inv _ (role_authority_inv_congr _ _ rfl rfl h)
  · simp only [time_state_update_time_delta] at ht
    split_ifs at ht <;> simp only [Option.some.injEq] at ht <;> subst ht
    · exact h
    · exact check_time_changes_inv _ (role_authority_inv_congr _ _ rfl rfl h)
  · simp only [time_state_update_uncertainty, Option.some.injEq] at ht
    subst ht
    exact role_authority_inv_congr _ _ rfl rfl h


/-- C14, as stated, fails for `time_server_state_set_time`: a Relay whose
time_authority is false satisfies the predicate, and an accepted set_time call
whose argument has time_authority = true leaves a Relay with time_authority
true. -/
theorem set_time_breaks_role_invariant :
    role_authority_inv server_relay.server_state ∧
    (time_server_state_set_time access_ok (some server_relay) params_authority).status =
      NRF_SUCCESS ∧
    ∃ t, (time_server_state_set_time access_ok (some server_relay) params_authority).server =
        some t ∧
      t.server_state.time_role = TIME_ROLE_RELAY ∧ t.server_state.time_authority = true ∧
      ¬ role_authority_inv t.server_state :=
  ⟨by decide, by decide, _, rfl, by decide, by decide, by decide⟩

/-- C14, amended: the predicate (role = Authority implies time_authority = true)
and (role in {Client, Relay} implies time_authority = false) is preserved by
`time_server_state_set_time_zone_offset`, `time_server_state_set_tai_utc_delta`,
`time_setup_server_state_set_time_role`, the clock updates, and the inbound
TimeSet, ZoneSet, DeltaSet, RoleSet and TimeStatus handlers.
`time_server_state_set_time` stores the caller's time_authority flag and preserves
the predicate whenever that flag satisfies the predicate for the node's role. -/
theorem role_authority_inv_preserved (access : access_layer_t)
    (callbacks : time_server_callbacks_t) (setup_callbacks : time_setup_server_callbacks_t)
    (u : Bool) (srv : time_setup_server_t)
    (hinv : role_authority_inv srv.time_server.server_state)
    (time_params : time_set_params_t) (zone_params : time_zone_set_params_t)
    (delta_params : tai_utc_delta_set_params_t) (role_params : time_role_set_params_t)
    (tai_seconds subsecond delta_tai_seconds delta_subsecond uncertainty : Nat)
    (p_rx_msg : access_message_rx_t) (status_msg : time_status_msg_pkt_t)
    (set_msg : time_set_msg_pkt_t) (zone_msg : time_zone_set_msg_pkt_t)
    (delta_msg : tai_utc_delta_set_msg_pkt_t) (role_msg : time_role_set_msg_pkt_t) :
    (role_authority_inv
        { srv.time_server.server_state with time_authority := time_params.time_authority } →
      ∀ t, (time_server_state_set_time access (some srv.time_server) time_params).server =
        some t → role_authority_inv t.server_state) ∧
    (∀ t, (time_server_state_set_time_zone_offset access (some srv.time_server)
        zone_params).server = some t → role_authority_inv t.server_state) ∧
    (∀ t, (time_server_state_set_tai_utc_delta access (some srv.time_server)
        delta_params).server = some t → role_authority_inv t.server_state) ∧
    (∀ t, (time_setup_server_state_set_time_role access (some srv) role_params).server =
        some t → role_authority_inv t.time_server.server_state) ∧
    (∀ t, time_state_update_time (some srv.time_server) tai_seconds subsecond = some t →
      role_authority_inv t.server_state) ∧
    (∀ t, time_state_update_time_delta (some srv.time_server) delta_tai_seconds
        delta_subsecond = some t → role_authority_inv t.server_state) ∧
    (∀ t, time_state_update_uncertainty (some srv.time_server) uncertainty = some t →
      role_authority_inv t.server_state) ∧
    role_authority_inv
      (handle_time_set access setup_callbacks u p_rx_msg set_msg srv).1.time_server.server_state ∧
    role_authority_inv
      (handle_time_zone_set access setup_callbacks p_rx_msg zone_msg
        srv).1.time_server.server_state ∧
    role_authority_inv
      (handle_tai_utc_delta_set access setup_callbacks p_rx_msg delta_msg
        srv).1.time_server.server_state ∧
    role_authority_inv
      (handle_time_role_set access setup_callbacks p_rx_msg role_msg
        srv).1.time_server.server_state ∧
    role_authority_inv
      (handle_time_status access callbacks u p_rx_msg status_msg
        srv.time_server).1.server_state := by
  refine ⟨fun hp t ht => set_time_inv access _ _ hinv hp t ht,
    fun t ht => set_time_zone_offset_inv access _ _ hinv t ht,
    fun t ht => set_tai_utc_delta_inv access _ _ hinv t ht,
    fun t ht => set_time_role_inv access _ _ t ht,
    (update_time_inv _ hinv tai_seconds subsecond delta_tai_seconds delta_subsecond
      uncertainty).1,
    (update_time_inv _ hinv tai_seconds subsecond delta_tai_seconds delta_subsecond
      uncertainty).2.1,
    (update_time_inv _ hinv tai_seconds subsecond delta_tai_seconds delta_subsecond
      uncertainty).2.2,
    role_authority_inv_congr _ _ rfl rfl hinv,
    role_authority_inv_congr _ _ rfl rfl hinv,
    role_authority_inv_congr _ _ rfl rfl hinv, ?_,
    handle_time_status_inv access callbacks u p_rx_msg status_msg _ hinv⟩
  rw [handle_time_role_set_server]
  exact role_authority_inv_of_matrix _ _ _

/-- C14 at a concrete input: the Relay `setup_server_relay`, whose state satisfies
the predicate, under each operation; the set_time argument `params_no_authority`
agrees with the Relay role. -/
theorem role_authority_inv_preserved_witness :
    role_authority_inv setup_server_relay.time_server.server_state ∧
    ((role_authority_inv
        { setup_server_relay.time_server.server_state with
          time_authority := params_no_authority.time_authority } →
      ∀ t, (time_server_state_set_time access_ok (some setup_server_relay.time_server)
        params_no_authority).server = some t → role_authority_inv t.server_state) ∧
    (∀ t, (time_server_state_set_time_zone_offset access_ok
        (some setup_server_relay.time_server) zone_params_valid).server = some t →
      role_authority_inv t.server_state) ∧
    (∀ t, (time_server_state_set_tai_utc_delta access_ok
        (some setup_server_relay.time_server) delta_params_same).server = some t →
      role_authority_inv t.server_state) ∧
    (∀ t, (time_setup_server_state_set_time_role access_ok (some setup_server_relay)
        { time_role := TIME_ROLE_AUTHORITY }).server = some t →
      role_authority_inv t.time_server.server_state) ∧
    (∀ t, time_state_update_time (some setup_server_relay.time_server) 100 0 = some t →
      role_authority_inv t.server_state) ∧
    (∀ t, time_state_update_time_delta (some setup_server_relay.time_server) 1 0 =
      some t → role_authority_inv t.server_state) ∧
    (∀ t, time_state_update_uncertainty (some setup_server_relay.time_server) 9 = some t →
      role_authority_inv t.server_state) ∧
    role_authority_inv
      (handle_time_set access_ok setup_callbacks_none false rx_from_9 time_set_pkt
        setup_server_relay).1.time_server.server_state ∧
    role_authority_inv
      (handle_time_zone_set access_ok setup_callbacks_none rx_from_9 zone_set_pkt
        setup_server_relay).1.time_server.server_state ∧
    role_authority_inv
      (handle_tai_utc_delta_set access_ok setup_callbacks_none rx_from_9 delta_set_pkt
        setup_server_relay).1.time_server.server_state ∧
    role_authority_inv
      (handle_time_role_set access_ok setup_callbacks_none rx_from_9
        { time_role := TIME_ROLE_CLIENT } setup_server_relay).1.time_server.server_state ∧
    role_authority_inv
      (handle_time_status access_ok callbacks_none false rx_from_9 status_pkt_authority
        setup_server_relay.time_server).1.server_state) :=
  ⟨by decide, role_authority_inv_preserved access_ok callbacks_none setup_callbacks_none
    false setup_server_relay (by decide) params_no_authority zone_params_valid
    delta_params_same { time_role := TIME_ROLE_AUTHORITY } 100 0 1 0 9 rx_from_9
    status_pkt_authority time_set_pkt zone_set_pkt delta_set_pkt
    { time_role := TIME_ROLE_CLIENT }⟩

/-! ## Theorems: the inbound Time Status handler -/

/-- No callback invocation is a publish. -/
theorem published_time_status_cb_calls (callbacks : time_server_callbacks_t) (u : Bool)
    (m : time_status_msg_pkt_t) : published (time_status_cb_calls callbacks u m) = [] := by
  unfold time_status_cb_calls
  split <;> rfl

/-- The publishes in a list of calls that starts with the callback invocation. -/
theorem published_cb_calls_append (callbacks : time_server_callbacks_t) (u : Bool)
    (m : time_status_msg_pkt_t) (l : List access_call) :
    published (time_status_cb_calls callbacks u m ++ l) = published l := by
  unfold time_status_cb_calls
  split <;> rfl

/-- The publish path of `time_status_send` on a known time with an accepted TTL
change: one publish of the long-form packet built from the state. -/
theorem time_status_send_publish (access : access_layer_t) (srv : time_server_t)
    (htai : srv.server_state.tai_seconds ≠ 0)
    (httl : access.publish_ttl_set_status = NRF_SUCCESS) :
    published (time_status_send access srv none).2 =
      [{ opcode := ACCESS_OPCODE_SIG TIME_OPCODE_STATUS
         p_buffer := msg_pkt_t.time_status
           { tai_seconds := srv.server_state.tai_seconds
             subsecond := srv.server_state.subsecond
             uncertainty := srv.server_state.uncertainty
             time_authority := if srv.server_state.time_authority then 1 else 0
             tai_utc_delta :=
               tai_utc_delta_encode srv.server_state.tai_utc_delta_current % 2 ^ 15
             time_zone_offset :=
               time_zone_offset_encode srv.server_state.time_zone_offset_current }
         length := TIME_STATUS_MAXLEN
         force_segmented := srv.settings.force_segmented
         transmic_size := srv.settings.transmic_size }] := by
  have h0 : (srv.server_state.tai_seconds == TAI_TIME_UNKNOWN) = false := by
    simp [TAI_TIME_UNKNOWN, htai]
  simp only [time_status_send, h0, httl, beq_self_eq_true, if_true, Bool.false_eq_true,
    if_false, published]

/-- The publish path of `time_status_send` publishes nothing on the unknown time
or when the TTL change is refused. -/
theorem time_status_send_publish_none (access : access_layer_t) (srv : time_server_t)
    (h : srv.server_state.tai_seconds = 0 ∨ access.publish_ttl_set_status ≠ NRF_SUCCESS) :
    published (time_status_send access srv none).2 = [] := by
  by_cases h0 : srv.server_state.tai_seconds = 0
  · simp [time_status_send, h0, TAI_TIME_UNKNOWN, published]
  · have httl : access.publish_ttl_set_status ≠ NRF_SUCCESS := h.resolve_left h0
    have h0b : (srv.server_state.tai_seconds == TAI_TIME_UNKNOWN) = false := by
      simp [TAI_TIME_UNKNOWN, h0]
    have h1b : (access.publish_ttl_set_status == NRF_SUCCESS) = false := by
      simp [httl]
    simp only [time_status_send, h0b, h1b, Bool.false_eq_true, if_false, published]

/-- Every packet that the publish path of `time_status_send` hands to the access
layer carries the time and the authority bit of the state. -/
theorem time_status_send_published_mem (access : access_layer_t) (srv : time_server_t)
    (msg : access_message_tx_t)
    (h : msg ∈ published (time_status_send access srv none).2) :
    ∃ pkt, msg.p_buffer = msg_pkt_t.time_status pkt ∧
      pkt.tai_seconds = srv.server_state.tai_seconds ∧
      pkt.time_authority = (if srv.server_state.time_authority then 1 else 0) := by
  by_cases hc : srv.server_state.tai_seconds ≠ 0 ∧
      access.publish_ttl_set_status = NRF_SUCCESS
  · rw [time_status_send_publish access srv hc.1 hc.2, List.mem_singleton] at h
    subst h
    exact ⟨_, rfl, rfl, rfl⟩
  · rw [time_status_send_publish_none access srv (by tauto)] at h
    exact absurd h (List.not_mem_nil _)


/-- The current zone offset and delta after `current_time_check_time_changes`. -/
theorem check_time_changes_current (srv : time_server_t) :
    (current_time_check_time_changes srv).server_state.time_zone_offset_current =
      (if srv.server_state.time_zone_change ≠ 0 ∧
          srv.server_state.tai_seconds = srv.server_state.time_zone_change
        then srv.server_state.time_zone_offset_new
        else srv.server_state.time_zone_offset_current) ∧
    (current_time_check_time_changes srv).server_state.tai_utc_delta_current =
      (if srv.server_state.tai_utc_delta_change ≠ 0 ∧
          srv.server_state.tai_seconds = srv.server_state.tai_utc_delta_change
        then srv.server_state.tai_utc_delta_new
        else srv.server_state.tai_utc_delta_current) := by
  constructor
  · simp only [current_time_check_time_changes, TIME_ZONE_CHANGE_UNKNOWN]
    split_ifs <;> simp_all
  · simp only [current_time_check_time_changes, TAI_DELTA_CHANGE_UNKNOWN]
    split_ifs <;> simp_all

/-- `handle_time_status` when the role or the source address makes it return at
once. -/
theorem handle_time_status_of_ignored (access : access_layer_t)
    (callbacks : time_server_callbacks_t) (u : Bool) (p_rx_msg : access_message_rx_t)
    (m : time_status_msg_pkt_t) (srv : time_server_t)
    (h : srv.server_state.time_role = TIME_ROLE_NONE ∨
      srv.server_state.time_role = TIME_ROLE_AUTHORITY ∨
      access.local_unicast_address = p_rx_msg.src) :
    handle_time_status access callbacks u p_rx_msg m srv = (srv, []) := by
  rw [handle_time_status_eq]
  by_cases h1 : (srv.server_state.time_role == TIME_ROLE_NONE ||
      srv.server_state.time_role == TIME_ROLE_AUTHORITY) = true
  · rw [if_pos h1]
  · rw [if_neg h1]
    have h2 : (access.local_unicast_address == p_rx_msg.src) = true := by
      simp only [Bool.or_eq_true, beq_iff_eq, not_or] at h1
      simp only [beq_iff_eq]
      tauto
    rw [if_pos h2]

/-- `handle_time_status` on a Relay for a message from elsewhere with the authority
bit set. -/
theorem handle_time_status_of_relay_authority (access : access_layer_t)
    (callbacks : time_server_callbacks_t) (u : Bool) (p_rx_msg : access_message_rx_t)
    (m : time_status_msg_pkt_t) (srv : time_server_t)
    (hr : srv.server_state.time_role = TIME_ROLE_RELAY)
    (hs : access.local_unicast_address ≠ p_rx_msg.src) (ha : m.time_authority ≠ 0) :
    handle_time_status access callbacks u p_rx_msg m srv =
      ({ time_status_accept m srv with server_state :=
          { (time_status_accept m srv).server_state with time_authority := false } },
        time_status_cb_calls callbacks u m ++
          (time_status_send access
            { time_status_accept m srv with server_state :=
              { (time_status_accept m srv).server_state with
                time_authority := false } } none).2) := by
  have h1 : (srv.server_state.time_role == TIME_ROLE_NONE ||
      srv.server_state.time_role == TIME_ROLE_AUTHORITY) = false := by
    rw [hr]
    decide
  have h2 : (access.local_unicast_address == p_rx_msg.src) = false := by
    simp [hs]
  have h3 : ((time_status_accept m srv).server_state.time_role == TIME_ROLE_RELAY) = true := by
    rw [(time_status_accept_fields m srv).2.2.2.2.1, hr]
    decide
  have h4 : (m.time_authority != 0) = true := by
    simp [ha]
  rw [handle_time_status_eq]
  simp only [h1, h2, h3, h4, Bool.false_eq_true, if_false, if_true]

/-- `handle_time_status` on a Client, or on a Relay for a message with the
authority bit clear, from elsewhere. -/
theorem handle_time_status_of_quiet (access : access_layer_t)
    (callbacks : time_server_callbacks_t) (u : Bool) (p_rx_msg : access_message_rx_t)
    (m : time_status_msg_pkt_t) (srv : time_server_t)
    (hr : srv.server_state.time_role = TIME_ROLE_CLIENT ∨
      (srv.server_state.time_role = TIME_ROLE_RELAY ∧ m.time_authority = 0))
    (hs : access.local_unicast_address ≠ p_rx_msg.src) :
    handle_time_status access callbacks u p_rx_msg m srv =
      (time_status_accept m srv, time_status_cb_calls callbacks u m) := by
  have h1 : (srv.server_state.time_role == TIME_ROLE_NONE ||
      srv.server_state.time_role == TIME_ROLE_AUTHORITY) = false := by
    rcases hr with hr | ⟨hr, -⟩ <;> rw [hr] <;> decide
  have h2 : (access.local_unicast_address == p_rx_msg.src) = false := by
    simp [hs]
  rw [handle_time_status_eq]
  simp only [h1, h2, Bool.false_eq_true, if_false]
  rcases hr with hr | ⟨hr, ha⟩
  · have h3 : ((time_status_accept m srv).server_state.time_role == TIME_ROLE_RELAY) =
        false := by
      rw [(time_status_accept_fields m srv).2.2.2.2.1, hr]
      decide
    simp only [h3, Bool.false_eq_true, if_false]
  · have h4 : (m.time_authority != 0) = false := by
      simp [ha]
    simp only [h4, Bool.false_eq_true, if_false, ite_self]

/-- C15: for every state whose role is None or Authority, every inbound TimeStatus
and every source address, `handle_time_status` leaves the server unchanged and
makes no call at all, so it emits no publish. -/
theorem handle_time_status_none_authority (access : access_layer_t)
    (callbacks : time_server_callbacks_t) (u : Bool) (p_rx_msg : access_message_rx_t)
    (m : time_status_msg_pkt_t) (srv : time_server_t)
    (hr : srv.server_state.time_role = TIME_ROLE_NONE ∨
      srv.server_state.time_role = TIME_ROLE_AUTHORITY) :
    (handle_time_status access callbacks u p_rx_msg m srv).1 = srv ∧
    (handle_time_status access callbacks u p_rx_msg m srv).2 = [] ∧
    published (handle_time_status access callbacks u p_rx_msg m srv).2 = [] := by
  have h := handle_time_status_of_ignored access callbacks u p_rx_msg m srv
    (hr.elim Or.inl (fun h => Or.inr (Or.inl h)))
  rw [h]
  exact ⟨rfl, rfl, rfl⟩

/-- C15 at a concrete input: the Authority `server_authority` receives
`status_pkt_authority` from address 9. -/
theorem handle_time_status_none_authority_witness :
    (server_authority.server_state.time_role = TIME_ROLE_NONE ∨
      server_authority.server_state.time_role = TIME_ROLE_AUTHORITY) ∧
    ((handle_time_status access_ok callbacks_none false rx_from_9 status_pkt_authority
        server_authority).1 = server_authority ∧
    (handle_time_status access_ok callbacks_none false rx_from_9 status_pkt_authority
        server_authority).2 = [] ∧
    published (handle_time_status access_ok callbacks_none false rx_from_9
        status_pkt_authority server_authority).2 = []) :=
  ⟨by decide, handle_time_status_none_authority access_ok callbacks_none false rx_from_9
    status_pkt_authority server_authority (by decide)⟩

/-- C16: for every state and every inbound TimeStatus whose source address equals
the node's own unicast address, `handle_time_status` leaves the server unchanged
and makes no call at all, so it publishes nothing, whatever the authority flag of
the message. -/
theorem handle_time_status_from_self (access : access_layer_t)
    (callbacks : time_server_callbacks_t) (u : Bool) (p_rx_msg : access_message_rx_t)
    (m : time_status_msg_pkt_t) (srv : time_server_t)
    (hs : p_rx_msg.src = access.local_unicast_address) :
    (handle_time_status access callbacks u p_rx_msg m srv).1 = srv ∧
    (handle_time_status access callbacks u p_rx_msg m srv).2 = [] ∧
    published (handle_time_status access callbacks u p_rx_msg m srv).2 = [] := by
  have h := handle_time_status_of_ignored access callbacks u p_rx_msg m srv
    (Or.inr (Or.inr hs.symm))
  rw [h]
  exact ⟨rfl, rfl, rfl⟩

/-- C16 at a concrete input: the Relay `server_relay` at address 1 receives
`status_pkt_authority` from address 1. -/
theorem handle_time_status_from_self_witness :
    rx_from_1.src = access_ok.local_unicast_address ∧
    ((handle_time_status access_ok callbacks_none false rx_from_1 status_pkt_authority
        server_relay).1 = server_relay ∧
    (handle_time_status access_ok callbacks_none false rx_from_1 status_pkt_authority
        server_relay).2 = [] ∧
    published (handle_time_status access_ok callbacks_none false rx_from_1
        status_pkt_authority server_relay).2 = []) :=
  ⟨by decide, handle_time_status_from_self access_ok callbacks_none false rx_from_1
    status_pkt_authority server_relay (by decide)⟩

/-- The server after `handle_time_status` on a Client or a Relay for a message from
elsewhere: the accepted state, up to the authority flag. -/
theorem handle_time_status_accepted (access : access_layer_t)
    (callbacks : time_server_callbacks_t) (u : Bool) (p_rx_msg : access_message_rx_t)
    (m : time_status_msg_pkt_t) (srv : time_server_t)
    (hr : srv.server_state.time_role = TIME_ROLE_CLIENT ∨
      srv.server_state.time_role = TIME_ROLE_RELAY)
    (hs : access.local_unicast_address ≠ p_rx_msg.src) :
    ∃ a : Bool,
      (handle_time_status access callbacks u p_rx_msg m srv).1 =
        { time_status_accept m srv with server_state :=
          { (time_status_accept m srv).server_state with time_authority := a } } ∧
      (srv.server_state.time_role = TIME_ROLE_CLIENT →
        a = srv.server_state.time_authority) := by
  rcases hr with hr | hr
  · refine ⟨srv.server_state.time_authority, ?_, fun _ => rfl⟩
    rw [handle_time_status_of_quiet access callbacks u p_rx_msg m srv (Or.inl hr) hs,
      ← (time_status_accept_fields m srv).2.2.2.1]
  · by_cases ha : m.time_authority = 0
    · refine ⟨srv.server_state.time_authority, ?_, fun _ => rfl⟩
      rw [handle_time_status_of_quiet access callbacks u p_rx_msg m srv (Or.inr ⟨hr, ha⟩) hs,
        ← (time_status_accept_fields m srv).2.2.2.1]
    · refine ⟨false, ?_, fun hc => ?_⟩
      · rw [handle_time_status_of_relay_authority access callbacks u p_rx_msg m srv hr hs ha]
      · rw [hr] at hc
        exact absurd hc (by decide)

/-- C17: for every state with role Client or Relay and every inbound TimeStatus
from a different address, after `handle_time_status` tai_seconds, subsecond and
uncertainty equal the message's fields; time_zone_offset_current is the decoded
zone byte of the message unless the node's own non-zero time_zone_change equals
the new tai_seconds, in which case it is time_zone_offset_new, and likewise for
the delta; the pending new/change fields and time_role are unchanged, and for role
Client time_authority is unchanged. -/
theorem handle_time_status_accepts (access : access_layer_t)
    (callbacks : time_server_callbacks_t) (u : Bool) (p_rx_msg : access_message_rx_t)
    (m : time_status_msg_pkt_t) (srv : time_server_t)
    (hr : srv.server_state.time_role = TIME_ROLE_CLIENT ∨
      srv.server_state.time_role = TIME_ROLE_RELAY)
    (hs : access.local_unicast_address ≠ p_rx_msg.src) :
    (handle_time_status access callbacks u p_rx_msg m srv).1.server_state.tai_seconds =
      m.tai_seconds ∧
    (handle_time_status access callbacks u p_rx_msg m srv).1.server_state.subsecond =
      m.subsecond ∧
    (handle_time_status access callbacks u p_rx_msg m srv).1.server_state.uncertainty =
      m.uncertainty ∧
    (handle_time_status access callbacks u p_rx_msg m
        srv).1.server_state.time_zone_offset_current =
      (if srv.server_state.time_zone_change ≠ 0 ∧
          m.tai_seconds = srv.server_state.time_zone_change
        then srv.server_state.time_zone_offset_new
        else time_zone_offset_decode m.time_zone_offset) ∧
    (handle_time_status access callbacks u p_rx_msg m
        srv).1.server_state.tai_utc_delta_current =
      (if srv.server_state.tai_utc_delta_change ≠ 0 ∧
          m.tai_seconds = srv.server_state.tai_utc_delta_change
        then srv.server_state.tai_utc_delta_new
        else tai_utc_delta_decode m.tai_utc_delta) ∧
    (handle_time_status access callbacks u p_rx_msg m
        srv).1.server_state.time_zone_offset_new = srv.server_state.time_zone_offset_new ∧
    (handle_time_status access callbacks u p_rx_msg m srv).1.server_state.time_zone_change =
      srv.server_state.time_zone_change ∧
    (handle_time_status access callbacks u p_rx_msg m srv).1.server_state.tai_utc_delta_new =
      srv.server_state.tai_utc_delta_new ∧
    (handle_time_status access callbacks u p_rx_msg m
        srv).1.server_state.tai_utc_delta_change = srv.server_state.tai_utc_delta_change ∧
    (handle_time_status access callbacks u p_rx_msg m srv).1.server_state.time_role =
      srv.server_state.time_role ∧
    (srv.server_state.time_role = TIME_ROLE_CLIENT →
      (handle_time_status access callbacks u p_rx_msg m srv).1.server_state.time_authority =
        srv.server_state.time_authority) := by
  obtain ⟨a, ha, hca⟩ := handle_time_status_accepted access callbacks u p_rx_msg m srv hr hs
  obtain ⟨f1, f2, f3, -, f5, f6, f7, f8, f9, -⟩ := time_status_accept_fields m srv
  have hcur := check_time_changes_current
    { srv with server_state := { srv.server_state with
      tai_seconds := m.tai_seconds
      subsecond := m.subsecond
      uncertainty := m.uncertainty
      time_zone_offset_current := time_zone_offset_decode m.time_zone_offset
      tai_utc_delta_current := tai_utc_delta_decode m.tai_utc_delta } }
  rw [ha]
  exact ⟨f1, f2, f3, hcur.1, hcur.2, f6, f7, f8, f9, f5, hca⟩

/-- C17 at a concrete input: the Client `server_client` (zone and delta changes
scheduled for TAI 100) receives `status_pkt_authority` (TAI 500, zone byte 60,
wire delta 292) from address 9 and ends with zone offset -4 and delta 37. -/
theorem handle_time_status_accepts_witness :
    (handle_time_status access_ok callbacks_none false rx_from_9 status_pkt_authority
        server_client).1 =
      { server_client with server_state := { state_client with
        tai_seconds := 500, subsecond := 11, uncertainty := 1,
        time_zone_offset_current := -4, tai_utc_delta_current := 37 } } ∧
    (handle_time_status access_ok callbacks_none false rx_from_9 status_pkt_authority
        server_client).1.server_state.tai_seconds = status_pkt_authority.tai_seconds ∧
    (handle_time_status access_ok callbacks_none false rx_from_9 status_pkt_authority
        server_client).1.server_state.time_role = server_client.server_state.time_role :=
  ⟨by decide,
    (handle_time_status_accepts access_ok callbacks_none false rx_from_9
      status_pkt_authority server_client (by decide) (by decide)).1,
    (handle_time_status_accepts access_ok callbacks_none false rx_from_9
      status_pkt_authority server_client (by decide) (by decide)).2.2.2.2.2.2.2.2.2.1⟩

/-- C18, as stated, fails: the Relay `server_relay` accepts from address 9 a
TimeStatus with the authority bit set that carries tai_seconds = 0; the state is
updated, but the publish path of `time_status_send` refuses the unknown time and
nothing is published. -/
theorem relay_unknown_time_not_republished :
    server_relay.server_state.time_role = TIME_ROLE_RELAY ∧
    status_pkt_unknown.time_authority = 1 ∧
    access_ok.local_unicast_address ≠ rx_from_9.src ∧
    (handle_time_status access_ok callbacks_none false rx_from_9 status_pkt_unknown
        server_relay).1 =
      { server_relay with server_state := { state_relay with
        tai_seconds := 0, subsecond := 11, uncertainty := 1,
        time_zone_offset_current := -4, tai_utc_delta_current := 37 } } ∧
    published (handle_time_status access_ok callbacks_none false rx_from_9
        status_pkt_unknown server_relay).2 = [] := by
  decide

/-- C18, amended: for every state with role Relay and every inbound TimeStatus with
the authority bit set and tai_seconds different from 0, from a different address,
`handle_time_status` updates the state from the message, clears time_authority,
and, when the access layer accepts the publish-TTL change, emits exactly one
publish: a long-form TimeStatus built from the updated state, whose authority bit
is 0. -/
theorem handle_time_status_relays (access : access_layer_t)
    (callbacks : time_server_callbacks_t) (u : Bool) (p_rx_msg : access_message_rx_t)
    (m : time_status_msg_pkt_t) (srv : time_server_t)
    (hr : srv.server_state.time_role = TIME_ROLE_RELAY)
    (hs : access.local_unicast_address ≠ p_rx_msg.src)
    (ha : m.time_authority ≠ 0) (htai : m.tai_seconds ≠ 0)
    (httl : access.publish_ttl_set_status = NRF_SUCCESS) :
    (handle_time_status access callbacks u p_rx_msg m srv).1 =
      { time_status_accept m srv with server_state :=
        { (time_status_accept m srv).server_state with time_authority := false } } ∧
    (handle_time_status access callbacks u p_rx_msg m srv).1.server_state.tai_seconds =
      m.tai_seconds ∧
    (handle_time_status access callbacks u p_rx_msg m srv).1.server_state.subsecond =
      m.subsecond ∧
    (handle_time_status access callbacks u p_rx_msg m srv).1.server_state.uncertainty =
      m.uncertainty ∧
    (handle_time_status access callbacks u p_rx_msg m srv).1.server_state.time_authority =
      false ∧
    published (handle_time_status access callbacks u p_rx_msg m srv).2 =
      [{ opcode := ACCESS_OPCODE_SIG TIME_OPCODE_STATUS
         p_buffer := msg_pkt_t.time_status
           { tai_seconds := m.tai_seconds
             subsecond := m.subsecond
             uncertainty := m.uncertainty
             time_authority := 0
             tai_utc_delta :=
               tai_utc_delta_encode
                 (handle_time_status access callbacks u p_rx_msg m
                   srv).1.server_state.tai_utc_delta_current % 2 ^ 15
             time_zone_offset :=
               time_zone_offset_encode
                 (handle_time_status access callbacks u p_rx_msg m
                   srv).1.server_state.time_zone_offset_current }
         length := TIME_STATUS_MAXLEN
         force_segmented := srv.settings.force_segmented
         transmic_size := srv.settings.transmic_size }] := by
  obtain ⟨f1, f2, f3, -, -, -, -, -, -, f10⟩ := time_status_accept_fields m srv
  rw [handle_time_status_of_relay_authority access callbacks u p_rx_msg m srv hr hs ha]
  refine ⟨rfl, f1, f2, f3, rfl, ?_⟩
  rw [published_cb_calls_append, time_status_send_publish access _ (by rw [f1]; exact htai)
    httl]
  simp only [f1, f2, f3, f10, Bool.false_eq_true, if_false]

/-- C18 at a concrete input: the Relay `server_relay` receives
`status_pkt_authority` from address 9 and republishes `relayed_message`. -/
theorem handle_time_status_relays_witness :
    (server_relay.server_state.time_role = TIME_ROLE_RELAY ∧
      status_pkt_authority.time_authority ≠ 0 ∧ status_pkt_authority.tai_seconds ≠ 0) ∧
    published (handle_time_status access_ok callbacks_none false rx_from_9
      status_pkt_authority server_relay).2 = [relayed_message] ∧
    (handle_time_status access_ok callbacks_none false rx_from_9 status_pkt_authority
      server_relay).1.server_state.time_authority = false :=
  ⟨by decide, by decide,
    (handle_time_status_relays access_ok callbacks_none false rx_from_9
      status_pkt_authority server_relay (by decide) (by decide) (by decide) (by decide)
      (by decide)).2.2.2.2.1⟩

/-- C19: for every state with role Relay and every inbound TimeStatus with the
authority bit clear from a different address, `handle_time_status` updates the
state from the message, emits no publish and leaves time_authority unchanged. -/
theorem handle_time_status_relay_quiet (access : access_layer_t)
    (callbacks : time_server_callbacks_t) (u : Bool) (p_rx_msg : access_message_rx_t)
    (m : time_status_msg_pkt_t) (srv : time_server_t)
    (hr : srv.server_state.time_role = TIME_ROLE_RELAY)
    (hs : access.local_unicast_address ≠ p_rx_msg.src)
    (ha : m.time_authority = 0) :
    (handle_time_status access callbacks u p_rx_msg m srv).1 = time_status_accept m srv ∧
    (handle_time_status access callbacks u p_rx_msg m srv).1.server_state.tai_seconds =
      m.tai_seconds ∧
    (handle_time_status access callbacks u p_rx_msg m srv).1.server_state.subsecond =
      m.subsecond ∧
    (handle_time_status access callbacks u p_rx_msg m srv).1.server_state.uncertainty =
      m.uncertainty ∧
    (handle_time_status access callbacks u p_rx_msg m srv).1.server_state.time_authority =
      srv.server_state.time_authority ∧
    published (handle_time_status access callbacks u p_rx_msg m srv).2 = [] := by
  obtain ⟨f1, f2, f3, f4, -⟩ := time_status_accept_fields m srv
  rw [handle_time_status_of_quiet access callbacks u p_rx_msg m srv (Or.inr ⟨hr, ha⟩) hs]
  exact ⟨rfl, f1, f2, f3, f4, published_time_status_cb_calls callbacks u m⟩

/-- C19 at a concrete input: the Relay `server_relay` receives
`status_pkt_relayed`, whose authority bit is clear, from address 9. -/
theorem handle_time_status_relay_quiet_witness :
    (server_relay.server_state.time_role = TIME_ROLE_RELAY ∧
      status_pkt_relayed.time_authority = 0) ∧
    (handle_time_status access_ok callbacks_none false rx_from_9 status_pkt_relayed
        server_relay).1 =
      { server_relay with server_state := { state_relay with
        tai_seconds := 500, subsecond := 11, uncertainty := 1,
        time_zone_offset_current := -4, tai_utc_delta_current := 37 } } ∧
    published (handle_time_status access_ok callbacks_none false rx_from_9
      status_pkt_relayed server_relay).2 = [] :=
  ⟨by decide, by decide,
    (handle_time_status_relay_quiet access_ok callbacks_none false rx_from_9
      status_pkt_relayed server_relay (by decide) (by decide) (by decide)).2.2.2.2.2⟩

/-- Every TimeStatus that `handle_time_status` publishes carries the time of the
inbound message and a cleared authority bit. -/
theorem handle_time_status_published_mem (access : access_layer_t)
    (callbacks : time_server_callbacks_t) (u : Bool) (p_rx_msg : access_message_rx_t)
    (m : time_status_msg_pkt_t) (srv : time_server_t) (msg : access_message_tx_t)
    (h : msg ∈ published (handle_time_status access callbacks u p_rx_msg m srv).2) :
    ∃ pkt, msg.p_buffer = msg_pkt_t.time_status pkt ∧
      pkt.tai_seconds = m.tai_seconds ∧ pkt.time_authority = 0 := by
  rw [handle_time_status_eq] at h
  split_ifs at h with h1 h2 h3 h4
  · exact absurd h (List.not_mem_nil _)
  · exact absurd h (List.not_mem_nil _)
  · rw [published_cb_calls_append] at h
    obtain ⟨pkt, hp, ht, hauth⟩ := time_status_send_published_mem access _ msg h
    exact ⟨pkt, hp, ht.trans (time_status_accept_fields m srv).1, hauth⟩
  · rw [published_time_status_cb_calls] at h
    exact absurd h (List.not_mem_nil _)
  · rw [published_time_status_cb_calls] at h
    exact absurd h (List.not_mem_nil _)

/-- C20: loop breaking across two relays.  Let A and B be Relay nodes with
different addresses.  Whenever A, handling an inbound TimeStatus, publishes a
message, delivering that message to B (its source is A's address) makes B update
its state from it, to the tai_seconds A received, and emit no publish; nothing is
sent back to A. -/
theorem relay_loop_broken (access_a access_b : access_layer_t)
    (callbacks_a callbacks_b : time_server_callbacks_t) (u_a u_b : Bool)
    (srv_a srv_b : time_server_t) (rx_a rx_b : access_message_rx_t)
    (m : time_status_msg_pkt_t) (msg : access_message_tx_t) (pkt : time_status_msg_pkt_t)
    (hra : srv_a.server_state.time_role = TIME_ROLE_RELAY)
    (hrb : srv_b.server_state.time_role = TIME_ROLE_RELAY)
    (haddr : access_a.local_unicast_address ≠ access_b.local_unicast_address)
    (hsrc : rx_b.src = access_a.local_unicast_address)
    (hpub : msg ∈ published (handle_time_status access_a callbacks_a u_a rx_a m srv_a).2)
    (hpkt : msg.p_buffer = msg_pkt_t.time_status pkt) :
    srv_a.server_state.time_role = TIME_ROLE_RELAY ∧
    (handle_time_status access_b callbacks_b u_b rx_b pkt srv_b).1 =
      time_status_accept pkt srv_b ∧
    (handle_time_status access_b callbacks_b u_b rx_b pkt srv_b).1.server_state.tai_seconds =
      m.tai_seconds ∧
    published (handle_time_status access_b callbacks_b u_b rx_b pkt srv_b).2 = [] := by
  obtain ⟨pkt2, hp, ht, hauth⟩ :=
    handle_time_status_published_mem access_a callbacks_a u_a rx_a m srv_a msg hpub
  rw [hpkt, msg_pkt_t.time_status.injEq] at hp
  subst hp
  have hs : access_b.local_unicast_address ≠ rx_b.src := by
    rw [hsrc]
    exact fun h => haddr h.symm
  rw [handle_time_status_of_quiet access_b callbacks_b u_b rx_b pkt srv_b
    (Or.inr ⟨hrb, hauth⟩) hs]
  exact ⟨hra, rfl, (time_status_accept_fields pkt srv_b).1.trans ht,
    published_time_status_cb_calls callbacks_b u_b pkt⟩

/-- C20 at a concrete input: the Relay at address 1 accepts `status_pkt_authority`
from address 9 and publishes `relayed_message`; a second Relay at address 2
receives it from address 1, moves to TAI 500 and publishes nothing. -/
theorem relay_loop_broken_witness :
    relayed_message ∈ published (handle_time_status access_ok callbacks_none false
      rx_from_9 status_pkt_authority server_relay).2 ∧
    (server_relay.server_state.time_role = TIME_ROLE_RELAY ∧
    (handle_time_status access_ok_2 callbacks_none false rx_from_1 status_pkt_relayed
        server_relay).1 = time_status_accept status_pkt_relayed server_relay ∧
    (handle_time_status access_ok_2 callbacks_none false rx_from_1 status_pkt_relayed
        server_relay).1.server_state.tai_seconds = status_pkt_authority.tai_seconds ∧
    published (handle_time_status access_ok_2 callbacks_none false rx_from_1
        status_pkt_relayed server_relay).2 = []) :=
  ⟨by decide, relay_loop_broken access_ok access_ok_2 callbacks_none callbacks_none false
    false server_relay server_relay rx_from_9 rx_from_1 status_pkt_authority
    relayed_message status_pkt_relayed (by decide) (by decide) (by decide) (by decide)
    (by decide) rfl⟩

/-! ## Theorems: Time Get, the status payload, publishing -/

/-- The zone byte of an offset in -64..191, and its decoding. -/
theorem time_zone_offset_encode_of_range (v : Int) (hlo : -64 ≤ v) (hhi : v ≤ 191) :
    (time_zone_offset_encode v : Int) = v + 64 ∧
    time_zone_offset_decode (time_zone_offset_encode v) = v := by
  have henc : (time_zone_offset_encode v : Int) = v + 64 := by
    simp only [time_zone_offset_encode, to_uint8, TIME_ZONE_STATE_OFFSET_FACTOR]
    omega
  refine ⟨henc, ?_⟩
  simp only [time_zone_offset_decode, to_int16, TIME_ZONE_STATE_OFFSET_FACTOR, henc]
  omega

/-- The 15-bit wire value of a delta in -255..32512, and its decoding. -/
theorem tai_utc_delta_encode_of_range (v : Int) (hlo : -255 ≤ v) (hhi : v ≤ 32512) :
    ((tai_utc_delta_encode v % 2 ^ 15 : Nat) : Int) = v + 255 ∧
    tai_utc_delta_decode (tai_utc_delta_encode v % 2 ^ 15) = v := by
  have henc : (tai_utc_delta_encode v : Int) = v + 255 := by
    simp only [tai_utc_delta_encode, to_uint16, TAI_DELTA_STATE_OFFSET_FACTOR]
    omega
  have hmod : tai_utc_delta_encode v % 2 ^ 15 = tai_utc_delta_encode v := by
    omega
  rw [hmod]
  refine ⟨henc, ?_⟩
  simp only [tai_utc_delta_decode, to_int32, TAI_DELTA_STATE_OFFSET_FACTOR, henc]
  omega

/-- The reply path of `time_status_send`: one reply, carrying
`time_status_message`. -/
theorem time_status_send_reply (access : access_layer_t) (srv : time_server_t)
    (p_rx_msg : access_message_rx_t) :
    time_status_send access srv (some p_rx_msg) =
      (access.reply_status, [access_call.reply p_rx_msg (time_status_message srv)]) :=
  rfl

/-- The publish path of `time_status_send` in terms of `time_status_message`. -/
theorem time_status_send_publish_message (access : access_layer_t) (srv : time_server_t)
    (htai : srv.server_state.tai_seconds ≠ 0)
    (httl : access.publish_ttl_set_status = NRF_SUCCESS) :
    published (time_status_send access srv none).2 = [time_status_message srv] := by
  have h0 : (srv.server_state.tai_seconds == TAI_TIME_UNKNOWN) = false := by
    simp [TAI_TIME_UNKNOWN, htai]
  simp only [time_status_send, time_status_message, h0, httl, beq_self_eq_true, if_true,
    Bool.false_eq_true, if_false, published]

/-- C21, as stated, fails when a `time_get_cb` is registered: the callback
`callbacks_refresh` receives the server through its non-`const` pointer and sets
the clock to TAI 777 before the reply is built, so the state after
`handle_time_get` differs from the state before. -/
theorem handle_time_get_callback_changes_state :
    (handle_time_get access_ok callbacks_refresh rx_from_9 server_armed).1 =
      { server_armed with server_state := { state_armed with tai_seconds := 777 } } ∧
    (handle_time_get access_ok callbacks_refresh rx_from_9 server_armed).1 ≠
      server_armed := by
  decide

/-- C21, amended: `handle_time_get` makes no store of its own.  The server after
the call is the one left by the registered `time_get_cb` (the server itself when
none is registered), and the handler makes exactly one call: a reply to the
request with the TimeStatus message built from that server; it publishes
nothing. -/
theorem handle_time_get_replies (access : access_layer_t)
    (callbacks : time_server_callbacks_t) (p_rx_msg : access_message_rx_t)
    (srv : time_server_t) :
    (handle_time_get access callbacks p_rx_msg srv).1 =
      (match callbacks.time_get_cb with
        | some time_get_cb => time_get_cb srv
        | none => srv) ∧
    (callbacks.time_get_cb = none →
      (handle_time_get access callbacks p_rx_msg srv).1 = srv) ∧
    (handle_time_get access callbacks p_rx_msg srv).2 =
      [access_call.reply p_rx_msg
        (time_status_message (handle_time_get access callbacks p_rx_msg srv).1)] ∧
    replied (handle_time_get access callbacks p_rx_msg srv).2 =
      [(p_rx_msg, time_status_message (handle_time_get access callbacks p_rx_msg srv).1)] ∧
    published (handle_time_get access callbacks p_rx_msg srv).2 = [] := by
  refine ⟨rfl, ?_, rfl, rfl, rfl⟩
  intro h
  simp only [handle_time_get, h]

/-- C22: for every state whose current zone offset lies in -64..191 and whose
current delta lies in -255..32512, the TimeStatus message built by
`time_status_send` (sent as the reply, and as the publish when the time is known)
has length 5 and only tai_seconds when tai_seconds = 0, and otherwise has length
10 and carries tai_seconds, subsecond, uncertainty, the authority bit, the delta
plus 255 in the 15-bit field and the zone offset plus 64 in the zone byte. -/
theorem time_status_payload (access : access_layer_t) (srv : time_server_t)
    (p_rx_msg : access_message_rx_t)
    (hzlo : -64 ≤ srv.server_state.time_zone_offset_current)
    (hzhi : srv.server_state.time_zone_offset_current ≤ 191)
    (hdlo : -255 ≤ srv.server_state.tai_utc_delta_current)
    (hdhi : srv.server_state.tai_utc_delta_current ≤ 32512) :
    (time_status_send access srv (some p_rx_msg)).2 =
      [access_call.reply p_rx_msg (time_status_message srv)] ∧
    (srv.server_state.tai_seconds ≠ 0 → access.publish_ttl_set_status = NRF_SUCCESS →
      published (time_status_send access srv none).2 = [time_status_message srv]) ∧
    (time_status_message srv).opcode = ACCESS_OPCODE_SIG TIME_OPCODE_STATUS ∧
    (srv.server_state.tai_seconds = 0 →
      (time_status_message srv).length = 5 ∧
      (time_status_message srv).p_buffer = msg_pkt_t.time_status
        { tai_seconds := 0, subsecond := 0, uncertainty := 0, time_authority := 0,
          tai_utc_delta := 0, time_zone_offset := 0 }) ∧
    (srv.server_state.tai_seconds ≠ 0 →
      (time_status_message srv).length = 10 ∧
      ∃ pkt, (time_status_message srv).p_buffer = msg_pkt_t.time_status pkt ∧
        pkt.tai_seconds = srv.server_state.tai_seconds ∧
        pkt.subsecond = srv.server_state.subsecond ∧
        pkt.uncertainty = srv.server_state.uncertainty ∧
        pkt.time_authority = (if srv.server_state.time_authority then 1 else 0) ∧
        (pkt.tai_utc_delta : Int) = srv.server_state.tai_utc_delta_current + 255 ∧
        (pkt.time_zone_offset : Int) = srv.server_state.time_zone_offset_current + 64) := by
  refine ⟨rfl, fun htai httl => time_status_send_publish_message access srv htai httl, rfl,
    ?_, ?_⟩
  · intro h0
    simp [time_status_message, h0, TAI_TIME_UNKNOWN, TIME_STATUS_MINLEN]
  · intro h0
    have hb : (srv.server_state.tai_seconds == TAI_TIME_UNKNOWN) = false := by
      simp [TAI_TIME_UNKNOWN, h0]
    simp only [time_status_message, hb, Bool.false_eq_true, if_false]
    refine ⟨rfl, _, rfl, rfl, rfl, rfl, rfl, ?_, ?_⟩
    · exact (tai_utc_delta_encode_of_range _ hdlo hdhi).1
    · exact (time_zone_offset_encode_of_range _ hzlo hzhi).1

/-- C22 at a concrete input: `server_client`, whose zone offset 4 and delta 36 are
in range, replies with `client_status_message`. -/
theorem time_status_payload_witness :
    (-64 ≤ server_client.server_state.time_zone_offset_current ∧
      server_client.server_state.time_zone_offset_current ≤ 191) ∧
    time_status_message server_client = client_status_message ∧
    (time_status_send access_ok server_client (some rx_from_9)).2 =
      [access_call.reply rx_from_9 (time_status_message server_client)] :=
  ⟨by decide, by decide,
    (time_status_payload access_ok server_client rx_from_9 (by decide) (by decide)
      (by decide) (by decide)).1⟩

/-- The status that the publish path of `time_status_send` returns. -/
theorem time_status_send_publish_status (access : access_layer_t) (srv : time_server_t) :
    (time_status_send access srv none).1 =
      if srv.server_state.tai_seconds = 0 then NRF_ERROR_INVALID_STATE
      else if access.publish_ttl_set_status = NRF_SUCCESS then access.publish_status
      else access.publish_ttl_set_status := by
  by_cases h0 : srv.server_state.tai_seconds = 0
  · simp [time_status_send, h0, TAI_TIME_UNKNOWN]
  · have hb : (srv.server_state.tai_seconds == TAI_TIME_UNKNOWN) = false := by
      simp [TAI_TIME_UNKNOWN, h0]
    by_cases h1 : access.publish_ttl_set_status = NRF_SUCCESS
    · simp only [time_status_send, hb, h1, beq_self_eq_true, if_true, Bool.false_eq_true,
        if_false, h0]
    · have hc : (access.publish_ttl_set_status == NRF_SUCCESS) = false := by
        simp [h1]
      simp only [time_status_send, hb, hc, Bool.false_eq_true, if_false, h0, h1]

/-- C23: for every state with role Client `time_server_time_status_publish`
returns `NRF_ERROR_FORBIDDEN` and makes no call (it takes the server through a
`const` pointer and returns no new state).  For every other role it is
`time_status_send` on the publish path, so it returns `NRF_ERROR_FORBIDDEN` only
if the access layer answers so. -/
theorem time_status_publish_forbidden (access : access_layer_t) (srv : time_server_t) :
    (srv.server_state.time_role = TIME_ROLE_CLIENT →
      time_server_time_status_publish access srv = (NRF_ERROR_FORBIDDEN, [])) ∧
    (srv.server_state.time_role ≠ TIME_ROLE_CLIENT →
      time_server_time_status_publish access srv = time_status_send access srv none) ∧
    (srv.server_state.time_role ≠ TIME_ROLE_CLIENT →
      access.publish_ttl_set_status ≠ NRF_ERROR_FORBIDDEN →
      access.publish_status ≠ NRF_ERROR_FORBIDDEN →
      (time_server_time_status_publish access srv).1 ≠ NRF_ERROR_FORBIDDEN) := by
  have hne : srv.server_state.time_role ≠ TIME_ROLE_CLIENT →
      time_server_time_status_publish access srv = time_status_send access srv none := by
    intro h
    simp [time_server_time_status_publish, h]
  refine ⟨fun h => by simp [time_server_time_status_publish, h], hne, ?_⟩
  intro h h1 h2
  rw [hne h, time_status_send_publish_status]
  split_ifs
  · decide
  · exact h2
  · exact h1

/-- C24, evaluated where it fails: on the Client `server_client` the periodic
publish callback `periodic_publish_serv_cb` calls `time_status_send` directly and
publishes the TimeStatus `client_status_message`, while the guarded sibling
`time_server_time_status_publish` refuses with `NRF_ERROR_FORBIDDEN`. -/
theorem periodic_publish_ignores_client_role :
    server_client.server_state.time_role = TIME_ROLE_CLIENT ∧
    published (periodic_publish_serv_cb access_ok callbacks_none server_client).2 =
      [client_status_message] ∧
    time_server_time_status_publish access_ok server_client = (NRF_ERROR_FORBIDDEN, []) := by
  decide


/-! ## Theorems: the Set handlers and the atomicity of the local setters -/

/-- C25, as stated, fails: with `publish_upon_state_change` on in both settings
records, the TimeSet, ZoneSet, DeltaSet and RoleSet handlers publish nothing. -/
theorem set_handlers_do_not_publish :
    setup_server_publishing.settings.publish_upon_state_change = true ∧
    setup_server_publishing.time_server.settings.publish_upon_state_change = true ∧
    published (handle_time_set access_ok setup_callbacks_none false rx_from_9 time_set_pkt
      setup_server_publishing).2 = [] ∧
    published (handle_time_zone_set access_ok setup_callbacks_none rx_from_9 zone_set_pkt
      setup_server_publishing).2 = [] ∧
    published (handle_tai_utc_delta_set access_ok setup_callbacks_none rx_from_9
      delta_set_pkt setup_server_publishing).2 = [] ∧
    published (handle_time_role_set access_ok setup_callbacks_none rx_from_9
      { time_role := TIME_ROLE_RELAY } setup_server_publishing).2 = [] := by
  decide

/-- C25, amended: for every inbound TimeSet, ZoneSet, DeltaSet or RoleSet message
the handler sends exactly one reply to the requester, the corresponding Status
(Time Status built from the updated server, Time Zone Status, TAI-UTC Delta Status,
Time Role Status), and publishes nothing, whatever `publish_upon_state_change`
is. -/
theorem set_handlers_reply (access : access_layer_t)
    (callbacks : time_setup_server_callbacks_t) (u : Bool) (p_rx_msg : access_message_rx_t)
    (set_msg : time_set_msg_pkt_t) (zone_msg : time_zone_set_msg_pkt_t)
    (delta_msg : tai_utc_delta_set_msg_pkt_t) (role_msg : time_role_set_msg_pkt_t)
    (srv : time_setup_server_t) :
    (replied (handle_time_set access callbacks u p_rx_msg set_msg srv).2 =
        [(p_rx_msg, time_status_message
          (handle_time_set access callbacks u p_rx_msg set_msg srv).1.time_server)] ∧
      published (handle_time_set access callbacks u p_rx_msg set_msg srv).2 = []) ∧
    ((∃ msg, replied (handle_time_zone_set access callbacks p_rx_msg zone_msg srv).2 =
          [(p_rx_msg, msg)] ∧
        msg.opcode = ACCESS_OPCODE_SIG TIME_OPCODE_ZONE_STATUS ∧
        msg.length = TIME_ZONE_STATUS_LEN) ∧
      published (handle_time_zone_set access callbacks p_rx_msg zone_msg srv).2 = []) ∧
    ((∃ msg, replied (handle_tai_utc_delta_set access callbacks p_rx_msg delta_msg srv).2 =
          [(p_rx_msg, msg)] ∧
        msg.opcode = ACCESS_OPCODE_SIG TIME_OPCODE_TAI_UTC_DELTA_STATUS ∧
        msg.length = TAI_UTC_DELTA_STATUS_LEN) ∧
      published (handle_tai_utc_delta_set access callbacks p_rx_msg delta_msg srv).2 = []) ∧
    ((∃ msg, replied (handle_time_role_set access callbacks p_rx_msg role_msg srv).2 =
          [(p_rx_msg, msg)] ∧
        msg.opcode = ACCESS_OPCODE_SIG TIME_OPCODE_ROLE_STATUS ∧
        msg.length = TIME_ROLE_STATUS_LEN) ∧
      published (handle_time_role_set access callbacks p_rx_msg role_msg srv).2 = []) := by
  refine ⟨?_, ?_, ?_, ?_⟩
  · simp only [handle_time_set, time_status_send_reply]
    split <;> exact ⟨rfl, rfl⟩
  · simp only [handle_time_zone_set, time_zone_status_send]
    split <;> exact ⟨⟨_, rfl, rfl, rfl⟩, rfl⟩
  · simp only [handle_tai_utc_delta_set, tai_utc_delta_status_send]
    split <;> exact ⟨⟨_, rfl, rfl, rfl⟩, rfl⟩
  · simp only [handle_time_role_set, time_role_status_send]
    split <;> exact ⟨⟨_, rfl, rfl, rfl⟩, rfl⟩


/-- A local setter of the time server that rejects its arguments at validation. -/
theorem setters_of_invalid (access : access_layer_t) (srv : time_server_t)
    (tp : time_set_params_t) (zp : time_zone_set_params_t)
    (dp : tai_utc_delta_set_params_t) :
    ((validate_tai_time_arg tp.tai_seconds &&
        validate_tai_utc_delta_arg tp.tai_utc_delta &&
        validate_time_zone_offset_arg (to_int16 (tp.time_zone_offset : Int))) = false →
      time_server_state_set_time access (some srv) tp =
        { status := NRF_ERROR_INVALID_PARAM, server := some srv, calls := [] }) ∧
    ((validate_tai_time_arg zp.time_zone_change &&
        validate_time_zone_offset_arg zp.time_zone_offset_new) = false →
      time_server_state_set_time_zone_offset access (some srv) zp =
        { status := NRF_ERROR_INVALID_PARAM, server := some srv, calls := [] }) ∧
    ((validate_tai_time_arg dp.tai_utc_delta_change &&
        validate_tai_utc_delta_arg dp.tai_utc_delta_new) = false →
      time_server_state_set_tai_utc_delta access (some srv) dp =
        { status := NRF_ERROR_INVALID_PARAM, server := some srv, calls := [] }) := by
  refine ⟨fun h => ?_, fun h => ?_, fun h => ?_⟩
  · simp only [time_server_state_set_time, h, Bool.not_false, if_true]
  · simp only [time_server_state_set_time_zone_offset, h, Bool.not_false, if_true]
  · simp only [time_server_state_set_tai_utc_delta, h, Bool.not_false, if_true]

/-- A local setter with `publish_upon_state_change` off returns `NRF_SUCCESS` once
its arguments pass the validation. -/
theorem setters_quiet_of_valid (access : access_layer_t) (srv : time_server_t)
    (tp : time_set_params_t) (zp : time_zone_set_params_t)
    (dp : tai_utc_delta_set_params_t)
    (hq : srv.settings.publish_upon_state_change = false) :
    ((validate_tai_time_arg tp.tai_seconds &&
        validate_tai_utc_delta_arg tp.tai_utc_delta &&
        validate_time_zone_offset_arg (to_int16 (tp.time_zone_offset : Int))) = true →
      (time_server_state_set_time access (some srv) tp).status = NRF_SUCCESS) ∧
    ((validate_tai_time_arg zp.time_zone_change &&
        validate_time_zone_offset_arg zp.time_zone_offset_new) = true →
      (time_server_state_set_time_zone_offset access (some srv) zp).status = NRF_SUCCESS) ∧
    ((validate_tai_time_arg dp.tai_utc_delta_change &&
        validate_tai_utc_delta_arg dp.tai_utc_delta_new) = true →
      (time_server_state_set_tai_utc_delta access (some srv) dp).status = NRF_SUCCESS) := by
  refine ⟨fun h => ?_, fun h => ?_, fun h => ?_⟩
  · simp [time_server_state_set_time, h, hq]
  · simp [time_server_state_set_time_zone_offset, h, hq]
  · simp [time_server_state_set_tai_utc_delta, h, hq]

/-- C26, as stated, fails: on the Client `server_client_publishing`, which has
`publish_upon_state_change` on, `time_server_state_set_time` with in-range
arguments stores them and then returns the `NRF_ERROR_FORBIDDEN` of the refused
status publish, so a code other than `NRF_SUCCESS` comes with a changed state. -/
theorem set_time_error_after_update :
    (time_server_state_set_time access_ok (some server_client_publishing)
      params_no_authority).status = NRF_ERROR_FORBIDDEN ∧
    NRF_ERROR_FORBIDDEN ≠ NRF_SUCCESS ∧
    (time_server_state_set_time access_ok (some server_client_publishing)
      params_no_authority).server =
      some { server_client_publishing with server_state := { state_client with
        tai_seconds := 50, subsecond := 7, uncertainty := 2, time_authority := false,
        time_zone_offset_current := 4, tai_utc_delta_current := 36 } } ∧
    (time_server_state_set_time access_ok (some server_client_publishing)
      params_no_authority).server ≠ some server_client_publishing := by
  decide

/-- The whole result of a local setter of the time server whose arguments pass
the validation: the stores, then the status publish when
`publish_upon_state_change` is on. -/
theorem setters_of_valid (access : access_layer_t) (srv : time_server_t)
    (tp : time_set_params_t) (zp : time_zone_set_params_t)
    (dp : tai_utc_delta_set_params_t) :
    ((validate_tai_time_arg tp.tai_seconds &&
        validate_tai_utc_delta_arg tp.tai_utc_delta &&
        validate_time_zone_offset_arg (to_int16 (tp.time_zone_offset : Int))) = true →
      time_server_state_set_time access (some srv) tp =
        if srv.settings.publish_upon_state_change then
          { status := (time_server_time_status_publish access (set_time_stored srv tp)).1
            server := some (set_time_stored srv tp)
            calls := (time_server_time_status_publish access (set_time_stored srv tp)).2 }
        else
          { status := NRF_SUCCESS, server := some (set_time_stored srv tp), calls := [] }) ∧
    ((validate_tai_time_arg zp.time_zone_change &&
        validate_time_zone_offset_arg zp.time_zone_offset_new) = true →
      time_server_state_set_time_zone_offset access (some srv) zp =
        if srv.settings.publish_upon_state_change then
          { status :=
              (time_server_time_zone_status_publish access
                (set_time_zone_offset_stored srv zp)).1
            server := some (set_time_zone_offset_stored srv zp)
            calls :=
              (time_server_time_zone_status_publish access
                (set_time_zone_offset_stored srv zp)).2 }
        else
          { status := NRF_SUCCESS, server := some (set_time_zone_offset_stored srv zp),
            calls := [] }) ∧
    ((validate_tai_time_arg dp.tai_utc_delta_change &&
        validate_tai_utc_delta_arg dp.tai_utc_delta_new) = true →
      time_server_state_set_tai_utc_delta access (some srv) dp =
        if srv.settings.publish_upon_state_change then
          { status :=
              (time_server_tai_utc_delta_status_publish access
                (set_tai_utc_delta_stored srv dp)).1
            server := some (set_tai_utc_delta_stored srv dp)
            calls :=
              (time_server_tai_utc_delta_status_publish access
                (set_tai_utc_delta_stored srv dp)).2 }
        else
          { status := NRF_SUCCESS, server := some (set_tai_utc_delta_stored srv dp),
            calls := [] }) := by
  refine ⟨fun h => ?_, fun h => ?_, fun h => ?_⟩
  · simp only [time_server_state_set_time, h, Bool.not_true, Bool.false_eq_true, if_false]
    rfl
  · simp only [time_server_state_set_time_zone_offset, h, Bool.not_true,
      Bool.false_eq_true, if_false]
    rfl
  · simp only [time_server_state_set_tai_utc_delta, h, Bool.not_true, Bool.false_eq_true,
      if_false]
    rfl

/-- The whole result of `time_setup_server_state_set_time_role`, which has no
validation: the stores, then the role status publish when
`publish_upon_state_change` is on. -/
theorem set_time_role_result (access : access_layer_t) (srv : time_setup_server_t)
    (rp : time_role_set_params_t) :
    time_setup_server_state_set_time_role access (some srv) rp =
      if srv.settings.publish_upon_state_change then
        { status :=
            (time_setup_server_time_role_status_publish access
              (set_time_role_stored srv rp)).1
          server := some (set_time_role_stored srv rp)
          calls :=
            (time_setup_server_time_role_status_publish access
              (set_time_role_stored srv rp)).2 }
      else
        { status := NRF_SUCCESS, server := some (set_time_role_stored srv rp),
          calls := [] } := by
  simp only [time_setup_server_state_set_time_role, set_time_role_stored]
  split_ifs <;> simp_all

/-- C26, amended: (1) a local setter that rejects its arguments at validation
returns `NRF_ERROR_INVALID_PARAM`, makes no call and leaves the server identical,
for every role and every `publish_upon_state_change` setting.  (2) With
`publish_upon_state_change` off, a code other than `NRF_SUCCESS` from
`time_server_state_set_time`, `time_server_state_set_time_zone_offset` or
`time_server_state_set_tai_utc_delta` means the server is identical to its pre-call
value, and `time_setup_server_state_set_time_role`, which has no validation,
stores the role and returns `NRF_SUCCESS`.  (3) With `publish_upon_state_change`
on, each setter stores its validated input and then makes the status publish,
whose status it returns; on a Client the time, zone and delta setters thus return
`NRF_ERROR_FORBIDDEN` with the input stored and no call made, and the role setter
returns the status of `access_model_publish`. -/
theorem setters_atomic (access : access_layer_t) (srv : time_server_t)
    (ssrv : time_setup_server_t) (tp : time_set_params_t) (zp : time_zone_set_params_t)
    (dp : tai_utc_delta_set_params_t) (rp : time_role_set_params_t) :
    (((validate_tai_time_arg tp.tai_seconds &&
        validate_tai_utc_delta_arg tp.tai_utc_delta &&
        validate_time_zone_offset_arg (to_int16 (tp.time_zone_offset : Int))) = false →
      time_server_state_set_time access (some srv) tp =
        { status := NRF_ERROR_INVALID_PARAM, server := some srv, calls := [] }) ∧
    ((validate_tai_time_arg zp.time_zone_change &&
        validate_time_zone_offset_arg zp.time_zone_offset_new) = false →
      time_server_state_set_time_zone_offset access (some srv) zp =
        { status := NRF_ERROR_INVALID_PARAM, server := some srv, calls := [] }) ∧
    ((validate_tai_time_arg dp.tai_utc_delta_change &&
        validate_tai_utc_delta_arg dp.tai_utc_delta_new) = false →
      time_server_state_set_tai_utc_delta access (some srv) dp =
        { status := NRF_ERROR_INVALID_PARAM, server := some srv, calls := [] })) ∧
    (srv.settings.publish_upon_state_change = false →
      ((time_server_state_set_time access (some srv) tp).status ≠ NRF_SUCCESS →
        (time_server_state_set_time access (some srv) tp).server = some srv) ∧
      ((time_server_state_set_time_zone_offset access (some srv) zp).status ≠ NRF_SUCCESS →
        (time_server_state_set_time_zone_offset access (some srv) zp).server = some srv) ∧
      ((time_server_state_set_tai_utc_delta access (some srv) dp).status ≠ NRF_SUCCESS →
        (time_server_state_set_tai_utc_delta access (some srv) dp).server = some srv)) ∧
    (ssrv.settings.publish_upon_state_change = false →
      time_setup_server_state_set_time_role access (some ssrv) rp =
        { status := NRF_SUCCESS, server := some (set_time_role_stored ssrv rp),
          calls := [] }) ∧
    (srv.settings.publish_upon_state_change = true →
      ((validate_tai_time_arg tp.tai_seconds &&
          validate_tai_utc_delta_arg tp.tai_utc_delta &&
          validate_time_zone_offset_arg (to_int16 (tp.time_zone_offset : Int))) = true →
        time_server_state_set_time access (some srv) tp =
          { status := (time_server_time_status_publish access (set_time_stored srv tp)).1
            server := some (set_time_stored srv tp)
            calls := (time_server_time_status_publish access (set_time_stored srv tp)).2 }) ∧
      ((validate_tai_time_arg zp.time_zone_change &&
          validate_time_zone_offset_arg zp.time_zone_offset_new) = true →
        time_server_state_set_time_zone_offset access (some srv) zp =
          { status :=
              (time_server_time_zone_status_publish access
                (set_time_zone_offset_stored srv zp)).1
            server := some (set_time_zone_offset_stored srv zp)
            calls :=
              (time_server_time_zone_status_publish access
                (set_time_zone_offset_stored srv zp)).2 }) ∧
      ((validate_tai_time_arg dp.tai_utc_delta_change &&
          validate_tai_utc_delta_arg dp.tai_utc_delta_new) = true →
        time_server_state_set_tai_utc_delta access (some srv) dp =
          { status :=
              (time_server_tai_utc_delta_status_publish access
                (set_tai_utc_delta_stored srv dp)).1
            server := some (set_tai_utc_delta_stored srv dp)
            calls :=
              (time_server_tai_utc_delta_status_publish access
                (set_tai_utc_delta_stored srv dp)).2 })) ∧
    (srv.settings.publish_upon_state_change = true →
      srv.server_state.time_role = TIME_ROLE_CLIENT →
      ((validate_tai_time_arg tp.tai_seconds &&
          validate_tai_utc_delta_arg tp.tai_utc_delta &&
          validate_time_zone_offset_arg (to_int16 (tp.time_zone_offset : Int))) = true →
        time_server_state_set_time access (some srv) tp =
          { status := NRF_ERROR_FORBIDDEN, server := some (set_time_stored srv tp),
            calls := [] }) ∧
      ((validate_tai_time_arg zp.time_zone_change &&
          validate_time_zone_offset_arg zp.time_zone_offset_new) = true →
        time_server_state_set_time_zone_offset access (some srv) zp =
          { status := NRF_ERROR_FORBIDDEN,
            server := some (set_time_zone_offset_stored srv zp), calls := [] }) ∧
      ((validate_tai_time_arg dp.tai_utc_delta_change &&
          validate_tai_utc_delta_arg dp.tai_utc_delta_new) = true →
        time_server_state_set_tai_utc_delta access (some srv) dp =
          { status := NRF_ERROR_FORBIDDEN,
            server := some (set_tai_utc_delta_stored srv dp), calls := [] })) ∧
    (ssrv.settings.publish_upon_state_change = true →
      (time_setup_server_state_set_time_role access (some ssrv) rp).server =
        some (set_time_role_stored ssrv rp) ∧
      (time_setup_server_state_set_time_role access (some ssrv) rp).status =
        access.publish_status ∧
      ∃ msg, (time_setup_server_state_set_time_role access (some ssrv) rp).calls =
          [access_call.publish msg] ∧
        msg.opcode = ACCESS_OPCODE_SIG TIME_OPCODE_ROLE_STATUS) := by
  have hinv := setters_of_invalid access srv tp zp dp
  have hok := setters_of_valid access srv tp zp dp
  have hrole := set_time_role_result access ssrv rp
  refine ⟨hinv, fun hq => ?_, fun hq => ?_, fun hp => ?_, fun hp hc => ?_, fun hp => ?_⟩
  · have hval := setters_quiet_of_valid access srv tp zp dp hq
    refine ⟨fun hst => ?_, fun hst => ?_, fun hst => ?_⟩
    · cases hv : (validate_tai_time_arg tp.tai_seconds &&
        validate_tai_utc_delta_arg tp.tai_utc_delta &&
        validate_time_zone_offset_arg (to_int16 (tp.time_zone_offset : Int)))
      · rw [hinv.1 hv]
      · exact absurd (hval.1 hv) hst
    · cases hv : (validate_tai_time_arg zp.time_zone_change &&
        validate_time_zone_offset_arg zp.time_zone_offset_new)
      · rw [hinv.2.1 hv]
      · exact absurd (hval.2.1 hv) hst
    · cases hv : (validate_tai_time_arg dp.tai_utc_delta_change &&
        validate_tai_utc_delta_arg dp.tai_utc_delta_new)
      · rw [hinv.2.2 hv]
      · exact absurd (hval.2.2 hv) hst
  · rw [hrole, hq]
    rfl
  · refine ⟨fun hv => ?_, fun hv => ?_, fun hv => ?_⟩
    · rw [hok.1 hv, hp]
      rfl
    · rw [hok.2.1 hv, hp]
      rfl
    · rw [hok.2.2 hv, hp]
      rfl
  · have h1 : (set_time_stored srv tp).server_state.time_role = TIME_ROLE_CLIENT := hc
    have h2 : (set_time_zone_offset_stored srv zp).server_state.time_role =
        TIME_ROLE_CLIENT := hc
    have h3 : (set_tai_utc_delta_stored srv dp).server_state.time_role =
        TIME_ROLE_CLIENT := hc
    refine ⟨fun hv => ?_, fun hv => ?_, fun hv => ?_⟩
    · rw [hok.1 hv, hp]
      simp [time_server_time_status_publish, h1]
    · rw [hok.2.1 hv, hp]
      simp [time_server_time_zone_status_publish, h2]
    · rw [hok.2.2 hv, hp]
      simp [time_server_tai_utc_delta_status_publish, h3]
  · rw [hrole, hp]
    exact ⟨rfl, rfl, _, rfl, rfl⟩

/-- C27, evaluated where it fails: the Relay `setup_server_relay` has
time_authority false and `params_authority` carries time_authority true.
`time_server_state_set_time` stores the flag, whereas `handle_time_set`, receiving
the Time Set message that encodes the same parameters (authority bit 1), never
writes time_authority; the two resulting states differ in that field. -/
theorem set_time_differs_from_time_set_message :
    (time_set_msg_of_params params_authority).time_authority = 1 ∧
    (time_server_state_set_time access_ok (some setup_server_relay.time_server)
      params_authority).server =
      some { server_relay with server_state := { state_relay with
        tai_seconds := 50, subsecond := 7, uncertainty := 2, time_authority := true,
        time_zone_offset_current := 4, tai_utc_delta_current := 36 } } ∧
    (handle_time_set access_ok setup_callbacks_none false rx_from_9
      (time_set_msg_of_params params_authority) setup_server_relay).1.time_server =
      { server_relay with server_state := { state_relay with
        tai_seconds := 50, subsecond := 7, uncertainty := 2, time_authority := false,
        time_zone_offset_current := 4, tai_utc_delta_current := 36 } } ∧
    (time_server_state_set_time access_ok (some setup_server_relay.time_server)
      params_authority).server ≠
      some (handle_time_set access_ok setup_callbacks_none false rx_from_9
        (time_set_msg_of_params params_authority) setup_server_relay).1.time_server := by
  decide

/-- C28: for every state and every parameter record with time_zone_offset_new in
-64..191 and time_zone_change at most 2^40-1, the time server after
`time_server_state_set_time_zone_offset` equals the time server after
`handle_time_zone_set` receives the ZoneSet message that carries
`time_zone_offset_encode time_zone_offset_new` and the same time_zone_change. -/
theorem set_time_zone_offset_refines_message (access access_rx : access_layer_t)
    (callbacks : time_setup_server_callbacks_t) (p_rx_msg : access_message_rx_t)
    (srv : time_setup_server_t) (p : time_zone_set_params_t)
    (hchange : p.time_zone_change ≤ 2 ^ 40 - 1)
    (hlo : -64 ≤ p.time_zone_offset_new) (hhi : p.time_zone_offset_new ≤ 191) :
    (time_server_state_set_time_zone_offset access (some srv.time_server) p).server =
      some (handle_time_zone_set access_rx callbacks p_rx_msg
        { time_zone_offset_new := time_zone_offset_encode p.time_zone_offset_new
          time_zone_change := p.time_zone_change } srv).1.time_server := by
  have hv : (validate_tai_time_arg p.time_zone_change &&
      validate_time_zone_offset_arg p.time_zone_offset_new) = true := by
    rw [Bool.and_eq_true]
    exact ⟨(validate_tai_time_arg_iff _).2 hchange,
      (validate_time_zone_offset_arg_iff _).2 ⟨hlo, by omega⟩⟩
  rw [set_time_zone_offset_server_of_valid access srv.time_server p hv,
    mod_BITS40_of_le _ hchange]
  simp only [handle_time_zone_set, (time_zone_offset_encode_of_range _ hlo hhi).2]

/-- C28 at a concrete input: `zone_params_valid` (offset -12 at TAI 500) applied to
the time server of `setup_server_relay`, against the ZoneSet message with zone
byte 52 and change instant 500. -/
theorem set_time_zone_offset_refines_message_witness :
    (time_zone_offset_encode zone_params_valid.time_zone_offset_new = 52 ∧
      zone_params_valid.time_zone_change ≤ 2 ^ 40 - 1) ∧
    (time_server_state_set_time_zone_offset access_ok (some setup_server_relay.time_server)
      zone_params_valid).server =
      some (handle_time_zone_set access_ok setup_callbacks_none rx_from_9
        { time_zone_offset_new :=
            time_zone_offset_encode zone_params_valid.time_zone_offset_new
          time_zone_change := zone_params_valid.time_zone_change }
        setup_server_relay).1.time_server :=
  ⟨by decide, set_time_zone_offset_refines_message access_ok access_ok setup_callbacks_none
    rx_from_9 setup_server_relay zone_params_valid (by decide) (by decide) (by decide)⟩


/-! ## Theorems: the time client -/

/-- C29: for every client whose reliable-request slot is not free,
`time_client_time_get` returns `NRF_ERROR_BUSY`, makes no call (no request is
issued) and leaves the client, with its outstanding request context
`access_message`, unchanged. -/
theorem time_client_time_get_busy (access : client_access_t) (c : time_client_t)
    (hbusy : access.reliable_model_is_free = false) :
    time_client_time_get access (some c) =
      { status := NRF_ERROR_BUSY, client := some c, calls := [] } ∧
    reliably_published (time_client_time_get access (some c)).calls = [] := by
  simp [time_client_time_get, hbusy, reliably_published]

/-- C29 at a concrete input: `client_waiting`, whose Time Get request is
outstanding, asks again. -/
theorem time_client_time_get_busy_witness :
    client_access_busy.reliable_model_is_free = false ∧
    (time_client_time_get client_access_busy (some client_waiting) =
      { status := NRF_ERROR_BUSY, client := some client_waiting, calls := [] } ∧
    reliably_published (time_client_time_get client_access_busy
      (some client_waiting)).calls = []) :=
  ⟨by decide, time_client_time_get_busy client_access_busy client_waiting (by decide)⟩

/-- The timeout setting after `time_client_init`. -/
theorem time_client_init_timeout (access : client_access_t) (c : time_client_t)
    (element_index : Nat) :
    ∃ c1, (time_client_init access (some c) element_index).client = some c1 ∧
      c1.settings.timeout =
        (if c.settings.timeout = 0 then MODEL_ACKNOWLEDGED_TRANSACTION_TIMEOUT
          else c.settings.timeout) := by
  simp only [time_client_init]
  split_ifs <;> simp_all

/-- The request that an idle client issues. -/
theorem time_client_time_get_free (access : client_access_t) (c : time_client_t)
    (hfree : access.reliable_model_is_free = true) :
    time_client_time_get access (some c) =
      { status := access.reliable_publish_status
        client := some { c with access_message :=
          { model_handle := c.model_handle
            message :=
              { opcode := { opcode := TIME_OPCODE_GET, company_id := ACCESS_COMPANY_ID_NONE }
                p_buffer := msg_pkt_t.null
                length := 0
                force_segmented := c.settings.force_segmented
                transmic_size := c.settings.transmic_size
                access_token := access.unique_token }
            reply_opcode :=
              { opcode := TIME_OPCODE_STATUS, company_id := ACCESS_COMPANY_ID_NONE }
            timeout := c.settings.timeout
            status_cb := true } }
        calls := [access_call.reliable_publish
          { model_handle := c.model_handle
            message :=
              { opcode := { opcode := TIME_OPCODE_GET, company_id := ACCESS_COMPANY_ID_NONE }
                p_buffer := msg_pkt_t.null
                length := 0
                force_segmented := c.settings.force_segmented
                transmic_size := c.settings.transmic_size
                access_token := access.unique_token }
            reply_opcode :=
              { opcode := TIME_OPCODE_STATUS, company_id := ACCESS_COMPANY_ID_NONE }
            timeout := c.settings.timeout
            status_cb := true }] } := by
  simp only [time_client_time_get, hfree, if_true, message_create, reliable_context_create]

/-- C30: for every idle client (the reliable-request slot is free),
`time_client_time_get` issues exactly one reliable request, whose opcode is
TimeGet, whose payload is empty (no buffer, length 0), whose expected reply opcode
is TimeStatus and whose timeout is the client's configured timeout; and on the
client left by `time_client_init` that timeout is the default
acknowledged-transaction timeout when 0 was configured and the configured value
otherwise. -/
theorem time_client_time_get_request (access_init access : client_access_t)
    (c c0 : time_client_t) (element_index : Nat)
    (hfree : access.reliable_model_is_free = true) :
    (∃ r, reliably_published (time_client_time_get access (some c)).calls = [r] ∧
      (time_client_time_get access (some c)).calls = [access_call.reliable_publish r] ∧
      r.message.opcode = { opcode := TIME_OPCODE_GET, company_id := ACCESS_COMPANY_ID_NONE } ∧
      r.message.p_buffer = msg_pkt_t.null ∧
      r.message.length = 0 ∧
      r.reply_opcode =
        { opcode := TIME_OPCODE_STATUS, company_id := ACCESS_COMPANY_ID_NONE } ∧
      r.timeout = c.settings.timeout) ∧
    (∃ c1 r, (time_client_init access_init (some c0) element_index).client = some c1 ∧
      reliably_published (time_client_time_get access (some c1)).calls = [r] ∧
      r.timeout =
        (if c0.settings.timeout = 0 then MODEL_ACKNOWLEDGED_TRANSACTION_TIMEOUT
          else c0.settings.timeout)) := by
  constructor
  · rw [time_client_time_get_free access c hfree]
    exact ⟨_, rfl, rfl, rfl, rfl, rfl, rfl, rfl⟩
  · obtain ⟨c1, h1, h2⟩ := time_client_init_timeout access_init c0 element_index
    have hget := time_client_time_get_free access c1 hfree
    refine ⟨c1, (reliable_context_create c1 TIME_OPCODE_STATUS
      { c1.access_message with
        message := message_create access c1 TIME_OPCODE_GET msg_pkt_t.null 0 }), h1, ?_, h2⟩
    rw [hget]
    rfl

/-- C30 at a concrete input: `client_default` (timeout 0) is initialised and asks
for the time; the request carries the default timeout of 30000000 microseconds. -/
theorem time_client_time_get_request_witness :
    client_access_free.reliable_model_is_free = true ∧
    reliably_published (time_client_time_get client_access_free
      (time_client_init client_access_free (some client_default) 0).client).calls =
      [{ model_handle := 3
         message :=
           { opcode := { opcode := 0x8237, company_id := 0xFFFF }
             p_buffer := msg_pkt_t.null, length := 0, force_segmented := false,
             transmic_size := 0, access_token := 42 }
         reply_opcode := { opcode := 0x5D, company_id := 0xFFFF }
         timeout := 30000000
         status_cb := true }] ∧
    ∃ c1 r, (time_client_init client_access_free (some client_default) 0).client = some c1 ∧
      reliably_published (time_client_time_get client_access_free (some c1)).calls = [r] ∧
      r.timeout =
        (if client_default.settings.timeout = 0 then MODEL_ACKNOWLEDGED_TRANSACTION_TIMEOUT
          else client_default.settings.timeout) :=
  ⟨by decide, by decide,
    (time_client_time_get_request client_access_free client_access_free client_default
      client_default 0 (by decide)).2⟩


/-! ## Theorems: the client callback, re-firing, wire values -/

/-- C31, evaluated where it fails: the client receives `status_pkt_west`, whose
authority bit is 1 and whose zone byte 0 decodes to the logical offset -64.  The
record handed to the registered `time_status_cb` has the time fields and the delta
of the message, but its time_authority is whatever the unassigned field held
(here false) and its `uint8_t` time_zone_offset is 192, not -64. -/
theorem client_status_callback_loses_fields :
    status_pkt_west.time_authority = 1 ∧
    time_zone_offset_decode status_pkt_west.time_zone_offset = -64 ∧
    status_delivered (client_handle_time_status client_callbacks_status false rx_from_9
      status_pkt_west client_waiting).2 =
      [{ tai_seconds := 500, subsecond := 11, uncertainty := 1, time_authority := false,
         tai_utc_delta := 37, time_zone_offset := 192 }] := by
  decide

/-- The scheduled-change check is idempotent. -/
theorem check_time_changes_idem (srv : time_server_t) :
    current_time_check_time_changes (current_time_check_time_changes srv) =
      current_time_check_time_changes srv := by
  simp only [current_time_check_time_changes]
  split_ifs <;> simp_all

/-- The result of `time_state_update_time` on a 40-bit instant. -/
theorem update_time_of_le (srv : time_server_t) (tai_seconds subsecond : Nat)
    (h : tai_seconds ≤ 2 ^ 40 - 1) :
    time_state_update_time (some srv) tai_seconds subsecond =
      some (current_time_check_time_changes
        { srv with server_state := { srv.server_state with
          tai_seconds := tai_seconds
          subsecond := subsecond } }) := by
  have hv : validate_tai_time_arg tai_seconds = true := (validate_tai_time_arg_iff _).2 h
  simp only [time_state_update_time, hv, Bool.not_true, Bool.false_eq_true, if_false,
    mod_BITS40_of_le _ h]

/-- C32: `current_time_check_time_changes` never modifies time_zone_offset_new,
time_zone_change, tai_utc_delta_new or tai_utc_delta_change and is idempotent; so
for every state with a non-zero time_zone_change (a 40-bit value), whether or not
the change has fired before, `time_state_update_time` to tai_seconds =
time_zone_change sets time_zone_offset_current to time_zone_offset_new and leaves
the pending zone pair in place. -/
theorem pending_slot_never_cleared (srv : time_server_t) (subsecond : Nat)
    (hne : srv.server_state.time_zone_change ≠ 0)
    (h40 : srv.server_state.time_zone_change ≤ 2 ^ 40 - 1) :
    (current_time_check_time_changes srv).server_state.time_zone_offset_new =
      srv.server_state.time_zone_offset_new ∧
    (current_time_check_time_changes srv).server_state.time_zone_change =
      srv.server_state.time_zone_change ∧
    (current_time_check_time_changes srv).server_state.tai_utc_delta_new =
      srv.server_state.tai_utc_delta_new ∧
    (current_time_check_time_changes srv).server_state.tai_utc_delta_change =
      srv.server_state.tai_utc_delta_change ∧
    current_time_check_time_changes (current_time_check_time_changes srv) =
      current_time_check_time_changes srv ∧
    ∃ srv', time_state_update_time (some srv) srv.server_state.time_zone_change subsecond =
        some srv' ∧
      srv'.server_state.time_zone_offset_current = srv.server_state.time_zone_offset_new ∧
      srv'.server_state.time_zone_offset_new = srv.server_state.time_zone_offset_new ∧
      srv'.server_state.time_zone_change = srv.server_state.time_zone_change ∧
      ∃ srv'', time_state_update_time (some srv') srv.server_state.time_zone_change
          subsecond = some srv'' ∧
        srv''.server_state.time_zone_offset_current =
          srv.server_state.time_zone_offset_new := by
  obtain ⟨-, -, -, -, -, f6, f7, f8, f9, -⟩ := check_time_changes_frame srv
  have hupd : ∀ s : time_server_t,
      s.server_state.time_zone_change = srv.server_state.time_zone_change →
      s.server_state.time_zone_offset_new = srv.server_state.time_zone_offset_new →
      ∃ t, time_state_update_time (some s) srv.server_state.time_zone_change subsecond =
          some t ∧
        t.server_state.time_zone_offset_current = srv.server_state.time_zone_offset_new ∧
        t.server_state.time_zone_offset_new = srv.server_state.time_zone_offset_new ∧
        t.server_state.time_zone_change = srv.server_state.time_zone_change := by
    intro s hc hn
    refine ⟨_, update_time_of_le s _ subsecond h40, ?_, ?_, ?_⟩
    · rw [check_time_changes_zone _ (by exact hc.symm) (by rw [← hc] at hne; exact hne)]
      exact hn
    · rw [(check_time_changes_frame _).2.2.2.2.2.1]
      exact hn
    · rw [(check_time_changes_frame _).2.2.2.2.2.2.1]
      exact hc
  obtain ⟨t, ht, h1, h2, h3⟩ := hupd srv rfl rfl
  obtain ⟨t2, ht2, h4, -, -⟩ := hupd t h3 h2
  exact ⟨f6, f7, f8, f9, check_time_changes_idem srv, t, ht, h1, h2, h3, t2, ht2, h4⟩

/-- C32 at a concrete input: `server_armed` (zone change to 8 scheduled for TAI
100) is set to TAI 100 and then, the change having fired, to TAI 100 again: the
current offset is 8 both times and the pending pair stays. -/
theorem pending_slot_never_cleared_witness :
    (server_armed.server_state.time_zone_change ≠ 0 ∧
      time_state_update_time (some server_armed) 100 0 =
        some { server_armed with server_state := { state_armed with
          tai_seconds := 100, subsecond := 0, time_zone_offset_current := 8,
          tai_utc_delta_current := 37 } }) ∧
    ∃ srv', time_state_update_time (some server_armed)
        server_armed.server_state.time_zone_change 0 = some srv' ∧
      srv'.server_state.time_zone_offset_current =
        server_armed.server_state.time_zone_offset_new ∧
      srv'.server_state.time_zone_offset_new =
        server_armed.server_state.time_zone_offset_new ∧
      srv'.server_state.time_zone_change = server_armed.server_state.time_zone_change ∧
      ∃ srv'', time_state_update_time (some srv')
          server_armed.server_state.time_zone_change 0 = some srv'' ∧
        srv''.server_state.time_zone_offset_current =
          server_armed.server_state.time_zone_offset_new :=
  ⟨by decide,
    (pending_slot_never_cleared server_armed 0 (by decide) (by decide)).2.2.2.2.2⟩


/-- The long-form packet inside `time_status_message`. -/
theorem time_status_message_long (srv : time_server_t)
    (htai : srv.server_state.tai_seconds ≠ 0) :
    (time_status_message srv).p_buffer = msg_pkt_t.time_status
      { tai_seconds := srv.server_state.tai_seconds
        subsecond := srv.server_state.subsecond
        uncertainty := srv.server_state.uncertainty
        time_authority := if srv.server_state.time_authority then 1 else 0
        tai_utc_delta := tai_utc_delta_encode srv.server_state.tai_utc_delta_current % 2 ^ 15
        time_zone_offset :=
          time_zone_offset_encode srv.server_state.time_zone_offset_current } ∧
    (time_status_message srv).length = TIME_STATUS_MAXLEN := by
  have hb : (srv.server_state.tai_seconds == TAI_TIME_UNKNOWN) = false := by
    simp [TAI_TIME_UNKNOWN, htai]
  constructor <;> simp [time_status_message, hb]

/-- C33: status wire round trip between nodes.  For every sender state with
tai_seconds different from 0, current zone offset in -64..191 and current delta in
-255..32512, if a Client with no change scheduled for that instant accepts, from
another address, the long-form TimeStatus that the sender's `time_status_send`
builds, then the receiver's tai_seconds, subsecond, uncertainty,
time_zone_offset_current and tai_utc_delta_current equal the sender's. -/
theorem status_round_trip (access : access_layer_t) (callbacks : time_server_callbacks_t)
    (u : Bool) (p_rx_msg : access_message_rx_t) (sender receiver : time_server_t)
    (pkt : time_status_msg_pkt_t)
    (htai : sender.server_state.tai_seconds ≠ 0)
    (hzlo : -64 ≤ sender.server_state.time_zone_offset_current)
    (hzhi : sender.server_state.time_zone_offset_current ≤ 191)
    (hdlo : -255 ≤ sender.server_state.tai_utc_delta_current)
    (hdhi : sender.server_state.tai_utc_delta_current ≤ 32512)
    (hrole : receiver.server_state.time_role = TIME_ROLE_CLIENT)
    (hs : access.local_unicast_address ≠ p_rx_msg.src)
    (hzp : receiver.server_state.time_zone_change = 0 ∨
      receiver.server_state.time_zone_change ≠ sender.server_state.tai_seconds)
    (hdp : receiver.server_state.tai_utc_delta_change = 0 ∨
      receiver.server_state.tai_utc_delta_change ≠ sender.server_state.tai_seconds)
    (hpkt : (time_status_message sender).p_buffer = msg_pkt_t.time_status pkt) :
    (time_status_message sender).length = 10 ∧
    (handle_time_status access callbacks u p_rx_msg pkt receiver).1.server_state.tai_seconds =
      sender.server_state.tai_seconds ∧
    (handle_time_status access callbacks u p_rx_msg pkt receiver).1.server_state.subsecond =
      sender.server_state.subsecond ∧
    (handle_time_status access callbacks u p_rx_msg pkt receiver).1.server_state.uncertainty =
      sender.server_state.uncertainty ∧
    (handle_time_status access callbacks u p_rx_msg pkt
        receiver).1.server_state.time_zone_offset_current =
      sender.server_state.time_zone_offset_current ∧
    (handle_time_status access callbacks u p_rx_msg pkt
        receiver).1.server_state.tai_utc_delta_current =
      sender.server_state.tai_utc_delta_current := by
  obtain ⟨hbuf, hlen⟩ := time_status_message_long sender htai
  rw [hbuf, msg_pkt_t.time_status.injEq] at hpkt
  subst hpkt
  rw [handle_time_status_of_quiet access callbacks u p_rx_msg _ receiver (Or.inl hrole) hs]
  obtain ⟨f1, f2, f3, -⟩ := time_status_accept_fields
    { tai_seconds := sender.server_state.tai_seconds
      subsecond := sender.server_state.subsecond
      uncertainty := sender.server_state.uncertainty
      time_authority := if sender.server_state.time_authority then 1 else 0
      tai_utc_delta :=
        tai_utc_delta_encode sender.server_state.tai_utc_delta_current % 2 ^ 15
      time_zone_offset :=
        time_zone_offset_encode sender.server_state.time_zone_offset_current } receiver
  refine ⟨hlen, f1, f2, f3, ?_, ?_⟩
  · rw [time_status_accept, (check_time_changes_current _).1,
      if_neg (fun hc => hzp.elim hc.1 (fun h => h hc.2.symm))]
    exact (time_zone_offset_encode_of_range _ hzlo hzhi).2
  · rw [time_status_accept, (check_time_changes_current _).2,
      if_neg (fun hc => hdp.elim hc.1 (fun h => h hc.2.symm))]
    exact (tai_utc_delta_encode_of_range _ hdlo hdhi).2

/-- C33 at a concrete input: the Authority `server_authority` (TAI 99, zone offset
4, delta 36) sends its status; the Client `server_client`, whose changes are
scheduled for TAI 100, receives it from address 9. -/
theorem status_round_trip_witness :
    (server_authority.server_state.tai_seconds ≠ 0 ∧
      server_client.server_state.time_role = TIME_ROLE_CLIENT) ∧
    (time_status_message server_authority).length = 10 ∧
    (handle_time_status access_ok callbacks_none false rx_from_9
      { tai_seconds := 99, subsecond := 200, uncertainty := 3, time_authority := 1,
        tai_utc_delta := 291, time_zone_offset := 68 }
      server_client).1.server_state.tai_seconds =
      server_authority.server_state.tai_seconds :=
  ⟨by decide,
    (status_round_trip access_ok callbacks_none false rx_from_9 server_authority
      server_client
      { tai_seconds := 99, subsecond := 200, uncertainty := 3, time_authority := 1,
        tai_utc_delta := 291, time_zone_offset := 68 }
      (by decide) (by decide) (by decide) (by decide) (by decide) (by decide) (by decide)
      (by decide) (by decide) (by decide)).1,
    (status_round_trip access_ok callbacks_none false rx_from_9 server_authority
      server_client
      { tai_seconds := 99, subsecond := 200, uncertainty := 3, time_authority := 1,
        tai_utc_delta := 291, time_zone_offset := 68 }
      (by decide) (by decide) (by decide) (by decide) (by decide) (by decide) (by decide)
      (by decide) (by decide) (by decide)).2.1⟩


/-- C35: for every state with role Client or Relay, when an inbound TimeStatus from
another address carries tai_seconds equal to the node's non-zero time_zone_change,
the resulting time_zone_offset_current is the node's own time_zone_offset_new, not
the zone offset of the message, and likewise the delta for a non-zero
tai_utc_delta_change; and the status that a Relay republishes in that call (the
authority bit of the message set, the TTL change accepted) carries the encoding of
the promoted values. -/
theorem handle_time_status_promotes (access : access_layer_t)
    (callbacks : time_server_callbacks_t) (u : Bool) (p_rx_msg : access_message_rx_t)
    (m : time_status_msg_pkt_t) (srv : time_server_t)
    (hr : srv.server_state.time_role = TIME_ROLE_CLIENT ∨
      srv.server_state.time_role = TIME_ROLE_RELAY)
    (hs : access.local_unicast_address ≠ p_rx_msg.src) :
    (srv.server_state.time_zone_change ≠ 0 →
      m.tai_seconds = srv.server_state.time_zone_change →
      (handle_time_status access callbacks u p_rx_msg m
          srv).1.server_state.time_zone_offset_current =
        srv.server_state.time_zone_offset_new ∧
      (srv.server_state.time_role = TIME_ROLE_RELAY → m.time_authority ≠ 0 →
        access.publish_ttl_set_status = NRF_SUCCESS →
        ∃ msg pkt, published (handle_time_status access callbacks u p_rx_msg m srv).2 =
            [msg] ∧
          msg.p_buffer = msg_pkt_t.time_status pkt ∧
          pkt.time_zone_offset =
            time_zone_offset_encode srv.server_state.time_zone_offset_new)) ∧
    (srv.server_state.tai_utc_delta_change ≠ 0 →
      m.tai_seconds = srv.server_state.tai_utc_delta_change →
      (handle_time_status access callbacks u p_rx_msg m
          srv).1.server_state.tai_utc_delta_current =
        srv.server_state.tai_utc_delta_new ∧
      (srv.server_state.time_role = TIME_ROLE_RELAY → m.time_authority ≠ 0 →
        access.publish_ttl_set_status = NRF_SUCCESS →
        ∃ msg pkt, published (handle_time_status access callbacks u p_rx_msg m srv).2 =
            [msg] ∧
          msg.p_buffer = msg_pkt_t.time_status pkt ∧
          pkt.tai_utc_delta =
            tai_utc_delta_encode srv.server_state.tai_utc_delta_new % 2 ^ 15)) := by
  have hcur := check_time_changes_current
    { srv with server_state := { srv.server_state with
      tai_seconds := m.tai_seconds
      subsecond := m.subsecond
      uncertainty := m.uncertainty
      time_zone_offset_current := time_zone_offset_decode m.time_zone_offset
      tai_utc_delta_current := tai_utc_delta_decode m.tai_utc_delta } }
  obtain ⟨a, ha, -⟩ := handle_time_status_accepted access callbacks u p_rx_msg m srv hr hs
  obtain ⟨f1, -⟩ := time_status_accept_fields m srv
  constructor
  · intro hne heq
    have hz : (time_status_accept m srv).server_state.time_zone_offset_current =
        srv.server_state.time_zone_offset_new := by
      rw [time_status_accept, hcur.1, if_pos ⟨hne, heq⟩]
    refine ⟨by rw [ha]; exact hz, fun hrelay hauth httl => ?_⟩
    rw [handle_time_status_of_relay_authority access callbacks u p_rx_msg m srv hrelay hs
      hauth, published_cb_calls_append,
      time_status_send_publish access _ (by rw [f1, heq]; exact hne) httl]
    exact ⟨_, _, rfl, rfl, by rw [← hz]⟩
  · intro hne heq
    have hd : (time_status_accept m srv).server_state.tai_utc_delta_current =
        srv.server_state.tai_utc_delta_new := by
      rw [time_status_accept, hcur.2, if_pos ⟨hne, heq⟩]
    refine ⟨by rw [ha]; exact hd, fun hrelay hauth httl => ?_⟩
    rw [handle_time_status_of_relay_authority access callbacks u p_rx_msg m srv hrelay hs
      hauth, published_cb_calls_append,
      time_status_send_publish access _ (by rw [f1, heq]; exact hne) httl]
    exact ⟨_, _, rfl, rfl, by rw [← hd]⟩

/-- C35 at a concrete input: the Relay `server_relay` (zone change to 8 and delta
change to 37 scheduled for TAI 100) receives from address 9 the status
`status_pkt_at_change` for TAI 100, which carries zone byte 60 (offset -4) and wire
delta 292; it ends with offset 8 and republishes zone byte 72 and wire delta 292
(the scheduled delta 37). -/
theorem handle_time_status_promotes_witness :
    (status_pkt_at_change.tai_seconds = server_relay.server_state.time_zone_change ∧
      time_zone_offset_decode status_pkt_at_change.time_zone_offset = -4) ∧
    published (handle_time_status access_ok callbacks_none false rx_from_9
      status_pkt_at_change server_relay).2 =
      [{ opcode := ACCESS_OPCODE_SIG TIME_OPCODE_STATUS
         p_buffer := msg_pkt_t.time_status
           { tai_seconds := 100, subsecond := 11, uncertainty := 1, time_authority := 0,
             tai_utc_delta := 292, time_zone_offset := 72 }
         length := 10
         force_segmented := false
         transmic_size := 0 }] ∧
    (handle_time_status access_ok callbacks_none false rx_from_9 status_pkt_at_change
      server_relay).1.server_state.time_zone_offset_current =
      server_relay.server_state.time_zone_offset_new :=
  ⟨by decide, by decide,
    ((handle_time_status_promotes access_ok callbacks_none false rx_from_9
      status_pkt_at_change server_relay (by decide) (by decide)).1 (by decide)
      (by decide)).1⟩

/-- C36: for every wire role byte r in 0..255, `handle_time_role_set` stores r as
the role without validation and sends one reply, a Time Role Status of length 1
whose byte is r; for r outside {1, 2, 3} time_authority is left unchanged. -/
theorem handle_time_role_set_any_byte (access : access_layer_t)
    (callbacks : time_setup_server_callbacks_t) (p_rx_msg : access_message_rx_t)
    (p_msg_in : time_role_set_msg_pkt_t) (srv : time_setup_server_t)
    (hr : p_msg_in.time_role ≤ 255) :
    (handle_time_role_set access callbacks p_rx_msg p_msg_in
        srv).1.time_server.server_state.time_role = p_msg_in.time_role ∧
    replied (handle_time_role_set access callbacks p_rx_msg p_msg_in srv).2 =
      [(p_rx_msg,
        { opcode := ACCESS_OPCODE_SIG TIME_OPCODE_ROLE_STATUS
          p_buffer := msg_pkt_t.time_role_status p_msg_in.time_role
          length := 1
          force_segmented := srv.settings.force_segmented
          transmic_size := srv.settings.transmic_size })] ∧
    (p_msg_in.time_role ≠ 1 → p_msg_in.time_role ≠ 2 → p_msg_in.time_role ≠ 3 →
      (handle_time_role_set access callbacks p_rx_msg p_msg_in
          srv).1.time_server.server_state.time_authority =
        srv.time_server.server_state.time_authority) := by
  have hmod : p_msg_in.time_role % 256 = p_msg_in.time_role := by omega
  refine ⟨?_, ?_, ?_⟩
  · rw [handle_time_role_set_server]
  · simp only [handle_time_role_set, time_role_status_send]
    split_ifs <;> simp [replied, hmod, TIME_ROLE_STATUS_LEN]
  · intro h1 h2 h3
    rw [handle_time_role_set_server]
    simp [TIME_ROLE_AUTHORITY, TIME_ROLE_CLIENT, TIME_ROLE_RELAY, h1, h2, h3]

/-- C36 at a concrete input: the undefined role byte 200 sent to
`setup_server_relay`. -/
theorem handle_time_role_set_any_byte_witness :
    (200 : Nat) ≤ 255 ∧
    (handle_time_role_set access_ok setup_callbacks_none rx_from_9 { time_role := 200 }
        setup_server_relay).1.time_server.server_state.time_role = 200 ∧
    replied (handle_time_role_set access_ok setup_callbacks_none rx_from_9
        { time_role := 200 } setup_server_relay).2 =
      [(rx_from_9,
        { opcode := ACCESS_OPCODE_SIG TIME_OPCODE_ROLE_STATUS
          p_buffer := msg_pkt_t.time_role_status 200
          length := 1
          force_segmented := setup_server_relay.settings.force_segmented
          transmic_size := setup_server_relay.settings.transmic_size })] :=
  ⟨by decide,
    (handle_time_role_set_any_byte access_ok setup_callbacks_none rx_from_9
      { time_role := 200 } setup_server_relay (by decide)).1,
    (handle_time_role_set_any_byte access_ok setup_callbacks_none rx_from_9
      { time_role := 200 } setup_server_relay (by decide)).2.1⟩

/-- C37: for every state with tai_seconds = 0 the publish path of
`time_status_send` returns `NRF_ERROR_INVALID_STATE` and makes no call, whereas
the reply path sends the 5-byte short form; consequently a Relay that accepts,
from another address, a TimeStatus with the authority bit set and tai_seconds = 0
updates its state (tai_seconds becomes 0, time_authority false) and publishes
nothing. -/
theorem unknown_time_not_published (access : access_layer_t) (srv : time_server_t)
    (p_rx_msg : access_message_rx_t) (callbacks : time_server_callbacks_t) (u : Bool)
    (m : time_status_msg_pkt_t) (relay : time_server_t)
    (h0 : srv.server_state.tai_seconds = 0)
    (hr : relay.server_state.time_role = TIME_ROLE_RELAY)
    (hs : access.local_unicast_address ≠ p_rx_msg.src)
    (ha : m.time_authority ≠ 0) (hm : m.tai_seconds = 0) :
    time_status_send access srv none = (NRF_ERROR_INVALID_STATE, []) ∧
    (time_status_send access srv (some p_rx_msg)).2 =
      [access_call.reply p_rx_msg (time_status_message srv)] ∧
    (time_status_message srv).length = 5 ∧
    (handle_time_status access callbacks u p_rx_msg m relay).1 =
      { time_status_accept m relay with server_state :=
        { (time_status_accept m relay).server_state with time_authority := false } } ∧
    (handle_time_status access callbacks u p_rx_msg m relay).1.server_state.tai_seconds =
      0 ∧
    (handle_time_status access callbacks u p_rx_msg m relay).1.server_state.subsecond =
      m.subsecond ∧
    published (handle_time_status access callbacks u p_rx_msg m relay).2 = [] := by
  obtain ⟨f1, f2, -⟩ := time_status_accept_fields m relay
  rw [handle_time_status_of_relay_authority access callbacks u p_rx_msg m relay hr hs ha]
  refine ⟨?_, rfl, ?_, rfl, f1.trans hm, f2, ?_⟩
  · simp [time_status_send, h0, TAI_TIME_UNKNOWN]
  · simp [time_status_message, h0, TAI_TIME_UNKNOWN, TIME_STATUS_MINLEN]
  · rw [published_cb_calls_append]
    exact time_status_send_publish_none access _ (Or.inl (f1.trans hm))

/-- C37 at a concrete input: `server_unknown` sends its status on both paths, and
the Relay `server_relay` receives `status_pkt_unknown` from address 9. -/
theorem unknown_time_not_published_witness :
    (server_unknown.server_state.tai_seconds = 0 ∧
      status_pkt_unknown.time_authority ≠ 0 ∧ status_pkt_unknown.tai_seconds = 0) ∧
    time_status_send access_ok server_unknown none = (NRF_ERROR_INVALID_STATE, []) ∧
    (time_status_send access_ok server_unknown (some rx_from_9)).2 =
      [access_call.reply rx_from_9 (time_status_message server_unknown)] ∧
    (time_status_message server_unknown).length = 5 :=
  ⟨by decide,
    (unknown_time_not_published access_ok server_unknown rx_from_9 callbacks_none false
      status_pkt_unknown server_relay (by decide) (by decide) (by decide) (by decide)
      (by decide)).1,
    (unknown_time_not_published access_ok server_unknown rx_from_9 callbacks_none false
      status_pkt_unknown server_relay (by decide) (by decide) (by decide) (by decide)
      (by decide)).2.1,
    (unknown_time_not_published access_ok server_unknown rx_from_9 callbacks_none false
      status_pkt_unknown server_relay (by decide) (by decide) (by decide) (by decide)
      (by decide)).2.2.1⟩

end TimeModel
